import Mathlib

/-!
VBDHOTEL booking backend (`server.js`)

A shallow embedding of the request handlers of `server.js` and proofs of the
properties stated about them.

Conventions of the embedding.

* A JavaScript number is a rational (`ℚ`); where the source can produce `NaN`
  the value is an `Option ℚ` with `none` for `NaN`.  A rational stands for the
  double nearest to it (`toDouble`).  The recomputation of a rating is carried
  out in doubles, every operation rounded to the nearest double; the other
  computations are exact.
* A `Date` is its time value in milliseconds (`Int`); `none` is an Invalid Date.
  A stored date is always valid (the schema casts and rejects invalid dates).
* The document store is a record of lists; a handler takes the store and returns
  the HTTP response together with the store after the request.  The store itself
  never fails, except that it refuses a document above its size limit
  (`maxBsonObjectSize`); what a handler does on a thrown exception (its `catch`
  block) is modelled where the exception follows from the request and the stored
  data.
* Identifiers are well-formed `ObjectId`s, and a field of a request body has the JSON type the
  handler expects (a string, a number); `none` is an absent field.  The handlers of the
  favorites and of `GET /api/hotels/:id` take the path parameter as the text the request
  spells, with the cast of the store as a parameter.
* The message of a 500 response is the `error.message` of the exception caught; the text
  given here names the exception and is not the wording of the runtime.
* Everything a handler reads from its environment (clock, random source, string
  parsers of the JavaScript runtime, outcome of side effects) is a field of
  `Runtime`.
-/

namespace VBDHotel

/-! ## JavaScript values -/

/-- Identifier of a stored document. -/
abbrev ObjectId := Nat

/-- Time value of a `Date` in milliseconds since the epoch; `none` is an Invalid Date. -/
abbrev JsDate := Option Int

/-- JavaScript number; `none` is `NaN` (and also the number read from `undefined`). -/
abbrev JsNum := Option ℚ

/-- Value of a `Mixed` schema field (objects and arrays are left out). -/
inductive JsValue where
  | undefined
  | null
  | bool (b : Bool)
  | num (q : ℚ)
  | str (s : String)
  deriving DecidableEq, Repr

/-- Truthiness of a value, as used by `if (v)` and `a && b`. -/
def JsValue.truthy : JsValue → Bool
  | .undefined => false
  | .null => false
  | .bool b => b
  | .num q => decide (q ≠ 0)
  | .str s => decide (s ≠ "")

/-- The abstract operation `ToNumber`; `stringToNumber` is the runtime's reading of a string. -/
def JsValue.toNumber (stringToNumber : String → JsNum) : JsValue → JsNum
  | .undefined => none
  | .null => some 0
  | .bool b => some (if b then 1 else 0)
  | .num q => some q
  | .str s => stringToNumber s

/-- Truthiness of an optional string field: absent and `""` are falsy. -/
def truthyStr : Option String → Bool
  | some s => decide (s ≠ "")
  | none => false

/-- Truthiness of an optional numeric field: absent, `NaN` and `0` are falsy. -/
def truthyNum : JsNum → Bool
  | some q => decide (q ≠ 0)
  | none => false

/-- The comparison `a < b` on numbers: false when either side is `NaN`. -/
def numLt (a b : JsNum) : Bool :=
  match a, b with
  | some x, some y => decide (x < y)
  | _, _ => false

/-- The comparison `a < b` on dates: false when either side is invalid. -/
def dateLt (a b : JsDate) : Bool :=
  match a, b with
  | some x, some y => decide (x < y)
  | _, _ => false

/-- The comparison `a <= b` on dates: false when either side is invalid. -/
def dateLe (a b : JsDate) : Bool :=
  match a, b with
  | some x, some y => decide (x ≤ y)
  | _, _ => false

/-- The constructor call `new Date(v)` on a request field holding a string. -/
def newDate (dateParse : String → JsDate) : Option String → JsDate
  | some s => dateParse s
  | none => none

/-- The function `Math.round`: nearest integer, halves towards `+∞`. -/
def mathRound (x : ℚ) : Int := ⌊x + 1 / 2⌋

/-- The function `Math.ceil`. -/
def mathCeil (x : ℚ) : Int := ⌈x⌉

/-! ## Double-precision arithmetic -/

/-- Halving `n` until it is below 2, at most `fuel` times: the number of halvings. -/
def floorLog2Aux : Nat → Nat → Nat
  | 0, _ => 0
  | fuel + 1, n => if n < 2 then 0 else floorLog2Aux fuel (n / 2) + 1

/-- The position of the leading bit of a positive natural number. -/
def floorLog2 (n : Nat) : Nat := floorLog2Aux n n

/-- The power `2 ^ z` for an integer exponent. -/
def pow2 (z : Int) : ℚ :=
  if 0 ≤ z then ((2 ^ z.toNat : Nat) : ℚ) else 1 / ((2 ^ (-z).toNat : Nat) : ℚ)

/-- The binary exponent of a positive rational: the `e` with `2 ^ e ≤ q < 2 ^ (e + 1)`. -/
def binaryExponent (q : ℚ) : Int :=
  let guess : Int := (floorLog2 q.num.natAbs : Int) - (floorLog2 q.den : Int)
  if pow2 guess ≤ q then guess else guess - 1

/-- Rounding to the nearest integer, a tie going to the even neighbour. -/
def roundHalfEven (x : ℚ) : Int :=
  let lower := ⌊x⌋
  if x - lower < 1 / 2 then lower
  else if 1 / 2 < x - lower then lower + 1
  else if lower % 2 = 0 then lower else lower + 1

/-- The double nearest to a positive rational: 53 significant bits, ties to even. -/
def toDoublePos (q : ℚ) : ℚ :=
  let ulp := pow2 (binaryExponent q - 52)
  (roundHalfEven (q / ulp) : ℚ) * ulp

/-- The Number value of a rational: the IEEE 754 binary64 value nearest to it, ties to even.
The exponent range is not bounded (no overflow, no subnormal numbers): the ratings and their
sums stay far inside the range of a double. -/
def toDouble (q : ℚ) : ℚ :=
  if q = 0 then 0
  else if 0 < q then toDoublePos q
  else -toDoublePos (-q)

/-! ## Data model (the Mongoose schemas) -/

/-- The `enum` of `reservationSchema.status`. -/
inductive Status where
  | pendiente
  | confirmada
  | cancelada
  | completada
  deriving DecidableEq, Repr

/-- Document of `userSchema` (fields the handlers below read). -/
structure User where
  id : ObjectId
  name : String
  email : String
  favorites : List ObjectId := []
  password : String := ""
  phone : Option String := none
  country : String := "México"
  deriving DecidableEq, Repr

/-- Embedded review of `hotelSchema.reviews` and `experienceSchema.reviews`. -/
structure Review where
  userId : ObjectId
  userName : String
  rating : ℚ
  comment : Option String
  date : Int
  deriving DecidableEq, Repr

/-- Document of `hotelSchema` (fields the handlers below read or write); `lat` and `lng` are
`coordinates.lat` and `coordinates.lng`. -/
structure Hotel where
  id : ObjectId
  name : String
  location : String
  price : ℚ
  rating : ℚ := 0
  reviews : List Review := []
  lat : Option ℚ := none
  lng : Option ℚ := none
  deriving DecidableEq, Repr

/-- Document of `experienceSchema` (fields the handlers below read or write). -/
structure Experience where
  id : ObjectId
  title : String
  rating : ℚ := 0
  reviews : List Review := []
  deriving DecidableEq, Repr

/-- Document of `reservationSchema`. -/
structure Reservation where
  id : ObjectId
  userId : ObjectId
  hotelId : ObjectId
  checkin : Int
  checkout : Int
  adults : ℚ
  children : ℚ
  roomType : String
  total : ℚ
  status : Status
  pdfUrl : Option String
  reservationNumber : String
  createdAt : Int
  deriving DecidableEq, Repr

/-- Document of `configSchema`. -/
structure Config where
  key : String
  value : JsValue
  deriving DecidableEq, Repr

/-- Document of `logSchema` (`metadata` is left out). -/
structure Log where
  level : String
  message : String
  userId : Option ObjectId
  action : Option String
  createdAt : Int
  deriving DecidableEq, Repr

/-- The collections of the document store. -/
structure Db where
  users : List User := []
  hotels : List Hotel := []
  experiences : List Experience := []
  reservations : List Reservation := []
  configs : List Config := []
  logs : List Log := []
  deriving DecidableEq, Repr

/-- What a handler reads from outside the request and the store. -/
structure Runtime where
  /-- Time value of `new Date()` and `Date.now()` while the request is handled. -/
  now : Int
  /-- Time value of `today` after `today.setHours(0, 0, 0, 0)`: local midnight of the current day. -/
  today : Int
  /-- Time value of `new Date(s)` for a string `s`. -/
  dateParse : String → JsDate
  /-- Result of `ToNumber` on a string. -/
  stringToNumber : String → JsNum
  /-- Result of `Math.random().toString(36)`. -/
  random : String
  /-- The `_id` given to a document made with `new`. -/
  newId : ObjectId
  /-- Whether writing the confirmation PDF throws. -/
  pdfThrows : Bool
  /-- Whether `transporter.sendMail(...)` throws (in `server.js` the name `transporter` is never declared). -/
  sendMailThrows : Bool
  /-- Whether `log.save()` throws for a reason other than schema validation. -/
  logSaveThrows : Bool

/-- The payload of a verified token, `req.user`. -/
structure AuthUser where
  userId : ObjectId
  email : String
  deriving DecidableEq, Repr

/-- HTTP response: a success body with its status, or `{ error: message }` with its status. -/
inductive Response (α : Type) where
  | ok (status : Nat) (body : α)
  | error (status : Nat) (message : String)
  deriving DecidableEq, Repr

/-- Status code of a response. -/
def Response.status {α : Type} : Response α → Nat
  | .ok s _ => s
  | .error s _ => s

/-- Replaces the first element satisfying `p`: the effect of `doc.save()` on a stored document. -/
def replaceFirst {α : Type} (p : α → Bool) (new : α) : List α → List α
  | [] => []
  | x :: xs => if p x then new :: xs else x :: replaceFirst p new xs

/-! ## Helpers of `server.js` -/

/-- The function `generateReservationNumber`, given the values of `Date.now()` and
`Math.random().toString(36)`. -/
def generateReservationNumber (now : Int) (random36 : String) : String :=
  let timestamp := toString now
  let random := ((random36.drop 2).take 6).toUpper
  "VBD-" ++ timestamp.takeRight 6 ++ "-" ++ random

/-- The `enum` of `logSchema.level`. -/
def logLevels : List String := ["info", "warning", "error"]

/-- The function `createLog`: appends a record unless saving throws (schema validation of
`level`, or a failure of the store), in which case the `catch` block swallows the error. -/
def createLog (rt : Runtime) (db : Db) (level message : String) (userId : Option ObjectId)
    (action : Option String) : Db :=
  if rt.logSaveThrows ∨ level ∉ logLevels then db
  else { db with logs := db.logs ++ [{ level := level, message := message, userId := userId,
                                       action := action, createdAt := rt.now }] }

/-! ## `POST /api/reservations` -/

/-- Body of `POST /api/reservations`; `none` is an absent field. -/
structure ReservationRequest where
  hotelId : Option ObjectId
  checkin : Option String
  checkout : Option String
  adults : JsNum
  children : JsNum
  roomType : Option String
  deriving DecidableEq, Repr

/-- Success body of `POST /api/reservations`. -/
structure ReservationCreated where
  reservation : Reservation
  hotelName : String
  hotelLocation : String
  pdfUrl : String
  deriving DecidableEq, Repr

/-- The value of `nights`: `Math.ceil((checkoutDate - checkinDate) / (1000 * 60 * 60 * 24))`,
`NaN` when a date is invalid. -/
def nightsBetween (checkinDate checkoutDate : JsDate) : Option Int :=
  match checkinDate, checkoutDate with
  | some ci, some co => some (mathCeil (((co - ci : Int) : ℚ) / (1000 * 60 * 60 * 24)))
  | _, _ => none

/-- The value of `total`: `hotel.price * nights`. -/
def reservationTotal (price : ℚ) (nights : Option Int) : JsNum :=
  nights.map (fun n => price * (n : ℚ))

/-- The document `new Reservation({...})` as `reservation.save()` stores it, or `none` when
validation against `reservationSchema` throws: `checkin`, `checkout` and `total` must cast
(a valid date, a number other than `NaN`) and `adults` has `min: 1`.  `status` takes its
default `'confirmada'`, `pdfUrl` is not set. -/
def newReservation (id userId hotelId : ObjectId) (checkin checkout : JsDate) (adults children : ℚ)
    (roomType : String) (total : JsNum) (reservationNumber : String) (createdAt : Int) :
    Option Reservation :=
  match checkin, checkout, total with
  | some ci, some co, some t =>
    if 1 ≤ adults then
      some { id := id, userId := userId, hotelId := hotelId, checkin := ci, checkout := co,
             adults := adults, children := children, roomType := roomType, total := t,
             status := Status.confirmada, pdfUrl := none,
             reservationNumber := reservationNumber, createdAt := createdAt }
    else none
  | _, _, _ => none

/-- The `catch` block of `POST /api/reservations`. -/
def reservationFailed (rt : Runtime) (db : Db) (user : AuthUser) (message : String) :
    Response ReservationCreated × Db :=
  (Response.error 500 message,
   createLog rt db "error" "Error creando reservación" (some user.userId) (some "create_reservation"))

/-- The email block of `POST /api/reservations`: runs only when the config record
`email_notifications` exists with a truthy value; an exception is caught and logged. -/
def confirmationEmail (rt : Runtime) (db : Db) (user : AuthUser) : Db :=
  match db.configs.find? (fun c => decide (c.key = "email_notifications")) with
  | some emailConfig =>
    if emailConfig.value.truthy then
      if rt.sendMailThrows then
        createLog rt db "error" "Error enviando email de confirmación" (some user.userId)
          (some "email_error")
      else
        createLog rt db "info" "Email de confirmación enviado" (some user.userId)
          (some "email_sent")
    else db
  | none => db

/-- The handler of `POST /api/reservations` from the computation of `nights` on, reached by a
request that passed the checks on its fields and dates and whose hotel was found. -/
def createReservation (rt : Runtime) (db : Db) (user : AuthUser) (hotelId : ObjectId)
    (checkinDate checkoutDate : JsDate) (adults : ℚ) (children : JsNum) (roomType : String)
    (hotel : Hotel) : Response ReservationCreated × Db :=
  let nights := nightsBetween checkinDate checkoutDate
  let total := reservationTotal hotel.price nights
  let reservationNumber := generateReservationNumber rt.now rt.random
  let childrenOrZero : ℚ := if truthyNum children then children.getD 0 else 0
  match newReservation rt.newId user.userId hotelId checkinDate checkoutDate adults
          childrenOrZero roomType total reservationNumber rt.now with
  | none => reservationFailed rt db user "Reservation validation failed"
  | some reservation =>
    let db1 := { db with reservations := db.reservations ++ [reservation] }
    match db1.users.find? (fun u => decide (u.id = user.userId)) with
    | none => reservationFailed rt db1 user "Cannot read properties of null"
    | some _ =>
      if rt.pdfThrows then reservationFailed rt db1 user "PDF error"
      else
        let filename := "reservation_" ++ toString reservation.id ++ ".pdf"
        let saved := { reservation with pdfUrl := some ("/uploads/" ++ filename) }
        let stored := replaceFirst (fun r => decide (r.id = saved.id)) saved db1.reservations
        let db2 := { db1 with reservations := stored }
        let db3 := confirmationEmail rt db2 user
        let db4 := createLog rt db3 "info" "Reservación creada exitosamente"
          (some user.userId) (some "create_reservation")
        (Response.ok 201 { reservation := saved, hotelName := hotel.name,
                           hotelLocation := hotel.location,
                           pdfUrl := "/uploads/" ++ filename }, db4)

/-- The handler of `POST /api/reservations` (after `authenticateToken`): the checks on the
required fields and on the dates and the hotel lookup, then `createReservation`. -/
def postReservation (rt : Runtime) (db : Db) (user : AuthUser) (body : ReservationRequest) :
    Response ReservationCreated × Db :=
  match body.hotelId, body.adults, body.roomType with
  | some hotelId, some adults, some roomType =>
    if ¬ truthyStr body.checkin ∨ ¬ truthyStr body.checkout ∨ adults = 0 ∨ roomType = "" then
      (Response.error 400 "Todos los campos son requeridos", db)
    else
      let checkinDate := newDate rt.dateParse body.checkin
      let checkoutDate := newDate rt.dateParse body.checkout
      let today : JsDate := some rt.today
      if dateLt checkinDate today then
        (Response.error 400 "La fecha de check-in no puede ser anterior a hoy", db)
      else if dateLe checkoutDate checkinDate then
        (Response.error 400 "La fecha de check-out debe ser posterior al check-in", db)
      else
        match db.hotels.find? (fun h => decide (h.id = hotelId)) with
        | none => (Response.error 404 "Hotel no encontrado", db)
        | some hotel =>
          createReservation rt db user hotelId checkinDate checkoutDate adults body.children
            roomType hotel
  | _, _, _ => (Response.error 400 "Todos los campos son requeridos", db)

/-! ## `PUT /api/reservations/:id/cancel` -/

/-- The value of `cancellationHours`: the value of the config record `cancellation_hours`
when the record exists, `24` otherwise. -/
def cancellationHours (db : Db) : JsValue :=
  match db.configs.find? (fun c => decide (c.key = "cancellation_hours")) with
  | some cancellationConfig => cancellationConfig.value
  | none => JsValue.num 24

/-- The value of `hoursUntilCheckin`: `(checkinTime - now) / (1000 * 60 * 60)`. -/
def hoursUntilCheckin (checkin now : Int) : ℚ :=
  ((checkin - now : Int) : ℚ) / (1000 * 60 * 60)

/-- The email block of the cancel handler: runs only when the config record
`email_notifications` exists with a truthy value; building the message reads `user.name` and
the populated `reservation.hotelId.name`, so a missing user or hotel throws like a failing
dispatch does; the exception is caught and logged. -/
def cancellationEmail (rt : Runtime) (db : Db) (user : AuthUser) (reservation : Reservation) : Db :=
  match db.configs.find? (fun c => decide (c.key = "email_notifications")) with
  | some emailConfig =>
    if emailConfig.value.truthy then
      if (db.users.find? (fun u => decide (u.id = user.userId))).isNone
          ∨ (db.hotels.find? (fun h => decide (h.id = reservation.hotelId))).isNone
          ∨ rt.sendMailThrows then
        createLog rt db "error" "Error enviando email de cancelación" (some user.userId)
          (some "email_error")
      else
        createLog rt db "info" "Email de cancelación enviado" (some user.userId)
          (some "email_sent")
    else db
  | none => db

/-- The handler of `PUT /api/reservations/:id/cancel` (after `authenticateToken`).  The text
of the policy error is the template of the source, its placeholder not filled in. -/
def putCancelReservation (rt : Runtime) (db : Db) (user : AuthUser) (id : ObjectId) :
    Response Reservation × Db :=
  match db.reservations.find? (fun r => decide (r.id = id ∧ r.userId = user.userId)) with
  | none => (Response.error 404 "Reservación no encontrada", db)
  | some reservation =>
    if reservation.status = Status.cancelada then
      (Response.error 400 "La reservación ya está cancelada", db)
    else if reservation.status = Status.completada then
      (Response.error 400 "No se puede cancelar una reservación completada", db)
    else
      let hours := hoursUntilCheckin reservation.checkin rt.now
      if numLt (some hours) ((cancellationHours db).toNumber rt.stringToNumber) then
        (Response.error 400
          "No se puede cancelar. Debe hacerlo con al menos $\x7bcancellationHours\x7d horas de anticipación",
          db)
      else
        let cancelled := { reservation with status := Status.cancelada }
        let stored := replaceFirst (fun r => decide (r.id = cancelled.id)) cancelled db.reservations
        let db1 := { db with reservations := stored }
        let db2 := cancellationEmail rt db1 user cancelled
        let db3 := createLog rt db2 "info" "Reservación cancelada" (some user.userId)
          (some "cancel_reservation")
        (Response.ok 200 cancelled, db3)

/-! ## `POST /api/hotels/:id/check-availability` -/

/-- Success body of the check-availability handler. -/
structure Availability where
  available : Bool
  availableRooms : Int
  totalRooms : Int
  bookedRooms : Nat
  deriving DecidableEq, Repr

/-- The constant `maxRooms`. -/
def maxRooms : Int := 20

/-- The filter of `Reservation.find` in the check-availability handler, for valid query dates:
`hotelId` equal, `status` in `['confirmada', 'pendiente']`, `checkin < checkoutDate` and
`checkout > checkinDate`. -/
def overlapQuery (id : ObjectId) (checkinDate checkoutDate : Int) (r : Reservation) : Bool :=
  decide (r.hotelId = id) && decide (r.status ∈ [Status.confirmada, Status.pendiente])
    && (decide (r.checkin < checkoutDate) && decide (r.checkout > checkinDate))

/-- The handler of `POST /api/hotels/:id/check-availability`.  A query with an invalid date
that passes the date comparison makes `Reservation.find` throw (the filter does not cast),
which the `catch` block answers with 500. -/
def postCheckAvailability (rt : Runtime) (db : Db) (id : ObjectId) (checkin checkout : Option String) :
    Response Availability × Db :=
  if ¬ truthyStr checkin ∨ ¬ truthyStr checkout then
    (Response.error 400 "Fechas de check-in y check-out son requeridas", db)
  else
    let checkinDate := newDate rt.dateParse checkin
    let checkoutDate := newDate rt.dateParse checkout
    if dateLe checkoutDate checkinDate then
      (Response.error 400 "La fecha de check-out debe ser posterior al check-in", db)
    else
      match checkinDate, checkoutDate with
      | some ci, some co =>
        let overlappingReservations := db.reservations.filter (overlapQuery id ci co)
        let bookedRooms := overlappingReservations.length
        let availableRooms := maxRooms - (bookedRooms : Int)
        (Response.ok 200 { available := decide (availableRooms > 0),
                           availableRooms := availableRooms,
                           totalRooms := maxRooms,
                           bookedRooms := bookedRooms }, db)
      | _, _ =>
        (Response.error 500 "Cast to date failed",
         createLog rt db "error" "Error verificando disponibilidad" none (some "check_availability"))

/-! ## `POST /api/hotels/:id/reviews` and `POST /api/experiences/:id/reviews` -/

/-- The recomputed rating: `Math.round((totalRating / reviews.length) * 10) / 10` with
`totalRating = reviews.reduce((sum, review) => sum + review.rating, 0)`, computed in doubles:
every sum, the quotient and the product are rounded to the nearest double.  `Math.round` is
exact, and the result `k / 10` stands for the double nearest to it. -/
def averageRating (reviews : List Review) : ℚ :=
  let totalRating := reviews.foldl (fun sum review => toDouble (sum + toDouble review.rating)) 0
  (mathRound (toDouble (toDouble (totalRating / toDouble (reviews.length : ℚ)) * 10)) : ℚ) / 10

/-- Size limit of a stored document in bytes (16 MiB).  An embedded review takes more than one
byte, so `save` throws on a document with more reviews than this. -/
def maxBsonObjectSize : Nat := 16 * 1024 * 1024

/-- The rating check shared by both review handlers: `!rating || rating < 1 || rating > 5`. -/
def ratingRejected (rating : JsNum) : Bool :=
  !truthyNum rating || numLt rating (some 1) || numLt (some 5) rating

/-- The handler of `POST /api/hotels/:id/reviews` (after `authenticateToken`).  The call
`hotel.save()` throws when the hotel with the new review is larger than a document of the
store can be, which the `catch` block answers with 500. -/
def postHotelReview (rt : Runtime) (db : Db) (user : AuthUser) (id : ObjectId) (rating : JsNum)
    (comment : Option String) : Response Hotel × Db :=
  match rating with
  | none => (Response.error 400 "El rating debe estar entre 1 y 5", db)
  | some value =>
    if ratingRejected rating then
      (Response.error 400 "El rating debe estar entre 1 y 5", db)
    else
      match db.hotels.find? (fun h => decide (h.id = id)) with
      | none => (Response.error 404 "Hotel no encontrado", db)
      | some hotel =>
        match hotel.reviews.find? (fun review => decide (review.userId = user.userId)) with
        | some _ => (Response.error 400 "Ya has hecho una reseña para este hotel", db)
        | none =>
          match db.users.find? (fun u => decide (u.id = user.userId)) with
          | none =>
            (Response.error 500 "Cannot read properties of null",
             createLog rt db "error" "Error agregando reseña" (some user.userId) (some "add_review"))
          | some author =>
            let review : Review := { userId := user.userId, userName := author.name,
                                     rating := value, comment := comment, date := rt.now }
            let reviews := hotel.reviews ++ [review]
            let saved := { hotel with reviews := reviews, rating := averageRating reviews }
            if maxBsonObjectSize < reviews.length then
              (Response.error 500 "Document exceeds the maximum size",
               createLog rt db "error" "Error agregando reseña" (some user.userId) (some "add_review"))
            else
              let stored := replaceFirst (fun h => decide (h.id = saved.id)) saved db.hotels
              let db1 := { db with hotels := stored }
              let db2 := createLog rt db1 "info" "Reseña agregada" (some user.userId) (some "add_review")
              (Response.ok 200 saved, db2)

/-- The handler of `POST /api/experiences/:id/reviews` (after `authenticateToken`).  The call
`experience.save()` throws when the experience with the new review is larger than a document
of the store can be, which the `catch` block answers with 500. -/
def postExperienceReview (rt : Runtime) (db : Db) (user : AuthUser) (id : ObjectId) (rating : JsNum)
    (comment : Option String) : Response Experience × Db :=
  match rating with
  | none => (Response.error 400 "El rating debe estar entre 1 y 5", db)
  | some value =>
    if ratingRejected rating then
      (Response.error 400 "El rating debe estar entre 1 y 5", db)
    else
      match db.experiences.find? (fun e => decide (e.id = id)) with
      | none => (Response.error 404 "Experiencia no encontrada", db)
      | some experience =>
        match experience.reviews.find? (fun review => decide (review.userId = user.userId)) with
        | some _ => (Response.error 400 "Ya has hecho una reseña para esta experiencia", db)
        | none =>
          match db.users.find? (fun u => decide (u.id = user.userId)) with
          | none =>
            (Response.error 500 "Cannot read properties of null",
             createLog rt db "error" "Error agregando reseña de experiencia" (some user.userId)
               (some "add_experience_review"))
          | some author =>
            let review : Review := { userId := user.userId, userName := author.name,
                                     rating := value, comment := comment, date := rt.now }
            let reviews := experience.reviews ++ [review]
            let saved := { experience with reviews := reviews, rating := averageRating reviews }
            if maxBsonObjectSize < reviews.length then
              (Response.error 500 "Document exceeds the maximum size",
               createLog rt db "error" "Error agregando reseña de experiencia" (some user.userId)
                 (some "add_experience_review"))
            else
              let stored := replaceFirst (fun e => decide (e.id = saved.id)) saved db.experiences
              let db1 := { db with experiences := stored }
              let db2 := createLog rt db1 "info" "Reseña de experiencia agregada" (some user.userId)
                (some "add_experience_review")
              (Response.ok 200 saved, db2)

/-- One request to `POST /api/hotels/:id/reviews`, with the runtime it is served in. -/
structure ReviewCall where
  rt : Runtime
  user : AuthUser
  id : ObjectId
  rating : JsNum
  comment : Option String

/-- The store after a sequence of requests to `POST /api/hotels/:id/reviews`. -/
def afterHotelReviews (db : Db) (calls : List ReviewCall) : Db :=
  calls.foldl (fun db c => (postHotelReview c.rt db c.user c.id c.rating c.comment).2) db

/-! ## `createLog` with its `try`/`catch` spelled out -/

/-- The `try` block of `createLog`: `new Log({...})` and `await log.save()`.  Saving throws
when `level` is outside the `enum` of the schema or when the store fails. -/
def saveLog (rt : Runtime) (db : Db) (level message : String) (userId : Option ObjectId)
    (action : Option String) : Except String Db :=
  if level ∉ logLevels then Except.error "Log validation failed: level"
  else if rt.logSaveThrows then Except.error "save failed"
  else Except.ok { db with logs := db.logs ++ [{ level := level, message := message,
                                                  userId := userId, action := action,
                                                  createdAt := rt.now }] }

/-- How a call of `createLog` ends for its caller: `Except.ok` with the store when the
function returns, `Except.error` when an exception leaves it.  The `catch` block only writes
to the console. -/
def createLogOutcome (rt : Runtime) (db : Db) (level message : String) (userId : Option ObjectId)
    (action : Option String) : Except String Db :=
  match saveLog rt db level message userId action with
  | Except.ok saved => Except.ok saved
  | Except.error _ => Except.ok db

/-! ## `authenticateToken` -/

/-- What the middleware does with a request: it answers itself, or it sets `req.user` and
calls `next()`. -/
inductive AuthOutcome where
  | respond (status : Nat) (error : String)
  | next (user : AuthUser)
  deriving DecidableEq, Repr

/-- The number of calls of `next()`, that is of the handler registered after the middleware. -/
def AuthOutcome.nextCalls : AuthOutcome → Nat
  | .respond _ _ => 0
  | .next _ => 1

/-- The value of `token`: `authHeader && authHeader.split(' ')[1]`; `none` is `undefined`. -/
def bearerToken (authHeader : Option String) : Option String :=
  match authHeader with
  | none => none
  | some header => if header = "" then some "" else (header.splitOn " ")[1]?

/-- The middleware `authenticateToken`; `verify token` is the payload that
`jwt.verify(token, JWT_SECRET, ...)` hands to its callback, `none` when it hands an error. -/
def authenticateToken (verify : String → Option AuthUser) (authHeader : Option String) :
    AuthOutcome :=
  let token := bearerToken authHeader
  if ¬ truthyStr token then AuthOutcome.respond 401 "Token de acceso requerido"
  else
    match verify (token.getD "") with
    | none => AuthOutcome.respond 403 "Token inválido"
    | some user => AuthOutcome.next user

/-! ## `POST /api/register` -/

/-- The password hashing and token functions of `bcryptjs` and `jsonwebtoken`. -/
structure Crypto where
  /-- Result of `bcrypt.hash(password, 12)`. -/
  hash : String → String
  /-- Result of `jwt.sign(payload, JWT_SECRET, ...)`. -/
  sign : AuthUser → String
  /-- Payload handed over by `jwt.verify(token, JWT_SECRET, ...)`, `none` on an error. -/
  verify : String → Option AuthUser

/-- Body of `POST /api/register`; `none` is an absent field. -/
structure RegisterRequest where
  name : Option String
  email : Option String
  password : Option String
  phone : Option String
  country : Option String
  deriving DecidableEq, Repr

/-- Success body of `POST /api/register`. -/
structure Registered where
  token : String
  id : ObjectId
  name : String
  email : String
  phone : Option String
  country : String
  deriving DecidableEq, Repr

/-- The handler of `POST /api/register`. -/
def postRegister (rt : Runtime) (crypto : Crypto) (db : Db) (body : RegisterRequest) :
    Response Registered × Db :=
  if ¬ truthyStr body.name ∨ ¬ truthyStr body.email ∨ ¬ truthyStr body.password then
    (Response.error 400 "Nombre, email y contraseña son requeridos", db)
  else
    let name := body.name.getD ""
    let email := body.email.getD ""
    let password := body.password.getD ""
    match db.users.find? (fun u => decide (u.email = email)) with
    | some _ =>
      (Response.error 400 "El usuario ya existe",
       createLog rt db "warning" "Intento de registro con email existente" none
         (some "register_attempt"))
    | none =>
      let hashedPassword := crypto.hash password
      let country := if truthyStr body.country then body.country.getD "" else "México"
      let user : User := { id := rt.newId, name := name, email := email,
                           password := hashedPassword, phone := body.phone, country := country }
      let db1 := { db with users := db.users ++ [user] }
      let token := crypto.sign { userId := user.id, email := user.email }
      let db2 := createLog rt db1 "info" "Usuario registrado exitosamente" (some user.id)
        (some "user_register")
      (Response.ok 201 { token := token, id := user.id, name := user.name, email := user.email,
                         phone := user.phone, country := user.country }, db2)

/-! ## The list handlers -/

/-- Success body of a list handler: `{ <items>, totalPages, currentPage, total }`;
`totalPages` is `none` when `Math.ceil(total / limit)` is not a finite number. -/
structure ListBody (α : Type) where
  items : List α
  totalPages : Option Int
  currentPage : Nat
  total : Nat
  deriving DecidableEq, Repr

/-- The pagination of `GET /api/hotels`, `/api/reservations`, `/api/logs`, `/api/destinations`
and `/api/experiences` once the query is built.  `sorted` is the answer of the store to
`find(query).sort(...)` before `limit` and `skip`, so its length is what
`countDocuments(query)` returns; `page` and `limit` are the query parameters, read as natural
numbers, with the defaults `page = 1` and `limit = defaultLimit` of the destructuring.  The
handler calls `.limit(limit * 1).skip((page - 1) * limit)`, which the store applies to the
sorted result, skip first, wherever `sort` stands in the chain: a limit of `0` lifts the
limit, and the store rejects a negative skip, which the `catch` block answers with 500
(`none`). -/
def listResponse {α : Type} (sorted : List α) (page limit : Option Nat) (defaultLimit : Nat) :
    Option (ListBody α) :=
  let page := page.getD 1
  let limit := limit.getD defaultLimit
  let total := sorted.length
  if limit = 0 then
    some { items := sorted, totalPages := none, currentPage := page, total := total }
  else if page = 0 then none
  else
    some { items := (sorted.drop ((page - 1) * limit)).take (limit * 1),
           totalPages := some (mathCeil ((total : ℚ) / (limit : ℚ))),
           currentPage := page, total := total }

/-! ## Sequences of requests -/

/-- A request to one of the handlers that write to the store. -/
inductive Operation where
  | create (rt : Runtime) (user : AuthUser) (body : ReservationRequest)
  | cancel (rt : Runtime) (user : AuthUser) (id : ObjectId)
  | reviewHotel (rt : Runtime) (user : AuthUser) (id : ObjectId) (rating : JsNum)
      (comment : Option String)
  | reviewExperience (rt : Runtime) (user : AuthUser) (id : ObjectId) (rating : JsNum)
      (comment : Option String)
  | register (rt : Runtime) (crypto : Crypto) (body : RegisterRequest)

/-- The store after one request. -/
def Operation.run (db : Db) : Operation → Db
  | .create rt user body => (postReservation rt db user body).2
  | .cancel rt user id => (putCancelReservation rt db user id).2
  | .reviewHotel rt user id rating comment => (postHotelReview rt db user id rating comment).2
  | .reviewExperience rt user id rating comment =>
    (postExperienceReview rt db user id rating comment).2
  | .register rt crypto body => (postRegister rt crypto db body).2

/-- The store after a sequence of requests. -/
def afterOperations (db : Db) (ops : List Operation) : Db :=
  ops.foldl Operation.run db

/-! ## `cleanOldLogs` -/

/-- The time value of `thirtyDaysAgo` after `setDate(getDate() - 30)`, for a local time zone
whose offset does not change in those 30 days. -/
def thirtyDaysAgo (now : Int) : Int := now - 30 * (24 * 60 * 60 * 1000)

/-- The function `cleanOldLogs`: `Log.deleteMany` with the filter `createdAt < thirtyDaysAgo`
and `level != 'error'`. -/
def cleanOldLogs (rt : Runtime) (db : Db) : Db :=
  { db with logs := db.logs.filter (fun log =>
      !(decide (log.createdAt < thirtyDaysAgo rt.now) && decide (log.level ≠ "error"))) }

/-! ## `PUT /api/config/:key` -/

/-- The handler of `PUT /api/config/:key` (after `authenticateToken`):
`Config.findOneAndUpdate` with `upsert: true`. -/
def putConfig (rt : Runtime) (db : Db) (user : AuthUser) (key : String) (value : JsValue) :
    Response Config × Db :=
  let config : Config := { key := key, value := value }
  let configs :=
    match db.configs.find? (fun c => decide (c.key = key)) with
    | some _ => replaceFirst (fun c => decide (c.key = key)) config db.configs
    | none => db.configs ++ [config]
  let db1 := { db with configs := configs }
  let db2 := createLog rt db1 "info" "Configuración actualizada" (some user.userId)
    (some "update_config")
  (Response.ok 200 config, db2)

/-! ## `POST` and `DELETE /api/favorites/:hotelId`, `GET /api/favorites` -/

/-- The validation of `userSchema` that `user.save()` runs: the three required strings are
present and not empty. -/
def userSchemaValid (u : User) : Bool :=
  decide (u.name ≠ "") && decide (u.email ≠ "") && decide (u.password ≠ "")

/-- The handler of `POST /api/favorites/:hotelId` (after `authenticateToken`); the success body
holds the favorites of the user.  `hotelId` is the path parameter as the request spells it.
`castObjectId` is the cast of a string to an `ObjectId` by the store, which `Hotel.findById`
and `favorites.push` apply (`none` when the cast throws); `idText` is `toString()` of a stored
id, with which `favorites.includes` compares the path parameter. -/
def postFavorite (rt : Runtime) (castObjectId : String → Option ObjectId)
    (idText : ObjectId → String) (db : Db) (user : AuthUser) (hotelId : String) :
    Response (List ObjectId) × Db :=
  let found := db.users.find? (fun u => decide (u.id = user.userId))
  match castObjectId hotelId with
  | none =>
    (Response.error 500 "Cast to ObjectId failed",
     createLog rt db "error" "Error agregando a favoritos" (some user.userId) (some "add_favorite"))
  | some objectId =>
    match db.hotels.find? (fun h => decide (h.id = objectId)) with
    | none => (Response.error 404 "Hotel no encontrado", db)
    | some _ =>
      match found with
      | none =>
        (Response.error 500 "Cannot read properties of null",
         createLog rt db "error" "Error agregando a favoritos" (some user.userId)
           (some "add_favorite"))
      | some stored =>
        if stored.favorites.any (fun fav => decide (idText fav = hotelId)) then
          (Response.error 400 "El hotel ya está en favoritos", db)
        else
          let saved := { stored with favorites := stored.favorites ++ [objectId] }
          if userSchemaValid saved then
            let users := replaceFirst (fun u => decide (u.id = saved.id)) saved db.users
            let db1 := { db with users := users }
            let db2 := createLog rt db1 "info" "Hotel agregado a favoritos" (some user.userId)
              (some "add_favorite")
            (Response.ok 200 saved.favorites, db2)
          else
            (Response.error 500 "User validation failed",
             createLog rt db "error" "Error agregando a favoritos" (some user.userId)
               (some "add_favorite"))

/-- The handler of `DELETE /api/favorites/:hotelId` (after `authenticateToken`): the filter
`fav.toString() !== req.params.hotelId` compares the text of each stored id (`idText`) with the
path parameter as the request spells it. -/
def deleteFavorite (rt : Runtime) (idText : ObjectId → String) (db : Db) (user : AuthUser)
    (hotelId : String) : Response (List ObjectId) × Db :=
  match db.users.find? (fun u => decide (u.id = user.userId)) with
  | none =>
    (Response.error 500 "Cannot read properties of null",
     createLog rt db "error" "Error removiendo de favoritos" (some user.userId)
       (some "remove_favorite"))
  | some stored =>
    let initialLength := stored.favorites.length
    let favorites := stored.favorites.filter (fun fav => decide (idText fav ≠ hotelId))
    if favorites.length = initialLength then
      (Response.error 400 "El hotel no está en favoritos", db)
    else
      let saved := { stored with favorites := favorites }
      if userSchemaValid saved then
        let users := replaceFirst (fun u => decide (u.id = saved.id)) saved db.users
        let db1 := { db with users := users }
        let db2 := createLog rt db1 "info" "Hotel removido de favoritos" (some user.userId)
          (some "remove_favorite")
        (Response.ok 200 saved.favorites, db2)
      else
        (Response.error 500 "User validation failed",
         createLog rt db "error" "Error removiendo de favoritos" (some user.userId)
           (some "remove_favorite"))

/-- The handler of `GET /api/favorites` (after `authenticateToken`): the favorites of the user,
each replaced by the stored hotel (`populate`, which drops a favorite whose hotel is gone).
The query of the request, here `page` and `limit`, is not read. -/
def getFavorites (rt : Runtime) (db : Db) (user : AuthUser) (_page _limit : Option Nat) :
    Response (List Hotel) × Db :=
  match db.users.find? (fun u => decide (u.id = user.userId)) with
  | none =>
    (Response.error 500 "Cannot read properties of null",
     createLog rt db "error" "Error obteniendo favoritos" (some user.userId) (some "get_favorites"))
  | some stored =>
    (Response.ok 200
      (stored.favorites.filterMap (fun fav => db.hotels.find? (fun h => decide (h.id = fav)))),
     db)

/-- A request to one of the two favorites handlers that write. -/
inductive FavoriteOperation where
  | add (rt : Runtime) (user : AuthUser) (hotelId : String)
  | remove (rt : Runtime) (user : AuthUser) (hotelId : String)

/-- The store after one favorites request. -/
def FavoriteOperation.run (castObjectId : String → Option ObjectId) (idText : ObjectId → String)
    (db : Db) : FavoriteOperation → Db
  | .add rt user hotelId => (postFavorite rt castObjectId idText db user hotelId).2
  | .remove rt user hotelId => (deleteFavorite rt idText db user hotelId).2

/-- The store after a sequence of favorites requests. -/
def afterFavoriteOperations (castObjectId : String → Option ObjectId)
    (idText : ObjectId → String) (db : Db) (ops : List FavoriteOperation) : Db :=
  ops.foldl (FavoriteOperation.run castObjectId idText) db

/-! ## Routing -/

/-- A route as registered with `app.get`, `app.post`, `app.put` or `app.delete`. -/
structure Route where
  method : String
  path : String
  deriving DecidableEq, Repr

/-- The routes of `server.js` in the order of their registration. -/
def routes : List Route :=
  [⟨"POST", "/api/register"⟩, ⟨"POST", "/api/login"⟩, ⟨"GET", "/api/profile"⟩,
   ⟨"PUT", "/api/profile"⟩, ⟨"POST", "/api/profile/avatar"⟩, ⟨"GET", "/api/hotels"⟩,
   ⟨"GET", "/api/hotels/:id"⟩, ⟨"POST", "/api/hotels/:id/reviews"⟩,
   ⟨"POST", "/api/reservations"⟩, ⟨"GET", "/api/reservations"⟩,
   ⟨"GET", "/api/reservations/:id"⟩, ⟨"PUT", "/api/reservations/:id/cancel"⟩,
   ⟨"POST", "/api/favorites/:hotelId"⟩, ⟨"DELETE", "/api/favorites/:hotelId"⟩,
   ⟨"GET", "/api/favorites"⟩, ⟨"GET", "/api/admin/stats"⟩, ⟨"GET", "/api/config"⟩,
   ⟨"PUT", "/api/config/:key"⟩, ⟨"GET", "/api/logs"⟩,
   ⟨"POST", "/api/hotels/:id/check-availability"⟩, ⟨"GET", "/api/hotels/nearby"⟩,
   ⟨"GET", "/api/destinations"⟩, ⟨"GET", "/api/destinations/:id"⟩,
   ⟨"POST", "/api/destinations"⟩, ⟨"PUT", "/api/destinations/:id"⟩,
   ⟨"DELETE", "/api/destinations/:id"⟩, ⟨"GET", "/api/experiences"⟩,
   ⟨"GET", "/api/experiences/:id"⟩, ⟨"POST", "/api/experiences"⟩,
   ⟨"PUT", "/api/experiences/:id"⟩, ⟨"DELETE", "/api/experiences/:id"⟩,
   ⟨"POST", "/api/experiences/:id/reviews"⟩, ⟨"GET", "/"⟩, ⟨"GET", "/hotels"⟩,
   ⟨"GET", "/hotel/:id"⟩, ⟨"GET", "/account"⟩, ⟨"GET", "/offers"⟩, ⟨"GET", "/experiences"⟩,
   ⟨"GET", "/destinations"⟩, ⟨"GET", "/experiences"⟩, ⟨"GET", "/destinations"⟩,
   ⟨"GET", "/reservations"⟩, ⟨"GET", "/reservations"⟩, ⟨"GET", "/admin"⟩,
   ⟨"GET", "/reservation-pdf/:id"⟩]

/-- Whether the segments of a route path match the segments of a request path; a segment
`:name` matches any segment that is not empty, and binds it. -/
def matchSegments : List String → List String → Option (List (String × String))
  | [], [] => some []
  | pattern :: patterns, segment :: segments =>
    if pattern.startsWith ":" then
      if segment = "" then none
      else (matchSegments patterns segments).map (fun params => (pattern.drop 1, segment) :: params)
    else if pattern = segment then matchSegments patterns segments
    else none
  | _, _ => none

/-- The parameters `req.params` when the route matches the request, `none` when it does not. -/
def Route.params (route : Route) (method path : String) : Option (List (String × String)) :=
  if route.method = method then matchSegments (route.path.splitOn "/") (path.splitOn "/")
  else none

/-- The router of Express: the first registered route that matches the method and the path of
the request, with its parameters.  (The static files served before the routes are left out.) -/
def dispatch (method path : String) : Option (Route × List (String × String)) :=
  routes.findSome? (fun route => (route.params method path).map (fun params => (route, params)))

/-! ## `GET /api/hotels/:id` and `GET /api/hotels/nearby` -/

/-- The handler of `GET /api/hotels/:id`; `castObjectId` is the cast of the path parameter to
an `ObjectId` by the store, `none` when `Hotel.findById` throws a cast error. -/
def getHotelById (rt : Runtime) (castObjectId : String → Option ObjectId) (db : Db) (id : String) :
    Response Hotel × Db :=
  match castObjectId id with
  | none =>
    (Response.error 500 "Cast to ObjectId failed",
     createLog rt db "error" "Error obteniendo hotel" none (some "get_hotel"))
  | some objectId =>
    match db.hotels.find? (fun h => decide (h.id = objectId)) with
    | none => (Response.error 404 "Hotel no encontrado", db)
    | some hotel => (Response.ok 200 hotel, db)

/-- The filter of `Hotel.find` in the nearby handler: both coordinates within `radius / 111`
of the given point. -/
def nearbyQuery (lat lng radius : ℚ) (h : Hotel) : Bool :=
  match h.lat, h.lng with
  | some hotelLat, some hotelLng =>
    decide (lat - radius / 111 ≤ hotelLat) && decide (hotelLat ≤ lat + radius / 111)
      && (decide (lng - radius / 111 ≤ hotelLng) && decide (hotelLng ≤ lng + radius / 111))
  | _, _ => false

/-- The handler of `GET /api/hotels/nearby`; `parseFloat` is the function of the runtime.  A
coordinate or radius that is not a number makes the query throw. -/
def getNearbyHotels (rt : Runtime) (parseFloat : String → JsNum) (db : Db)
    (lat lng radius : Option String) : Response (List Hotel) × Db :=
  if ¬ truthyStr lat ∨ ¬ truthyStr lng then
    (Response.error 400 "Latitud y longitud son requeridas", db)
  else
    let radiusNumber : JsNum :=
      match radius with
      | none => some 50
      | some text => rt.stringToNumber text
    match parseFloat (lat.getD ""), parseFloat (lng.getD ""), radiusNumber with
    | some la, some ln, some r =>
      (Response.ok 200 ((db.hotels.filter (nearbyQuery la ln r)).take 50), db)
    | _, _, _ =>
      (Response.error 500 "Cast to Number failed",
       createLog rt db "error" "Error buscando hoteles cercanos" none (some "nearby_hotels"))

/-! ## Specification-side definitions -/

/-- Spec: the number of the hotel's reservations with status `confirmada` or `pendiente`
whose interval overlaps the query interval `[checkin, checkout)` under the half-open test
`existing.checkin < checkout AND existing.checkout > checkin`. -/
def specBookedRooms (reservations : List Reservation) (hotelId : ObjectId) (checkin checkout : Int) : Nat :=
  reservations.countP (fun existing =>
    decide (existing.hotelId = hotelId
      ∧ (existing.status = Status.confirmada ∨ existing.status = Status.pendiente)
      ∧ existing.checkin < checkout ∧ existing.checkout > checkin))

/-- Spec: the mean of a list of ratings. -/
def specMean (ratings : List ℚ) : ℚ := ratings.sum / (ratings.length : ℚ)

/-- Spec: rounding to one decimal with halves rounded up, `round(x × 10) / 10`. -/
def specRoundOneDecimal (x : ℚ) : ℚ := (⌊x * 10 + 1 / 2⌋ : ℚ) / 10

/-- Spec (amended): the mean of the ratings times ten as it comes out in double-precision
arithmetic: the ratings are summed from left to right, the sum is divided by their number and
the quotient is multiplied by ten, every result rounded to the nearest double. -/
def specDoubleTenfoldMean (ratings : List ℚ) : ℚ :=
  let total := ratings.foldl (fun sum rating => toDouble (sum + toDouble rating)) 0
  toDouble (toDouble (total / toDouble (ratings.length : ℚ)) * 10)

/-! ## Sample data -/

/-- A runtime on 1 February 2030 (UTC) that reads four ISO dates of March 2030. -/
def sampleRuntime : Runtime :=
  { now := 1896134400000, today := 1896134400000,
    dateParse := fun s =>
      if s = "2030-03-01" then some 1898553600000
      else if s = "2030-03-04" then some 1898812800000
      else if s = "2030-03-05" then some 1898899200000
      else if s = "2030-03-06" then some 1898985600000
      else none,
    stringToNumber := fun _ => none, random := "0.4fzyo82mvyr", newId := 7,
    pdfThrows := false, sendMailThrows := true, logSaveThrows := false }

/-- A reservation of hotel 10 by user 1 for the nights from 1 March to 5 March 2030. -/
def sampleReservation : Reservation :=
  { id := 5, userId := 1, hotelId := 10, checkin := 1898553600000, checkout := 1898899200000,
    adults := 2, children := 0, roomType := "doble", total := 3400, status := Status.confirmada,
    pdfUrl := none, reservationNumber := "VBD-000000-ABCDEF", createdAt := 0 }

/-- User 1, with the hash of a password as `bcrypt` writes it. -/
def anaUser : User :=
  { id := 1, name := "Ana", email := "ana@example.com",
    password := "$2a$12$hash.of.the.password.of.ana" }

/-- User 2. -/
def luisUser : User :=
  { id := 2, name := "Luis", email := "luis@example.com",
    password := "$2a$12$hash.of.the.password.of.luis" }

/-- A store with two users, one hotel and one reservation. -/
def sampleDb : Db :=
  { users := [anaUser, luisUser],
    hotels := [{ id := 10, name := "Hotel Plaza", location := "Reynosa", price := 850 }],
    experiences := [{ id := 30, title := "Recorrido" }],
    reservations := [sampleReservation] }

/-- The token payload of user 1. -/
def ana : AuthUser := { userId := 1, email := "ana@example.com" }

/-- The token payload of user 2. -/
def luis : AuthUser := { userId := 2, email := "luis@example.com" }

/-- The sample store with a cancellation window of 48 hours and email notifications on. -/
def configuredDb : Db :=
  { sampleDb with configs := [{ key := "cancellation_hours", value := JsValue.num 48 },
                              { key := "email_notifications", value := JsValue.bool true }] }

/-- The sample runtime on 28 February 2030 (UTC), `ms` milliseconds after midnight. -/
def februaryRuntime (ms : Int) : Runtime :=
  { sampleRuntime with now := 1898467200000 + ms }

/-- The sample store after user 1 reviewed hotel 10 with a rating of 4. -/
def reviewedDb : Db := (postHotelReview sampleRuntime sampleDb ana 10 (some 4) none).2

/-- Hotel 10 after a review of 4 by user 1 and a review of 5 by user 2. -/
def twiceReviewedHotel : Hotel :=
  { id := 10, name := "Hotel Plaza", location := "Reynosa", price := 850, rating := 9 / 2,
    reviews := [Review.mk 1 "Ana" 4 none 1896134400000, Review.mk 2 "Luis" 5 none 1896134400000] }

/-- Experience 30 after a review of 4 by user 1. -/
def reviewedExperience : Experience :=
  { id := 30, title := "Recorrido", rating := 4,
    reviews := [Review.mk 1 "Ana" 4 (some "bien") 1896134400000] }

/-- The sample store after user 1 reviewed hotel 10 with a rating of 1.2. -/
def lowRatedDb : Db := (postHotelReview sampleRuntime sampleDb ana 10 (some (6 / 5)) none).2

/-- Hotel 10 after a review of 1.2 by user 1 and a review of 1.9 by user 2. -/
def lowRatedHotel : Hotel :=
  { id := 10, name := "Hotel Plaza", location := "Reynosa", price := 850, rating := 3 / 2,
    reviews := [Review.mk 1 "Ana" (6 / 5) none 1896134400000,
                Review.mk 2 "Luis" (19 / 10) none 1896134400000] }

/-- Hotel 10 after the review of 4 by user 1. -/
def onceReviewedHotel : Hotel :=
  { id := 10, name := "Hotel Plaza", location := "Reynosa", price := 850, rating := 4,
    reviews := [Review.mk 1 "Ana" 4 none 1896134400000] }

/-- Three review requests for hotel 10: two by user 1, then one by user 2. -/
def sampleReviewCalls : List ReviewCall :=
  [ReviewCall.mk sampleRuntime ana 10 (some 4) none,
   ReviewCall.mk sampleRuntime ana 10 (some 5) none,
   ReviewCall.mk sampleRuntime luis 10 (some 5) none]

/-- The sample store without reservations. -/
def emptyReservationsDb : Db := { sampleDb with reservations := [] }

/-- A booking of hotel 10 from 4 March to 6 March 2030 for two adults. -/
def sampleBooking : ReservationRequest :=
  { hotelId := some 10, checkin := some "2030-03-04", checkout := some "2030-03-06",
    adults := some 2, children := none, roomType := some "doble" }

/-- Two bookings, by user 1 (stored with id 7) and user 2 (stored with id 8), then the
cancellation of the first on 28 February 2030. -/
def sampleOperations : List Operation :=
  [Operation.create sampleRuntime ana sampleBooking,
   Operation.create { sampleRuntime with newId := 8 } luis sampleBooking,
   Operation.cancel (februaryRuntime 0) ana 7]

/-- Spec: a reservation number has the form `VBD-<6 decimal digits>-<exactly 6 characters, each
in 0-9 or A-Z>`. -/
def specReservationNumberForm (s : String) : Bool :=
  match s.toList with
  | 'V' :: 'B' :: 'D' :: '-' :: d1 :: d2 :: d3 :: d4 :: d5 :: d6 :: '-' :: random =>
    [d1, d2, d3, d4, d5, d6].all Char.isDigit
      && decide (random.length = 6)
      && random.all (fun c => c.isDigit || c.isUpper)
  | _ => false

/-- A runtime in which `Math.random()` returns `0.5`, whose base-36 text is `0.i`. -/
def halfRuntime : Runtime := { sampleRuntime with random := "0.i" }

/-- Two bookings served in the same millisecond with the same random draw, stored with ids 7
and 8. -/
def simultaneousBookings : List Operation :=
  [Operation.create sampleRuntime ana sampleBooking,
   Operation.create { sampleRuntime with newId := 8 } luis sampleBooking]

/-- The sample runtime with a PDF writer that throws. -/
def pdfFailureRuntime : Runtime := { sampleRuntime with pdfThrows := true }

/-- A log of level `info` written on 21 November 2029, older than 30 days on 1 February 2030. -/
def oldInfoLog : Log :=
  { level := "info", message := "Login exitoso", userId := some 1, action := some "user_login",
    createdAt := 1890000000000 }

/-- A log of level `error` written at the same time. -/
def oldErrorLog : Log :=
  { level := "error", message := "Error en login", userId := none, action := some "user_login",
    createdAt := 1890000000000 }

/-- A log of level `info` written on 18 January 2030. -/
def recentInfoLog : Log :=
  { level := "info", message := "Login exitoso", userId := some 2, action := some "user_login",
    createdAt := 1895000000000 }

/-- The sample store with the three sample logs. -/
def loggedDb : Db := { sampleDb with logs := [oldInfoLog, oldErrorLog, recentInfoLog] }

/-- The value of a hexadecimal digit, in either case. -/
def hexDigitValue (c : Char) : Option Nat :=
  if c.isDigit then some (c.toNat - 48)
  else if 'a' ≤ c ∧ c ≤ 'f' then some (c.toNat - 87)
  else if 'A' ≤ c ∧ c ≤ 'F' then some (c.toNat - 55)
  else none

/-- A cast of path parameters to ids for the examples: the text of 24 hexadecimal digits, in
either case, is an id, any other text is not. -/
def hexObjectId (text : String) : Option ObjectId :=
  if text.length = 24 ∧ text.all (fun c => (hexDigitValue c).isSome) then
    some (text.foldl (fun n c => 16 * n + (hexDigitValue c).getD 0) 0)
  else none

/-- The text of an id for the examples: 24 hexadecimal digits in lower case. -/
def hexText (id : ObjectId) : String :=
  let digits := Nat.toDigits 16 id
  String.mk (List.replicate (24 - digits.length) '0' ++ digits)

/-- Favorites requests of user 1: hotel 10 under its lower-case id, the same again, and hotel
10 under the upper-case spelling of its id. -/
def sampleFavoriteOperations : List FavoriteOperation :=
  [FavoriteOperation.add sampleRuntime ana "00000000000000000000000a",
   FavoriteOperation.add sampleRuntime ana "00000000000000000000000a",
   FavoriteOperation.add sampleRuntime ana "00000000000000000000000A"]

/-- The sample store in which hotel 10 is a favorite of user 1. -/
def favoriteDb : Db :=
  { sampleDb with users := [{ anaUser with favorites := [10] }, luisUser] }

/-- A store with fifteen hotels, ids 100 to 114, all of them favorites of user 1. -/
def manyFavoritesDb : Db :=
  { users := [{ anaUser with favorites := (List.range 15).map (fun i => 100 + i) }],
    hotels := (List.range 15).map (fun i =>
      { id := 100 + i, name := "Hotel", location := "Reynosa", price := 500 }) }

/-- The sample store with `n` confirmed reservations of hotel 10 from 4 March to 6 March 2030,
with ids 100, 101 and so on. -/
def bookedDb (n : Nat) : Db :=
  { sampleDb with reservations := (List.range n).map (fun i =>
      { sampleReservation with id := 100 + i, checkin := 1898812800000,
                               checkout := 1898985600000 }) }

/-- The sample runtime on 5 March 2030: today's midnight is after 1 March 2030. -/
def marchRuntime : Runtime := { sampleRuntime with now := 1898899200000, today := 1898899200000 }

/-- A booking whose check-in, 1 March 2030, is a valid date and whose check-out is no date. -/
def badCheckoutBooking : ReservationRequest :=
  { sampleBooking with checkin := some "2030-03-01", checkout := some "pronto" }

/-- A booking whose check-in is no date. -/
def badCheckinBooking : ReservationRequest :=
  { sampleBooking with checkin := some "pronto" }

/-! ## Properties of check-availability -/

/-- The length of the filtered list is the count the specification describes. -/
theorem overlapQuery_eq_spec (id : ObjectId) (ci co : Int) (rs : List Reservation) :
    (rs.filter (overlapQuery id ci co)).length = specBookedRooms rs id ci co := by
  unfold specBookedRooms
  rw [List.countP_eq_length_filter]
  congr 2
  funext r
  simp [overlapQuery, Bool.and_assoc]

/-- The response to a query with valid dates and `checkout > checkin`. -/
theorem postCheckAvailability_valid (rt : Runtime) (db : Db) (id : ObjectId)
    (checkin checkout : Option String) (ci co : Int)
    (h1 : truthyStr checkin = true) (h2 : truthyStr checkout = true)
    (hci : newDate rt.dateParse checkin = some ci) (hco : newDate rt.dateParse checkout = some co)
    (hlt : ci < co) :
    postCheckAvailability rt db id checkin checkout =
      (Response.ok 200 { available := decide (maxRooms - ((db.reservations.filter (overlapQuery id ci co)).length : Int) > 0),
                         availableRooms := maxRooms - ((db.reservations.filter (overlapQuery id ci co)).length : Int),
                         totalRooms := maxRooms,
                         bookedRooms := (db.reservations.filter (overlapQuery id ci co)).length }, db) := by
  have hle : dateLe (some co) (some ci) = false := by
    simp [dateLe]; exact hlt
  simp [postCheckAvailability, h1, h2, hci, hco, hle]

/-- C2: for every query with valid dates and `checkout > checkin`, check-availability
answers 200 and its `bookedRooms` is the number of the hotel's reservations with status
`confirmada` or `pendiente` that satisfy `existing.checkin < checkout` and
`existing.checkout > checkin`. -/
theorem checkAvailability_bookedRooms (rt : Runtime) (db : Db) (id : ObjectId)
    (checkin checkout : Option String) (ci co : Int)
    (h1 : truthyStr checkin = true) (h2 : truthyStr checkout = true)
    (hci : newDate rt.dateParse checkin = some ci) (hco : newDate rt.dateParse checkout = some co)
    (hlt : ci < co) :
    ∃ body, postCheckAvailability rt db id checkin checkout = (Response.ok 200 body, db)
      ∧ body.bookedRooms = specBookedRooms db.reservations id ci co := by
  refine ⟨_, postCheckAvailability_valid rt db id checkin checkout ci co h1 h2 hci hco hlt, ?_⟩
  exact overlapQuery_eq_spec id ci co db.reservations

/-- Witness of C2 on the example of the specification: the stored reservation
[1 March, 5 March) counts for the query [4 March, 6 March) and not for [5 March, 6 March). -/
theorem checkAvailability_bookedRooms_witness :
    (∃ body, postCheckAvailability sampleRuntime sampleDb 10 (some "2030-03-04") (some "2030-03-06")
        = (Response.ok 200 body, sampleDb)
      ∧ body.bookedRooms = specBookedRooms sampleDb.reservations 10 1898812800000 1898985600000)
    ∧ specBookedRooms sampleDb.reservations 10 1898812800000 1898985600000 = 1
    ∧ (∃ body, postCheckAvailability sampleRuntime sampleDb 10 (some "2030-03-05") (some "2030-03-06")
        = (Response.ok 200 body, sampleDb)
      ∧ body.bookedRooms = specBookedRooms sampleDb.reservations 10 1898899200000 1898985600000)
    ∧ specBookedRooms sampleDb.reservations 10 1898899200000 1898985600000 = 0 :=
  ⟨checkAvailability_bookedRooms sampleRuntime sampleDb 10 (some "2030-03-04") (some "2030-03-06")
      1898812800000 1898985600000 (by decide) (by decide) (by decide) (by decide) (by decide),
   by decide,
   checkAvailability_bookedRooms sampleRuntime sampleDb 10 (some "2030-03-05") (some "2030-03-06")
      1898899200000 1898985600000 (by decide) (by decide) (by decide) (by decide) (by decide),
   by decide⟩

/-- C3: every successful check-availability response has `availableRooms = 20 − bookedRooms`
and `totalRooms = 20`, its `bookedRooms` is the overlap count of the query, and `available`
is true exactly when `availableRooms > 0`, that is exactly when fewer than 20 confirmed or
pending reservations overlap. -/
theorem checkAvailability_rooms (rt : Runtime) (db db' : Db) (id : ObjectId)
    (checkin checkout : Option String) (status : Nat) (body : Availability)
    (h : postCheckAvailability rt db id checkin checkout = (Response.ok status body, db')) :
    body.availableRooms = 20 - (body.bookedRooms : Int) ∧ body.totalRooms = 20
      ∧ (body.available = true ↔ body.availableRooms > 0)
      ∧ (body.available = true ↔ body.bookedRooms < 20)
      ∧ ∃ ci co, newDate rt.dateParse checkin = some ci ∧ newDate rt.dateParse checkout = some co
          ∧ body.bookedRooms = specBookedRooms db.reservations id ci co := by
  unfold postCheckAvailability at h
  split at h
  · simp at h
  · dsimp only at h
    split at h
    · simp at h
    · split at h
      · next ci co hci hco =>
        simp only [Prod.mk.injEq, Response.ok.injEq] at h
        obtain ⟨⟨-, hb⟩, -⟩ := h
        subst hb
        refine ⟨rfl, rfl, by simp, ?_, ci, co, hci, hco, overlapQuery_eq_spec id ci co db.reservations⟩
        simp [maxRooms]
      · simp at h

/-- Witness of C3: the sample query leaves 19 of the 20 rooms available. -/
theorem checkAvailability_rooms_witness :
    postCheckAvailability sampleRuntime sampleDb 10 (some "2030-03-04") (some "2030-03-06")
        = (Response.ok 200 ⟨true, 19, 20, 1⟩, sampleDb)
    ∧ ((19 : Int) = 20 - ((1 : Nat) : Int) ∧ (20 : Int) = 20
      ∧ (true = true ↔ (19 : Int) > 0)
      ∧ (true = true ↔ 1 < 20)
      ∧ ∃ ci co, newDate sampleRuntime.dateParse (some "2030-03-04") = some ci
          ∧ newDate sampleRuntime.dateParse (some "2030-03-06") = some co
          ∧ 1 = specBookedRooms sampleDb.reservations 10 ci co) :=
  ⟨by decide!, checkAvailability_rooms sampleRuntime sampleDb sampleDb 10 (some "2030-03-04")
      (some "2030-03-06") 200 ⟨true, 19, 20, 1⟩ (by decide!)⟩

/-! ## Properties of reservation creation -/

/-- Every element of `replaceFirst p new l` is `new` or an element of `l`. -/
theorem mem_replaceFirst {α : Type} (p : α → Bool) (new : α) (l : List α) (x : α)
    (h : x ∈ replaceFirst p new l) : x = new ∨ x ∈ l := by
  induction l with
  | nil => simp [replaceFirst] at h
  | cons a l ih =>
    simp only [replaceFirst] at h
    split at h
    · rcases List.mem_cons.1 h with h | h
      · exact Or.inl h
      · exact Or.inr (List.mem_cons_of_mem _ h)
    · rcases List.mem_cons.1 h with h | h
      · exact Or.inr (h ▸ List.mem_cons_self _ _)
      · rcases ih h with h | h
        · exact Or.inl h
        · exact Or.inr (List.mem_cons_of_mem _ h)

/-- When some element of `l` satisfies `p`, the replacement is an element of `replaceFirst p new l`. -/
theorem new_mem_replaceFirst {α : Type} (p : α → Bool) (new : α) (l : List α)
    (h : ∃ x ∈ l, p x = true) : new ∈ replaceFirst p new l := by
  induction l with
  | nil => simp at h
  | cons a l ih =>
    simp only [replaceFirst]
    split
    · exact List.mem_cons_self _ _
    · next hpa =>
      obtain ⟨x, hx, hpx⟩ := h
      rcases List.mem_cons.1 hx with hx | hx
      · subst hx; exact absurd hpx hpa
      · exact List.mem_cons_of_mem _ (ih ⟨x, hx, hpx⟩)

/-- Logging changes only the log collection. -/
theorem createLog_reservations (rt : Runtime) (db : Db) (level message : String)
    (userId : Option ObjectId) (action : Option String) :
    (createLog rt db level message userId action).reservations = db.reservations := by
  unfold createLog; split <;> rfl

/-- The confirmation email changes only the log collection. -/
theorem confirmationEmail_reservations (rt : Runtime) (db : Db) (user : AuthUser) :
    (confirmationEmail rt db user).reservations = db.reservations := by
  unfold confirmationEmail
  split
  · split
    · split <;> exact createLog_reservations _ _ _ _ _ _
    · rfl
  · rfl

/-- A stay with `checkout` after `checkin` has at least one night. -/
theorem nights_pos (ci co : Int) (hlt : ci < co) :
    1 ≤ mathCeil (((co - ci : Int) : ℚ) / (1000 * 60 * 60 * 24)) := by
  unfold mathCeil
  have h : (0 : ℚ) < ((co - ci : Int) : ℚ) / (1000 * 60 * 60 * 24) := by
    apply div_pos
    · exact_mod_cast sub_pos.2 hlt
    · norm_num
  exact Int.one_le_ceil_iff.2 h

/-- A request that passes the checks on fields and dates and names a stored hotel reaches
`createReservation`. -/
theorem postReservation_valid (rt : Runtime) (db : Db) (user : AuthUser) (body : ReservationRequest)
    (hotelId : ObjectId) (adults : ℚ) (roomType : String) (ci co : Int) (hotel : Hotel)
    (hh : body.hotelId = some hotelId) (ha : body.adults = some adults) (ha0 : adults ≠ 0)
    (hr : body.roomType = some roomType) (hr0 : roomType ≠ "")
    (h1 : truthyStr body.checkin = true) (h2 : truthyStr body.checkout = true)
    (hci : newDate rt.dateParse body.checkin = some ci)
    (hco : newDate rt.dateParse body.checkout = some co)
    (htoday : rt.today ≤ ci) (hlt : ci < co)
    (hhotel : db.hotels.find? (fun h => decide (h.id = hotelId)) = some hotel) :
    postReservation rt db user body
      = createReservation rt db user hotelId (some ci) (some co) adults body.children roomType hotel := by
  have hlt' : dateLt (some ci) (some rt.today) = false := by simp [dateLt]; exact htoday
  have hle : dateLe (some co) (some ci) = false := by simp [dateLe]; exact hlt
  simp [postReservation, hh, ha, hr, h1, h2, hci, hco, hhotel, hlt', hle, ha0, hr0]

/-- The fields of the document that `newReservation` builds. -/
theorem newReservation_fields (id userId hotelId : ObjectId) (checkin checkout : JsDate)
    (adults children : ℚ) (roomType : String) (total : JsNum) (number : String) (createdAt : Int)
    (r : Reservation)
    (h : newReservation id userId hotelId checkin checkout adults children roomType total number
      createdAt = some r) :
    r.id = id ∧ r.userId = userId ∧ r.hotelId = hotelId ∧ checkin = some r.checkin
      ∧ checkout = some r.checkout ∧ r.adults = adults ∧ 1 ≤ adults ∧ r.children = children
      ∧ r.roomType = roomType ∧ total = some r.total ∧ r.status = Status.confirmada
      ∧ r.pdfUrl = none ∧ r.reservationNumber = number ∧ r.createdAt = createdAt := by
  unfold newReservation at h
  split at h
  · split at h
    · next hadults =>
      simp only [Option.some.injEq] at h
      subst h
      exact ⟨rfl, rfl, rfl, rfl, rfl, rfl, hadults, rfl, rfl, rfl, rfl, rfl, rfl, rfl⟩
    · simp at h
  · simp at h

/-- With valid dates, a total and at least one adult the schema accepts the document. -/
theorem newReservation_isSome (id userId hotelId : ObjectId) (ci co : Int)
    (adults children : ℚ) (roomType : String) (total : ℚ) (number : String) (createdAt : Int)
    (hadults : 1 ≤ adults) :
    ∃ r, newReservation id userId hotelId (some ci) (some co) adults children roomType (some total)
      number createdAt = some r := by
  simp [newReservation, hadults]

/-- The reservations after `createReservation`: unchanged when the schema rejects the document,
otherwise the new document is appended and, when the PDF was written, its `pdfUrl` is set. -/
theorem createReservation_reservations (rt : Runtime) (db : Db) (user : AuthUser) (hotelId : ObjectId)
    (checkinDate checkoutDate : JsDate) (adults : ℚ) (children : JsNum) (roomType : String)
    (hotel : Hotel) :
    (newReservation rt.newId user.userId hotelId checkinDate checkoutDate adults
        (if truthyNum children then children.getD 0 else 0) roomType
        (reservationTotal hotel.price (nightsBetween checkinDate checkoutDate))
        (generateReservationNumber rt.now rt.random) rt.now = none
      ∧ (createReservation rt db user hotelId checkinDate checkoutDate adults children roomType
          hotel).2.reservations = db.reservations)
    ∨ ∃ r, newReservation rt.newId user.userId hotelId checkinDate checkoutDate adults
        (if truthyNum children then children.getD 0 else 0) roomType
        (reservationTotal hotel.price (nightsBetween checkinDate checkoutDate))
        (generateReservationNumber rt.now rt.random) rt.now = some r
      ∧ ((createReservation rt db user hotelId checkinDate checkoutDate adults children roomType
            hotel).2.reservations = db.reservations ++ [r]
        ∨ (createReservation rt db user hotelId checkinDate checkoutDate adults children roomType
            hotel).2.reservations
          = replaceFirst (fun x => decide (x.id = r.id))
              { r with pdfUrl := some ("/uploads/" ++ ("reservation_" ++ toString r.id ++ ".pdf")) }
              (db.reservations ++ [r])) := by
  unfold createReservation
  dsimp only
  generalize newReservation rt.newId user.userId hotelId checkinDate checkoutDate adults
    (if truthyNum children = true then children.getD 0 else 0) roomType
    (reservationTotal hotel.price (nightsBetween checkinDate checkoutDate))
    (generateReservationNumber rt.now rt.random) rt.now = res
  cases res with
  | none => exact Or.inl ⟨rfl, createLog_reservations _ _ _ _ _ _⟩
  | some r =>
    refine Or.inr ⟨r, rfl, ?_⟩
    dsimp only
    split
    · exact Or.inl (createLog_reservations _ _ _ _ _ _)
    · split
      · exact Or.inl (createLog_reservations _ _ _ _ _ _)
      · refine Or.inr ?_
        rw [createLog_reservations, confirmationEmail_reservations]

/-- A success response of `createReservation` carries the stored document with its `pdfUrl`. -/
theorem createReservation_ok (rt : Runtime) (db db' : Db) (user : AuthUser) (hotelId : ObjectId)
    (checkinDate checkoutDate : JsDate) (adults : ℚ) (children : JsNum) (roomType : String)
    (hotel : Hotel) (status : Nat) (created : ReservationCreated)
    (h : createReservation rt db user hotelId checkinDate checkoutDate adults children roomType hotel
      = (Response.ok status created, db')) :
    status = 201 ∧ ∃ r, newReservation rt.newId user.userId hotelId checkinDate checkoutDate adults
        (if truthyNum children then children.getD 0 else 0) roomType
        (reservationTotal hotel.price (nightsBetween checkinDate checkoutDate))
        (generateReservationNumber rt.now rt.random) rt.now = some r
      ∧ created.reservation
        = { r with pdfUrl := some ("/uploads/" ++ ("reservation_" ++ toString r.id ++ ".pdf")) } := by
  unfold createReservation at h
  dsimp only at h
  generalize newReservation rt.newId user.userId hotelId checkinDate checkoutDate adults
    (if truthyNum children = true then children.getD 0 else 0) roomType
    (reservationTotal hotel.price (nightsBetween checkinDate checkoutDate))
    (generateReservationNumber rt.now rt.random) rt.now = res at h ⊢
  cases res with
  | none => simp [reservationFailed] at h
  | some r =>
    dsimp only at h
    split at h
    · simp [reservationFailed] at h
    · split at h
      · simp [reservationFailed] at h
      · simp only [Prod.mk.injEq, Response.ok.injEq] at h
        obtain ⟨⟨hs, hb⟩, -⟩ := h
        exact ⟨hs.symm, r, rfl, by rw [← hb]⟩

/-- The total of a stay between valid dates. -/
theorem reservationTotal_valid (price : ℚ) (ci co : Int) :
    reservationTotal price (nightsBetween (some ci) (some co))
      = some (price * ((⌈((co - ci : Int) : ℚ) / 86400000⌉ : Int) : ℚ)) := by
  simp only [reservationTotal, nightsBetween, mathCeil, Option.map_some']
  norm_num

/-- C1: a request to `POST /api/reservations` with all required fields, a check-in not before
today's midnight, a check-out after the check-in and a stored hotel has
`nights = ceil((checkout − checkin) / 86 400 000 ms) ≥ 1`; every reservation the request adds
to the store, and the reservation of a success response, has `total = hotel.price × nights`;
and when the schema accepts the document (`adults ≥ 1`) such a reservation is stored. -/
theorem postReservation_total (rt : Runtime) (db : Db) (user : AuthUser) (body : ReservationRequest)
    (hotelId : ObjectId) (adults : ℚ) (roomType : String) (ci co : Int) (hotel : Hotel)
    (hh : body.hotelId = some hotelId) (ha : body.adults = some adults) (ha0 : adults ≠ 0)
    (hr : body.roomType = some roomType) (hr0 : roomType ≠ "")
    (h1 : truthyStr body.checkin = true) (h2 : truthyStr body.checkout = true)
    (hci : newDate rt.dateParse body.checkin = some ci)
    (hco : newDate rt.dateParse body.checkout = some co)
    (htoday : rt.today ≤ ci) (hlt : ci < co)
    (hhotel : db.hotels.find? (fun h => decide (h.id = hotelId)) = some hotel) :
    1 ≤ ⌈((co - ci : Int) : ℚ) / 86400000⌉
    ∧ (∀ r ∈ (postReservation rt db user body).2.reservations,
        r ∈ db.reservations ∨ r.total = hotel.price * ((⌈((co - ci : Int) : ℚ) / 86400000⌉ : Int) : ℚ))
    ∧ (∀ status created db', postReservation rt db user body = (Response.ok status created, db') →
        created.reservation.total = hotel.price * ((⌈((co - ci : Int) : ℚ) / 86400000⌉ : Int) : ℚ))
    ∧ (1 ≤ adults → ∃ r ∈ (postReservation rt db user body).2.reservations,
        r.id = rt.newId ∧ r.userId = user.userId ∧ r.hotelId = hotelId
          ∧ r.total = hotel.price * ((⌈((co - ci : Int) : ℚ) / 86400000⌉ : Int) : ℚ)) := by
  rw [postReservation_valid rt db user body hotelId adults roomType ci co hotel hh ha ha0 hr hr0
    h1 h2 hci hco htoday hlt hhotel]
  have hn := nights_pos ci co hlt
  have hn' : 1 ≤ ⌈((co - ci : Int) : ℚ) / 86400000⌉ := by
    have e : ((1000 : ℚ) * 60 * 60 * 24) = 86400000 := by norm_num
    rw [e] at hn; exact hn
  refine ⟨hn', ?_, ?_, ?_⟩
  · intro r hr
    rcases createReservation_reservations rt db user hotelId (some ci) (some co) adults
      body.children roomType hotel with ⟨-, hsame⟩ | ⟨r0, hnew, hstored⟩
    · rw [hsame] at hr; exact Or.inl hr
    · have hf := newReservation_fields _ _ _ _ _ _ _ _ _ _ _ _ hnew
      have ht : r0.total = hotel.price * ((⌈((co - ci : Int) : ℚ) / 86400000⌉ : Int) : ℚ) := by
        have := hf.2.2.2.2.2.2.2.2.2.1
        rw [reservationTotal_valid] at this
        exact (Option.some.inj this).symm
      rcases hstored with hstored | hstored
      · rw [hstored] at hr
        rcases List.mem_append.1 hr with hr | hr
        · exact Or.inl hr
        · rw [List.mem_singleton.1 hr]; exact Or.inr ht
      · rw [hstored] at hr
        rcases mem_replaceFirst _ _ _ _ hr with hr | hr
        · rw [hr]; exact Or.inr ht
        · rcases List.mem_append.1 hr with hr | hr
          · exact Or.inl hr
          · rw [List.mem_singleton.1 hr]; exact Or.inr ht
  · intro status created db' hok
    obtain ⟨-, r0, hnew, hcreated⟩ := createReservation_ok _ _ _ _ _ _ _ _ _ _ _ _ _ hok
    have hf := newReservation_fields _ _ _ _ _ _ _ _ _ _ _ _ hnew
    have := hf.2.2.2.2.2.2.2.2.2.1
    rw [reservationTotal_valid] at this
    rw [hcreated]
    exact (Option.some.inj this).symm
  · intro hadults
    obtain ⟨r0, hnew⟩ := newReservation_isSome rt.newId user.userId hotelId ci co adults
      (if truthyNum body.children then body.children.getD 0 else 0) roomType
      (hotel.price * ((⌈((co - ci : Int) : ℚ) / 86400000⌉ : Int) : ℚ))
      (generateReservationNumber rt.now rt.random) rt.now hadults
    rw [← reservationTotal_valid] at hnew
    have hf := newReservation_fields _ _ _ _ _ _ _ _ _ _ _ _ hnew
    have ht : r0.total = hotel.price * ((⌈((co - ci : Int) : ℚ) / 86400000⌉ : Int) : ℚ) := by
      have := hf.2.2.2.2.2.2.2.2.2.1
      rw [reservationTotal_valid] at this
      exact (Option.some.inj this).symm
    rcases createReservation_reservations rt db user hotelId (some ci) (some co) adults
      body.children roomType hotel with ⟨hnone, -⟩ | ⟨r1, hnew1, hstored⟩
    · rw [hnew] at hnone; exact absurd hnone (by simp)
    · rw [hnew] at hnew1
      have e : r0 = r1 := Option.some.inj hnew1
      subst e
      rcases hstored with hstored | hstored
      · exact ⟨r0, by rw [hstored]; simp, hf.1, hf.2.1, hf.2.2.1, ht⟩
      · refine ⟨{ r0 with pdfUrl := some ("/uploads/" ++ ("reservation_" ++ toString r0.id ++ ".pdf")) },
          ?_, hf.1, hf.2.1, hf.2.2.1, ht⟩
        rw [hstored]
        apply new_mem_replaceFirst
        exact ⟨r0, by simp, by simp⟩

/-- Witness of C1: two nights at 850 in the sample hotel are stored with total 1700. -/
theorem postReservation_total_witness :
    (1 ≤ ⌈(((1898985600000 : Int) - 1898812800000 : Int) : ℚ) / 86400000⌉
    ∧ (∀ r ∈ (postReservation sampleRuntime sampleDb ana
          ⟨some 10, some "2030-03-04", some "2030-03-06", some 2, none, some "doble"⟩).2.reservations,
        r ∈ sampleDb.reservations
          ∨ r.total = 850 * ((⌈(((1898985600000 : Int) - 1898812800000 : Int) : ℚ) / 86400000⌉ : Int) : ℚ))
    ∧ (∀ status created db', postReservation sampleRuntime sampleDb ana
          ⟨some 10, some "2030-03-04", some "2030-03-06", some 2, none, some "doble"⟩
          = (Response.ok status created, db') →
        created.reservation.total
          = 850 * ((⌈(((1898985600000 : Int) - 1898812800000 : Int) : ℚ) / 86400000⌉ : Int) : ℚ))
    ∧ ((1 : ℚ) ≤ 2 → ∃ r ∈ (postReservation sampleRuntime sampleDb ana
          ⟨some 10, some "2030-03-04", some "2030-03-06", some 2, none, some "doble"⟩).2.reservations,
        r.id = sampleRuntime.newId ∧ r.userId = ana.userId ∧ r.hotelId = 10
          ∧ r.total = 850 * ((⌈(((1898985600000 : Int) - 1898812800000 : Int) : ℚ) / 86400000⌉ : Int) : ℚ)))
    ∧ (postReservation sampleRuntime sampleDb ana
          ⟨some 10, some "2030-03-04", some "2030-03-06", some 2, none, some "doble"⟩).2.reservations.map
        (fun r => r.total) = [3400, 1700] :=
  ⟨postReservation_total sampleRuntime sampleDb ana
    ⟨some 10, some "2030-03-04", some "2030-03-06", some 2, none, some "doble"⟩
    10 2 "doble" 1898812800000 1898985600000
    { id := 10, name := "Hotel Plaza", location := "Reynosa", price := 850 }
    rfl rfl (by norm_num) rfl (by decide) (by decide) (by decide) (by decide) (by decide)
    (by decide) (by decide) (by decide!),
   by decide!⟩

/-- The handler either leaves the store as it was, or passed all checks and ran
`createReservation`. -/
theorem postReservation_cases (rt : Runtime) (db : Db) (user : AuthUser) (body : ReservationRequest) :
    ((postReservation rt db user body).2 = db
      ∧ ((postReservation rt db user body).1.status = 400
        ∨ (postReservation rt db user body).1.status = 404))
    ∨ ∃ hotelId adults roomType hotel,
        body.hotelId = some hotelId ∧ body.adults = some adults ∧ body.roomType = some roomType
        ∧ adults ≠ 0 ∧ roomType ≠ ""
        ∧ truthyStr body.checkin = true ∧ truthyStr body.checkout = true
        ∧ dateLt (newDate rt.dateParse body.checkin) (some rt.today) = false
        ∧ dateLe (newDate rt.dateParse body.checkout) (newDate rt.dateParse body.checkin) = false
        ∧ db.hotels.find? (fun h => decide (h.id = hotelId)) = some hotel
        ∧ postReservation rt db user body
          = createReservation rt db user hotelId (newDate rt.dateParse body.checkin)
              (newDate rt.dateParse body.checkout) adults body.children roomType hotel := by
  unfold postReservation
  split
  · next hotelId adults roomType hh ha hr =>
    split
    · exact Or.inl ⟨rfl, Or.inl rfl⟩
    · next hfields =>
      dsimp only
      split
      · exact Or.inl ⟨rfl, Or.inl rfl⟩
      · next hlt =>
        split
        · exact Or.inl ⟨rfl, Or.inl rfl⟩
        · next hle =>
          split
          · exact Or.inl ⟨rfl, Or.inr rfl⟩
          · next hotel hhotel =>
            simp only [not_or, not_not] at hfields
            refine Or.inr ⟨hotelId, adults, roomType, hotel, hh, ha, hr, hfields.2.2.1, hfields.2.2.2,
              hfields.1, hfields.2.1, ?_, ?_, hhotel, rfl⟩
            · simpa using hlt
            · simpa using hle
  · exact Or.inl ⟨rfl, Or.inl rfl⟩

/-- Every reservation in the store after `createReservation` was there before or is the new
document, with or without its `pdfUrl`. -/
theorem createReservation_added (rt : Runtime) (db : Db) (user : AuthUser) (hotelId : ObjectId)
    (checkinDate checkoutDate : JsDate) (adults : ℚ) (children : JsNum) (roomType : String)
    (hotel : Hotel) (r : Reservation)
    (hr : r ∈ (createReservation rt db user hotelId checkinDate checkoutDate adults children roomType
      hotel).2.reservations) :
    r ∈ db.reservations ∨ ∃ r0, newReservation rt.newId user.userId hotelId checkinDate checkoutDate
        adults (if truthyNum children then children.getD 0 else 0) roomType
        (reservationTotal hotel.price (nightsBetween checkinDate checkoutDate))
        (generateReservationNumber rt.now rt.random) rt.now = some r0
      ∧ (r = r0 ∨ r = { r0 with
          pdfUrl := some ("/uploads/" ++ ("reservation_" ++ toString r0.id ++ ".pdf")) }) := by
  rcases createReservation_reservations rt db user hotelId checkinDate checkoutDate adults
    children roomType hotel with ⟨-, hsame⟩ | ⟨r0, hnew, hstored⟩
  · rw [hsame] at hr; exact Or.inl hr
  · rcases hstored with hstored | hstored
    · rw [hstored] at hr
      rcases List.mem_append.1 hr with hr | hr
      · exact Or.inl hr
      · exact Or.inr ⟨r0, hnew, Or.inl (List.mem_singleton.1 hr)⟩
    · rw [hstored] at hr
      rcases mem_replaceFirst _ _ _ _ hr with hr | hr
      · exact Or.inr ⟨r0, hnew, Or.inr hr⟩
      · rcases List.mem_append.1 hr with hr | hr
        · exact Or.inl hr
        · exact Or.inr ⟨r0, hnew, Or.inl (List.mem_singleton.1 hr)⟩

/-- When the schema accepts the new document, the store after `createReservation` holds it,
with or without its `pdfUrl`. -/
theorem createReservation_stores (rt : Runtime) (db : Db) (user : AuthUser) (hotelId : ObjectId)
    (checkinDate checkoutDate : JsDate) (adults : ℚ) (children : JsNum) (roomType : String)
    (hotel : Hotel) (r0 : Reservation)
    (hnew : newReservation rt.newId user.userId hotelId checkinDate checkoutDate
        adults (if truthyNum children then children.getD 0 else 0) roomType
        (reservationTotal hotel.price (nightsBetween checkinDate checkoutDate))
        (generateReservationNumber rt.now rt.random) rt.now = some r0) :
    ∃ r ∈ (createReservation rt db user hotelId checkinDate checkoutDate adults children roomType
        hotel).2.reservations,
      r = r0 ∨ r = { r0 with
          pdfUrl := some ("/uploads/" ++ ("reservation_" ++ toString r0.id ++ ".pdf")) } := by
  rcases createReservation_reservations rt db user hotelId checkinDate checkoutDate adults
    children roomType hotel with ⟨hnone, -⟩ | ⟨r1, hnew1, hstored⟩
  · rw [hnew] at hnone; exact absurd hnone (by simp)
  · rw [hnew] at hnew1
    have e : r0 = r1 := Option.some.inj hnew1
    subst e
    rcases hstored with hstored | hstored
    · exact ⟨r0, by rw [hstored]; simp, Or.inl rfl⟩
    · refine ⟨{ r0 with pdfUrl := some ("/uploads/" ++ ("reservation_" ++ toString r0.id ++ ".pdf")) },
        ?_, Or.inr rfl⟩
      rw [hstored]
      apply new_mem_replaceFirst
      exact ⟨r0, by simp, by simp⟩

/-- C7: whatever the other fields, a request whose check-in date is earlier than today's
midnight, or whose check-out date is earlier than or equal to its check-in date, is answered
with 400 and the store is left as it was. -/
theorem postReservation_rejects_dates (rt : Runtime) (db : Db) (user : AuthUser)
    (body : ReservationRequest) (ci : Int)
    (hci : newDate rt.dateParse body.checkin = some ci)
    (hbad : ci < rt.today ∨ ∃ co, newDate rt.dateParse body.checkout = some co ∧ co ≤ ci) :
    (postReservation rt db user body).1.status = 400 ∧ (postReservation rt db user body).2 = db := by
  rcases postReservation_cases rt db user body with ⟨hdb, hst⟩ | ⟨_, _, _, _, _, _, _, _, _, _, _, hlt, hle, _, _⟩
  · rcases hst with hst | hst
    · exact ⟨hst, hdb⟩
    · exfalso
      revert hst
      unfold postReservation
      split
      · split
        · simp [Response.status]
        · dsimp only
          rcases hbad with hbad | ⟨co, hco, hbad⟩
          · have : dateLt (newDate rt.dateParse body.checkin) (some rt.today) = true := by
              rw [hci]; simpa [dateLt] using hbad
            simp [this, Response.status]
          · have : dateLe (newDate rt.dateParse body.checkout) (newDate rt.dateParse body.checkin)
                = true := by
              rw [hci, hco]; simpa [dateLe] using hbad
            simp only [this]
            split <;> simp [Response.status]
      · simp [Response.status]
  · exfalso
    rw [hci] at hlt hle
    rcases hbad with hbad | ⟨co, hco, hbad⟩
    · simp [dateLt] at hlt; omega
    · rw [hco] at hle
      simp [dateLe] at hle; omega

/-- Witness of C7: a request with every field present whose check-in (1 March 2030) lies before
today's midnight (here 5 March 2030), and one whose check-out equals its check-in. -/
theorem postReservation_rejects_dates_witness :
    ((postReservation { sampleRuntime with today := 1898899200000 } sampleDb ana
        ⟨some 10, some "2030-03-01", some "2030-03-06", some 2, some 1, some "doble"⟩).1.status = 400
      ∧ (postReservation { sampleRuntime with today := 1898899200000 } sampleDb ana
        ⟨some 10, some "2030-03-01", some "2030-03-06", some 2, some 1, some "doble"⟩).2 = sampleDb)
    ∧ ((postReservation sampleRuntime sampleDb ana
        ⟨some 10, some "2030-03-04", some "2030-03-04", some 2, some 1, some "doble"⟩).1.status = 400
      ∧ (postReservation sampleRuntime sampleDb ana
        ⟨some 10, some "2030-03-04", some "2030-03-04", some 2, some 1, some "doble"⟩).2 = sampleDb) :=
  ⟨postReservation_rejects_dates { sampleRuntime with today := 1898899200000 } sampleDb ana
      ⟨some 10, some "2030-03-01", some "2030-03-06", some 2, some 1, some "doble"⟩
      1898553600000 (by decide) (Or.inl (by decide)),
   postReservation_rejects_dates sampleRuntime sampleDb ana
      ⟨some 10, some "2030-03-04", some "2030-03-04", some 2, some 1, some "doble"⟩
      1898812800000 (by decide) (Or.inr ⟨1898812800000, by decide, by decide⟩)⟩

/-- C8: a request to `POST /api/reservations` that lacks `hotelId`, `checkin`, `checkout`,
`adults` or `roomType` is answered with 400 and the store is left as it was; `children` may be
absent: every reservation such a request adds has `children = 0`, and a request without
`children` that is otherwise valid (with `adults ≥ 1`, as the schema demands) is stored. -/
theorem postReservation_required_fields (rt : Runtime) (db : Db) (user : AuthUser)
    (body : ReservationRequest) :
    ((body.hotelId = none ∨ body.checkin = none ∨ body.checkout = none ∨ body.adults = none
        ∨ body.roomType = none) →
      postReservation rt db user body = (Response.error 400 "Todos los campos son requeridos", db))
    ∧ (body.children = none →
      (∀ r ∈ (postReservation rt db user body).2.reservations, r ∈ db.reservations ∨ r.children = 0)
      ∧ ∀ (hotelId : ObjectId) (adults : ℚ) (roomType : String) (ci co : Int) (hotel : Hotel),
          body.hotelId = some hotelId → body.adults = some adults → 1 ≤ adults →
          body.roomType = some roomType → roomType ≠ "" →
          truthyStr body.checkin = true → truthyStr body.checkout = true →
          newDate rt.dateParse body.checkin = some ci →
          newDate rt.dateParse body.checkout = some co →
          rt.today ≤ ci → ci < co →
          db.hotels.find? (fun h => decide (h.id = hotelId)) = some hotel →
          ∃ r ∈ (postReservation rt db user body).2.reservations,
            r.id = rt.newId ∧ r.userId = user.userId ∧ r.children = 0) := by
  constructor
  · intro h
    obtain ⟨hotelId, checkin, checkout, adults, children, roomType⟩ := body
    simp only at h
    unfold postReservation
    cases hotelId <;> cases adults <;> cases roomType <;>
      rcases h with h | h | h | h | h <;>
      first | rfl | (simp at h) | (subst h; simp [truthyStr])
  · intro hchildren
    constructor
    · intro r hr
      rcases postReservation_cases rt db user body with ⟨hdb, -⟩ | ⟨hotelId, adults, roomType, hotel,
        -, -, -, -, -, -, -, -, -, -, heq⟩
      · rw [hdb] at hr; exact Or.inl hr
      · rw [heq] at hr
        rcases createReservation_added _ _ _ _ _ _ _ _ _ _ _ hr with hr | ⟨r0, hnew, hr⟩
        · exact Or.inl hr
        · have hf := newReservation_fields _ _ _ _ _ _ _ _ _ _ _ _ hnew
          have hc : r0.children = 0 := by
            rw [hf.2.2.2.2.2.2.2.1, hchildren]; simp [truthyNum]
          rcases hr with hr | hr
          · rw [hr]; exact Or.inr hc
          · rw [hr]; exact Or.inr hc
    · intro hotelId adults roomType ci co hotel hh ha hadults hr hr0 h1 h2 hci hco htoday hlt hhotel
      have ha0 : adults ≠ 0 := by
        intro h0; rw [h0] at hadults; norm_num at hadults
      rw [postReservation_valid rt db user body hotelId adults roomType ci co hotel hh ha ha0 hr hr0
        h1 h2 hci hco htoday hlt hhotel]
      obtain ⟨r0, hnew⟩ := newReservation_isSome rt.newId user.userId hotelId ci co adults
        (if truthyNum body.children then body.children.getD 0 else 0) roomType
        (hotel.price * ((⌈((co - ci : Int) : ℚ) / 86400000⌉ : Int) : ℚ))
        (generateReservationNumber rt.now rt.random) rt.now hadults
      rw [← reservationTotal_valid] at hnew
      have hf := newReservation_fields _ _ _ _ _ _ _ _ _ _ _ _ hnew
      have hc : r0.children = 0 := by
        rw [hf.2.2.2.2.2.2.2.1, hchildren]; simp [truthyNum]
      obtain ⟨r, hr, hrr⟩ := createReservation_stores _ db _ _ _ _ _ _ _ _ _ hnew
      refine ⟨r, hr, ?_⟩
      rcases hrr with hrr | hrr
      · rw [hrr]; exact ⟨hf.1, hf.2.1, hc⟩
      · rw [hrr]; exact ⟨hf.1, hf.2.1, hc⟩

/-- Witness of C8: a request without `adults` is refused, a request without `children` is
stored with `children = 0`. -/
theorem postReservation_required_fields_witness :
    postReservation sampleRuntime sampleDb ana
        ⟨some 10, some "2030-03-04", some "2030-03-06", none, some 1, some "doble"⟩
      = (Response.error 400 "Todos los campos son requeridos", sampleDb)
    ∧ ∃ r ∈ (postReservation sampleRuntime sampleDb ana
          ⟨some 10, some "2030-03-04", some "2030-03-06", some 2, none, some "doble"⟩).2.reservations,
        r.id = sampleRuntime.newId ∧ r.userId = ana.userId ∧ r.children = 0 :=
  ⟨(postReservation_required_fields sampleRuntime sampleDb ana
      ⟨some 10, some "2030-03-04", some "2030-03-06", none, some 1, some "doble"⟩).1
      (Or.inr (Or.inr (Or.inr (Or.inl rfl)))),
   ((postReservation_required_fields sampleRuntime sampleDb ana
      ⟨some 10, some "2030-03-04", some "2030-03-06", some 2, none, some "doble"⟩).2 rfl).2
      10 2 "doble" 1898812800000 1898985600000
      { id := 10, name := "Hotel Plaza", location := "Reynosa", price := 850 }
      rfl rfl (by norm_num) rfl (by decide) (by decide) (by decide) (by decide) (by decide)
      (by decide) (by decide) (by decide!)⟩

/-! ## Properties of cancellation -/

/-- An element that does not satisfy `p` stays in `replaceFirst p new l`. -/
theorem mem_replaceFirst_of_not {α : Type} (p : α → Bool) (new : α) (l : List α) (x : α)
    (hx : x ∈ l) (hp : p x = false) : x ∈ replaceFirst p new l := by
  induction l with
  | nil => simp at hx
  | cons a l ih =>
    simp only [replaceFirst]
    rcases List.mem_cons.1 hx with hx | hx
    · subst hx
      simp [hp]
    · split
      · exact List.mem_cons_of_mem _ hx
      · exact List.mem_cons_of_mem _ (ih hx)

/-- Looking up with a test `q` that implies `p` finds the replacement after `replaceFirst p`. -/
theorem find?_replaceFirst {α : Type} (p q : α → Bool) (new x : α) (l : List α)
    (hfind : l.find? q = some x) (hqp : ∀ y, q y = true → p y = true) (hnew : q new = true) :
    (replaceFirst p new l).find? q = some new := by
  induction l with
  | nil => simp at hfind
  | cons a l ih =>
    simp only [replaceFirst]
    by_cases hpa : p a = true
    · simp [hpa, List.find?, hnew]
    · have hqa : q a = false := by
        cases hq : q a with
        | false => rfl
        | true => exact absurd (hqp a hq) hpa
      simp only [List.find?, hqa] at hfind
      simp only [hpa, Bool.false_eq_true, ↓reduceIte, List.find?, hqa]
      exact ih hfind

/-- The cancellation email changes only the log collection. -/
theorem cancellationEmail_reservations (rt : Runtime) (db : Db) (user : AuthUser) (r : Reservation) :
    (cancellationEmail rt db user r).reservations = db.reservations := by
  unfold cancellationEmail
  split
  · split
    · split <;> exact createLog_reservations _ _ _ _ _ _
    · rfl
  · rfl

/-- The three outcomes of the cancel handler: no reservation of the caller has the id (404),
the reservation is closed or inside the cancellation window (400), or it is cancelled (200). -/
theorem putCancelReservation_cases (rt : Runtime) (db : Db) (user : AuthUser) (id : ObjectId) :
    (db.reservations.find? (fun r => decide (r.id = id ∧ r.userId = user.userId)) = none
      ∧ putCancelReservation rt db user id = (Response.error 404 "Reservación no encontrada", db))
    ∨ ∃ reservation,
        db.reservations.find? (fun r => decide (r.id = id ∧ r.userId = user.userId)) = some reservation
        ∧ (((reservation.status = Status.cancelada ∨ reservation.status = Status.completada
              ∨ numLt (some (hoursUntilCheckin reservation.checkin rt.now))
                  ((cancellationHours db).toNumber rt.stringToNumber) = true)
            ∧ (putCancelReservation rt db user id).1.status = 400
            ∧ (putCancelReservation rt db user id).2 = db)
          ∨ (reservation.status ≠ Status.cancelada ∧ reservation.status ≠ Status.completada
            ∧ numLt (some (hoursUntilCheckin reservation.checkin rt.now))
                  ((cancellationHours db).toNumber rt.stringToNumber) = false
            ∧ (putCancelReservation rt db user id).1
                = Response.ok 200 { reservation with status := Status.cancelada }
            ∧ (putCancelReservation rt db user id).2.reservations
                = replaceFirst (fun r => decide (r.id = reservation.id))
                    { reservation with status := Status.cancelada } db.reservations)) := by
  unfold putCancelReservation
  split
  · next hnone => exact Or.inl ⟨hnone, rfl⟩
  · next reservation hsome =>
    refine Or.inr ⟨reservation, hsome, ?_⟩
    split
    · next h => exact Or.inl ⟨Or.inl h, rfl, rfl⟩
    · next h1 =>
      split
      · next h => exact Or.inl ⟨Or.inr (Or.inl h), rfl, rfl⟩
      · next h2 =>
        dsimp only
        split
        · next h => exact Or.inl ⟨Or.inr (Or.inr h), rfl, rfl⟩
        · next h3 =>
          refine Or.inr ⟨h1, h2, by simpa using h3, rfl, ?_⟩
          rw [createLog_reservations, cancellationEmail_reservations]

/-- C4: for a reservation of the caller with status `confirmada` or `pendiente` and a numeric
cancellation window `w`, the cancel handler answers 400 and leaves the store as it was when
`(checkin − now)` in hours is less than `w`, and answers 200 and stores the reservation with
status `cancelada` when it is `w` or more; the window is the value of the config record
`cancellation_hours` when that record exists and 24 when it does not. -/
theorem cancel_window (rt : Runtime) (db : Db) (user : AuthUser) (id : ObjectId)
    (reservation : Reservation) (w : ℚ)
    (hfind : db.reservations.find? (fun r => decide (r.id = id ∧ r.userId = user.userId))
      = some reservation)
    (hstatus : reservation.status = Status.confirmada ∨ reservation.status = Status.pendiente)
    (hw : (cancellationHours db).toNumber rt.stringToNumber = some w) :
    (((reservation.checkin - rt.now : Int) : ℚ) / 3600000 < w →
        (putCancelReservation rt db user id).1.status = 400
          ∧ (putCancelReservation rt db user id).2 = db)
    ∧ (w ≤ ((reservation.checkin - rt.now : Int) : ℚ) / 3600000 →
        (putCancelReservation rt db user id).1
            = Response.ok 200 { reservation with status := Status.cancelada }
          ∧ { reservation with status := Status.cancelada }
              ∈ (putCancelReservation rt db user id).2.reservations)
    ∧ (∀ c, db.configs.find? (fun c => decide (c.key = "cancellation_hours")) = some c →
        cancellationHours db = c.value)
    ∧ (db.configs.find? (fun c => decide (c.key = "cancellation_hours")) = none →
        cancellationHours db = JsValue.num 24) := by
  have hhours : hoursUntilCheckin reservation.checkin rt.now
      = ((reservation.checkin - rt.now : Int) : ℚ) / 3600000 := by
    unfold hoursUntilCheckin; norm_num
  have hnc : reservation.status ≠ Status.cancelada := by
    rcases hstatus with h | h <;> rw [h] <;> decide
  have hnd : reservation.status ≠ Status.completada := by
    rcases hstatus with h | h <;> rw [h] <;> decide
  refine ⟨?_, ?_, ?_, ?_⟩
  · intro hlt
    rcases putCancelReservation_cases rt db user id with ⟨hnone, -⟩ | ⟨r, hsome, hcase⟩
    · rw [hfind] at hnone; exact absurd hnone (by simp)
    · rw [hfind] at hsome
      have e : reservation = r := Option.some.inj hsome
      subst e
      rcases hcase with ⟨-, hst, hdb⟩ | ⟨-, -, hge, -, -⟩
      · exact ⟨hst, hdb⟩
      · rw [hw, hhours] at hge
        simp only [numLt, decide_eq_false_iff_not] at hge
        exact absurd hlt hge
  · intro hge
    rcases putCancelReservation_cases rt db user id with ⟨hnone, -⟩ | ⟨r, hsome, hcase⟩
    · rw [hfind] at hnone; exact absurd hnone (by simp)
    · rw [hfind] at hsome
      have e : reservation = r := Option.some.inj hsome
      subst e
      rcases hcase with ⟨hbad, -, -⟩ | ⟨-, -, -, hresp, hstored⟩
      · rcases hbad with h | h | h
        · exact absurd h hnc
        · exact absurd h hnd
        · rw [hw, hhours] at h
          simp only [numLt, decide_eq_true_eq] at h
          exact absurd h (not_lt.2 hge)
      · refine ⟨hresp, ?_⟩
        rw [hstored]
        apply new_mem_replaceFirst
        exact ⟨reservation, List.mem_of_find?_eq_some hfind, by simp⟩
  · intro c hc
    simp [cancellationHours, hc]
  · intro hc
    simp [cancellationHours, hc]

/-- Witness of C4: the sample reservation checks in on 1 March 2030 at 00:00 UTC.  With the
default window of 24 hours a cancellation on 28 February at 00:00:00.001 is refused and one at
00:00:00.000 succeeds; with a configured window of 48 hours the latter is refused. -/
theorem cancel_window_witness :
    ((putCancelReservation (februaryRuntime 1) sampleDb ana 5).1.status = 400
      ∧ (putCancelReservation (februaryRuntime 1) sampleDb ana 5).2 = sampleDb)
    ∧ ((putCancelReservation (februaryRuntime 0) sampleDb ana 5).1
          = Response.ok 200 { sampleReservation with status := Status.cancelada }
      ∧ { sampleReservation with status := Status.cancelada }
          ∈ (putCancelReservation (februaryRuntime 0) sampleDb ana 5).2.reservations)
    ∧ ((putCancelReservation (februaryRuntime 0) configuredDb ana 5).1.status = 400
      ∧ (putCancelReservation (februaryRuntime 0) configuredDb ana 5).2 = configuredDb) :=
  ⟨(cancel_window (februaryRuntime 1) sampleDb ana 5 sampleReservation 24 (by decide)
      (Or.inl rfl) rfl).1 (by norm_num [sampleReservation, februaryRuntime]),
   (cancel_window (februaryRuntime 0) sampleDb ana 5 sampleReservation 24 (by decide)
      (Or.inl rfl) rfl).2.1 (by norm_num [sampleReservation, februaryRuntime]),
   (cancel_window (februaryRuntime 0) configuredDb ana 5 sampleReservation 48 (by decide)
      (Or.inl rfl) rfl).1 (by norm_num [sampleReservation, februaryRuntime])⟩

/-- C9: for a reservation of the caller with status `cancelada` or `completada` the cancel
handler answers 400 at every time and leaves the store as it was; and after a successful
cancellation a second cancellation of the same reservation by the same caller answers 400 and
leaves the store as it was. -/
theorem cancel_closed (rt : Runtime) (db : Db) (user : AuthUser) (id : ObjectId) :
    (∀ reservation,
        db.reservations.find? (fun r => decide (r.id = id ∧ r.userId = user.userId))
          = some reservation →
        reservation.status = Status.cancelada ∨ reservation.status = Status.completada →
        (putCancelReservation rt db user id).1.status = 400
          ∧ (putCancelReservation rt db user id).2 = db)
    ∧ (∀ (rt' : Runtime) (body : Reservation) (db' : Db),
        putCancelReservation rt db user id = (Response.ok 200 body, db') →
        (putCancelReservation rt' db' user id).1.status = 400
          ∧ (putCancelReservation rt' db' user id).2 = db') := by
  have closed : ∀ (rt : Runtime) (db : Db) (reservation : Reservation),
      db.reservations.find? (fun r => decide (r.id = id ∧ r.userId = user.userId))
        = some reservation →
      reservation.status = Status.cancelada ∨ reservation.status = Status.completada →
      (putCancelReservation rt db user id).1.status = 400
        ∧ (putCancelReservation rt db user id).2 = db := by
    intro rt db reservation hfind hstatus
    rcases putCancelReservation_cases rt db user id with ⟨hnone, -⟩ | ⟨r, hsome, hcase⟩
    · rw [hfind] at hnone; exact absurd hnone (by simp)
    · rw [hfind] at hsome
      have e : reservation = r := Option.some.inj hsome
      subst e
      rcases hcase with ⟨-, hst, hdb⟩ | ⟨hnc, hnd, -, -, -⟩
      · exact ⟨hst, hdb⟩
      · rcases hstatus with h | h
        · exact absurd h hnc
        · exact absurd h hnd
  refine ⟨closed rt db, ?_⟩
  intro rt' body db' hok
  rcases putCancelReservation_cases rt db user id with ⟨-, h404⟩ | ⟨r, hsome, hcase⟩
  · rw [hok] at h404; simp at h404
  · rcases hcase with ⟨-, hst, -⟩ | ⟨-, -, -, -, hstored⟩
    · rw [hok] at hst; simp [Response.status] at hst
    · rw [hok] at hstored
      simp only at hstored
      have hq := List.find?_some hsome
      simp only [decide_eq_true_eq] at hq
      have hfind' : db'.reservations.find? (fun r => decide (r.id = id ∧ r.userId = user.userId))
          = some { r with status := Status.cancelada } := by
        rw [hstored]
        apply find?_replaceFirst _ _ _ r _ hsome
        · intro y hy
          simp only [decide_eq_true_eq] at hy ⊢
          rw [hy.1, hq.1]
        · simp only [decide_eq_true_eq]
          exact hq
      exact closed rt' db' _ hfind' (Or.inl rfl)

/-- Witness of C9: the sample reservation, once cancelled, cannot be cancelled again, however
early the second request is made. -/
theorem cancel_closed_witness :
    (putCancelReservation (februaryRuntime 0) sampleDb ana 5).1.status = 200
    ∧ (putCancelReservation sampleRuntime
          (putCancelReservation (februaryRuntime 0) sampleDb ana 5).2 ana 5).1.status = 400
    ∧ (putCancelReservation sampleRuntime
          (putCancelReservation (februaryRuntime 0) sampleDb ana 5).2 ana 5).2
        = (putCancelReservation (februaryRuntime 0) sampleDb ana 5).2 :=
  ⟨by decide!,
   (cancel_closed (februaryRuntime 0) sampleDb ana 5).2 sampleRuntime
      { sampleReservation with status := Status.cancelada }
      (putCancelReservation (februaryRuntime 0) sampleDb ana 5).2 (by decide!)⟩

/-- C10: when no stored reservation with the given id belongs to the caller, the cancel handler
answers 404 and leaves the store as it was; and in every call, on a store whose reservation ids
are distinct, every reservation of another user is still in the store, unchanged. -/
theorem cancel_not_owner (rt : Runtime) (db : Db) (user : AuthUser) (id : ObjectId) :
    ((∀ r ∈ db.reservations, r.id = id → r.userId ≠ user.userId) →
        putCancelReservation rt db user id
          = (Response.error 404 "Reservación no encontrada", db))
    ∧ ((db.reservations.map (fun r => r.id)).Nodup →
        ∀ r ∈ db.reservations, r.userId ≠ user.userId →
          r ∈ (putCancelReservation rt db user id).2.reservations) := by
  constructor
  · intro h
    rcases putCancelReservation_cases rt db user id with ⟨-, h404⟩ | ⟨r, hsome, -⟩
    · exact h404
    · have hq := List.find?_some hsome
      simp only [decide_eq_true_eq] at hq
      exact absurd hq.2 (h r (List.mem_of_find?_eq_some hsome) hq.1)
  · intro hnodup r hr huser
    rcases putCancelReservation_cases rt db user id with ⟨-, h404⟩ | ⟨r0, hsome, hcase⟩
    · rw [h404]; exact hr
    · rcases hcase with ⟨-, -, hdb⟩ | ⟨-, -, -, -, hstored⟩
      · rw [hdb]; exact hr
      · rw [hstored]
        have hq := List.find?_some hsome
        simp only [decide_eq_true_eq] at hq
        apply mem_replaceFirst_of_not _ _ _ _ hr
        simp only [decide_eq_false_iff_not]
        intro hid
        have : r = r0 := List.inj_on_of_nodup_map hnodup hr (List.mem_of_find?_eq_some hsome) hid
        rw [this] at huser
        exact huser hq.2

/-- Witness of C10: user 2 asks to cancel the reservation of user 1. -/
theorem cancel_not_owner_witness :
    putCancelReservation (februaryRuntime 0) sampleDb luis 5
        = (Response.error 404 "Reservación no encontrada", sampleDb)
    ∧ sampleReservation ∈ (putCancelReservation (februaryRuntime 0) sampleDb luis 5).2.reservations :=
  ⟨(cancel_not_owner (februaryRuntime 0) sampleDb luis 5).1 (by decide),
   (cancel_not_owner (februaryRuntime 0) sampleDb luis 5).2 (by decide) sampleReservation
      (by decide) (by decide)⟩

/-! ## Properties of the rounding to doubles -/

/-- The function `pow2` is the power of two. -/
theorem pow2_eq (z : Int) : pow2 z = (2 : ℚ) ^ z := by
  unfold pow2
  split
  · next h =>
    obtain ⟨n, rfl⟩ := Int.eq_ofNat_of_zero_le h
    simp
  · next h =>
    have hz : z = -(((-z).toNat : Int)) := by omega
    generalize (-z).toNat = k at hz
    rw [hz, zpow_neg]
    simp

/-- With enough fuel the halvings count the position of the leading bit. -/
theorem floorLog2Aux_spec (fuel n : Nat) (hn : 0 < n) (hfuel : n ≤ fuel) :
    2 ^ floorLog2Aux fuel n ≤ n ∧ n < 2 ^ (floorLog2Aux fuel n + 1) := by
  induction fuel generalizing n with
  | zero => omega
  | succ fuel ih =>
    unfold floorLog2Aux
    split
    · next h => simp; omega
    · next h =>
      obtain ⟨h1, h2⟩ := ih (n / 2) (by omega) (by omega)
      simp only [pow_succ] at h2 ⊢
      generalize 2 ^ floorLog2Aux fuel (n / 2) = P at h1 h2 ⊢
      omega

/-- The leading bit is not above the number. -/
theorem floorLog2_self_le (n : Nat) (hn : n ≠ 0) : 2 ^ floorLog2 n ≤ n :=
  (floorLog2Aux_spec n n (Nat.pos_of_ne_zero hn) (le_refl n)).1

/-- The number is below twice its leading bit. -/
theorem lt_floorLog2_self (n : Nat) (hn : n ≠ 0) : n < 2 ^ (floorLog2 n + 1) :=
  (floorLog2Aux_spec n n (Nat.pos_of_ne_zero hn) (le_refl n)).2

/-- A power of two is positive. -/
theorem pow2_pos (z : Int) : 0 < (2 : ℚ) ^ z := zpow_pos (by norm_num) z

/-- The binary exponent brackets a positive rational between two powers of two. -/
theorem binaryExponent_spec (q : ℚ) (hq : 0 < q) :
    (2 : ℚ) ^ binaryExponent q ≤ q ∧ q < (2 : ℚ) ^ (binaryExponent q + 1) := by
  unfold binaryExponent
  dsimp only
  rw [pow2_eq]
  have hnum : 0 < q.num := Rat.num_pos.2 hq
  have hn0 : q.num.natAbs ≠ 0 := by omega
  have hd0 : q.den ≠ 0 := q.den_nz
  have hcast : (q.num.natAbs : ℚ) = (q.num : ℚ) := by
    rw [Nat.cast_natAbs, abs_of_pos hnum]
  have hqeq : q = (q.num.natAbs : ℚ) / (q.den : ℚ) := by
    rw [hcast]; exact (Rat.num_div_den q).symm
  generalize q.num.natAbs = n at hn0 hqeq ⊢
  generalize q.den = d at hd0 hqeq ⊢
  have hn1 : ((2 : ℚ) ^ (floorLog2 n : Int)) ≤ (n : ℚ) := by
    rw [zpow_natCast]; exact_mod_cast floorLog2_self_le n hn0
  have hn2 : (n : ℚ) < (2 : ℚ) ^ ((floorLog2 n : Int) + 1) := by
    have : n < 2 ^ (floorLog2 n + 1) := lt_floorLog2_self n hn0
    have h2 : ((floorLog2 n : Int) + 1) = ((floorLog2 n + 1 : Nat) : Int) := by push_cast; rfl
    rw [h2, zpow_natCast]; exact_mod_cast this
  have hd1 : ((2 : ℚ) ^ (floorLog2 d : Int)) ≤ (d : ℚ) := by
    rw [zpow_natCast]; exact_mod_cast floorLog2_self_le d hd0
  have hd2 : (d : ℚ) < (2 : ℚ) ^ ((floorLog2 d : Int) + 1) := by
    have : d < 2 ^ (floorLog2 d + 1) := lt_floorLog2_self d hd0
    have h2 : ((floorLog2 d : Int) + 1) = ((floorLog2 d + 1 : Nat) : Int) := by push_cast; rfl
    rw [h2, zpow_natCast]; exact_mod_cast this
  have hdpos : (0 : ℚ) < d := by exact_mod_cast Nat.pos_of_ne_zero hd0
  have hnpos : (0 : ℚ) < n := by exact_mod_cast Nat.pos_of_ne_zero hn0
  generalize (floorLog2 n : Int) = a at hn1 hn2 ⊢
  generalize (floorLog2 d : Int) = b at hd1 hd2 ⊢
  have two_ne : (2 : ℚ) ≠ 0 := by norm_num
  -- the quotient lies strictly between 2 ^ (a - b - 1) and 2 ^ (a - b + 1)
  have hup : q < (2 : ℚ) ^ (a - b + 1) := by
    have e : (2 : ℚ) ^ (a - b + 1) = (2 : ℚ) ^ (a + 1) / (2 : ℚ) ^ b := by
      rw [← zpow_sub₀ two_ne]; congr 1; ring
    rw [e, hqeq, div_lt_div_iff₀ hdpos (pow2_pos b)]
    calc (n : ℚ) * 2 ^ b ≤ n * d := by
          exact mul_le_mul_of_nonneg_left hd1 hnpos.le
      _ < 2 ^ (a + 1) * d := by
          exact mul_lt_mul_of_pos_right hn2 hdpos
  have hlow : (2 : ℚ) ^ (a - b - 1) < q := by
    have e : (2 : ℚ) ^ (a - b - 1) = (2 : ℚ) ^ a / (2 : ℚ) ^ (b + 1) := by
      rw [← zpow_sub₀ two_ne]; congr 1; ring
    rw [e, hqeq, div_lt_div_iff₀ (pow2_pos (b + 1)) hdpos]
    calc (2 : ℚ) ^ a * d < 2 ^ a * 2 ^ (b + 1) := by
          exact mul_lt_mul_of_pos_left hd2 (pow2_pos a)
      _ ≤ n * 2 ^ (b + 1) := by
          exact mul_le_mul_of_nonneg_right hn1 (pow2_pos (b + 1)).le
  split
  · next h => exact ⟨h, hup⟩
  · next h =>
    refine ⟨hlow.le, ?_⟩
    have e : a - b - 1 + 1 = a - b := by ring
    rw [e]
    exact lt_of_not_le h

/-- Rounding does not cross an integer from above. -/
theorem le_roundHalfEven (z : Int) (x : ℚ) (h : (z : ℚ) ≤ x) : z ≤ roundHalfEven x := by
  have hz : z ≤ ⌊x⌋ := Int.le_floor.2 h
  unfold roundHalfEven
  dsimp only
  split_ifs <;> omega

/-- Rounding does not cross an integer from below. -/
theorem roundHalfEven_le (z : Int) (x : ℚ) (h : x ≤ (z : ℚ)) : roundHalfEven x ≤ z := by
  have hfl : (⌊x⌋ : ℚ) ≤ x := Int.floor_le x
  have hz : ⌊x⌋ ≤ z := by exact_mod_cast hfl.trans h
  rcases lt_or_eq_of_le hz with hlt | heq
  · unfold roundHalfEven
    dsimp only
    split_ifs <;> omega
  · have hx : x = (z : ℚ) := le_antisymm h (by rw [← heq]; exact hfl)
    unfold roundHalfEven
    dsimp only
    rw [if_pos]
    · exact hz
    · rw [heq, hx]; norm_num

/-- Rounding moves a number by at most one half. -/
theorem roundHalfEven_error (x : ℚ) : |(roundHalfEven x : ℚ) - x| ≤ 1 / 2 := by
  have hfl : (⌊x⌋ : ℚ) ≤ x := Int.floor_le x
  have hlt : x < (⌊x⌋ : ℚ) + 1 := Int.lt_floor_add_one x
  unfold roundHalfEven
  dsimp only
  rw [abs_le]
  split_ifs with h1 h2 h3
  · constructor <;> linarith
  · push_cast; constructor <;> linarith
  · have : x - ⌊x⌋ = 1 / 2 := le_antisymm (not_lt.1 h2) (not_lt.1 h1)
    constructor <;> linarith
  · have : x - ⌊x⌋ = 1 / 2 := le_antisymm (not_lt.1 h2) (not_lt.1 h1)
    push_cast; constructor <;> linarith

/-- On a positive rational `toDouble` is `toDoublePos`. -/
theorem toDouble_of_pos (q : ℚ) (hq : 0 < q) : toDouble q = toDoublePos q := by
  unfold toDouble
  rw [if_neg hq.ne.symm, if_pos hq]

/-- The unit in the last place of a positive rational is at most `q / 2 ^ 52`. -/
theorem ulp_le (q : ℚ) (hq : 0 < q) :
    (2 : ℚ) ^ (binaryExponent q - 52) ≤ q / 2 ^ 52 := by
  have h := (binaryExponent_spec q hq).1
  rw [zpow_sub₀ (by norm_num : (2 : ℚ) ≠ 0)]
  have e : (2 : ℚ) ^ (52 : Int) = 2 ^ 52 := by norm_num
  rw [e]
  exact div_le_div_of_nonneg_right h (by positivity)

/-- The relative error of the rounding to a double is at most `2 ^ -53`. -/
theorem toDoublePos_error (q : ℚ) (hq : 0 < q) : |toDoublePos q - q| ≤ q / 2 ^ 53 := by
  unfold toDoublePos
  dsimp only
  rw [pow2_eq]
  have hu : 0 < (2 : ℚ) ^ (binaryExponent q - 52) := pow2_pos _
  have hle := ulp_le q hq
  generalize (2 : ℚ) ^ (binaryExponent q - 52) = u at hu hle
  have herr := roundHalfEven_error (q / u)
  have e : (roundHalfEven (q / u) : ℚ) * u - q = ((roundHalfEven (q / u) : ℚ) - q / u) * u := by
    field_simp
  rw [e, abs_mul, abs_of_pos hu]
  calc |(roundHalfEven (q / u) : ℚ) - q / u| * u ≤ 1 / 2 * u :=
        mul_le_mul_of_nonneg_right herr hu.le
    _ ≤ 1 / 2 * (q / 2 ^ 52) := mul_le_mul_of_nonneg_left hle (by norm_num)
    _ = q / 2 ^ 53 := by ring

/-- Rounding a positive rational to a double does not go below a natural number up to `2 ^ 53`
that is below the rational. -/
theorem natCast_le_toDoublePos (N : Nat) (hN : N ≤ 2 ^ 53) (q : ℚ) (hq : 0 < q)
    (h : (N : ℚ) ≤ q) : (N : ℚ) ≤ toDoublePos q := by
  obtain ⟨hlo, hhi⟩ := binaryExponent_spec q hq
  unfold toDoublePos
  dsimp only
  rw [pow2_eq]
  have hu : 0 < (2 : ℚ) ^ (binaryExponent q - 52) := pow2_pos _
  generalize binaryExponent q = e at hlo hhi hu ⊢
  have two_ne : (2 : ℚ) ≠ 0 := by norm_num
  rcases le_or_lt e 52 with he | he
  · obtain ⟨k, hk⟩ : ∃ k : Nat, e - 52 = -(k : Int) := ⟨(52 - e).toNat, by omega⟩
    have hu2 : (2 : ℚ) ^ (e - 52) * 2 ^ k = 1 := by
      rw [hk, zpow_neg, zpow_natCast]
      exact inv_mul_cancel₀ (by positivity)
    generalize (2 : ℚ) ^ (e - 52) = u at hu hu2 ⊢
    have hz : (((N * 2 ^ k : Nat) : Int) : ℚ) ≤ q / u := by
      rw [le_div_iff₀ hu]
      push_cast
      calc (N : ℚ) * 2 ^ k * u = N * (u * 2 ^ k) := by ring
        _ = N := by rw [hu2, mul_one]
        _ ≤ q := h
    have hr := le_roundHalfEven _ _ hz
    have hr2 : (((N * 2 ^ k : Nat) : Int) : ℚ) ≤ (roundHalfEven (q / u) : ℚ) := by
      exact_mod_cast hr
    calc (N : ℚ) = N * (u * 2 ^ k) := by rw [hu2, mul_one]
      _ = (((N * 2 ^ k : Nat) : Int) : ℚ) * u := by push_cast; ring
      _ ≤ (roundHalfEven (q / u) : ℚ) * u := mul_le_mul_of_nonneg_right hr2 hu.le
  · have hsplit : (2 : ℚ) ^ e = 2 ^ 52 * (2 : ℚ) ^ (e - 52) := by
      have : (2 : ℚ) ^ (52 : Int) = 2 ^ 52 := by norm_num
      rw [← this, ← zpow_add₀ two_ne]; congr 1; ring
    have hbig : (2 : ℚ) ^ (53 : Int) ≤ (2 : ℚ) ^ e :=
      zpow_le_zpow_right₀ (by norm_num) (by omega)
    have h53 : (2 : ℚ) ^ (53 : Int) = 2 ^ 53 := by norm_num
    generalize (2 : ℚ) ^ (e - 52) = u at hu hsplit ⊢
    have c52 : (((2 ^ 52 : Nat) : Int) : ℚ) = 2 ^ 52 := by norm_num
    have hz : (((2 ^ 52 : Nat) : Int) : ℚ) ≤ q / u := by
      rw [le_div_iff₀ hu, c52, ← hsplit]; exact hlo
    have hr := le_roundHalfEven _ _ hz
    have hr2 : (((2 ^ 52 : Nat) : Int) : ℚ) ≤ (roundHalfEven (q / u) : ℚ) := by
      exact_mod_cast hr
    have hN2 : (N : ℚ) ≤ 2 ^ 53 := by exact_mod_cast hN
    calc (N : ℚ) ≤ 2 ^ 53 := hN2
      _ ≤ (2 : ℚ) ^ e := by rw [← h53]; exact hbig
      _ = (((2 ^ 52 : Nat) : Int) : ℚ) * u := by rw [hsplit, c52]
      _ ≤ (roundHalfEven (q / u) : ℚ) * u := mul_le_mul_of_nonneg_right hr2 hu.le

/-- Rounding a positive rational to a double does not go above a natural number up to `2 ^ 53`
that is above the rational. -/
theorem toDoublePos_le_natCast (N : Nat) (hN : N ≤ 2 ^ 53) (q : ℚ) (hq : 0 < q)
    (h : q ≤ (N : ℚ)) : toDoublePos q ≤ (N : ℚ) := by
  obtain ⟨hlo, hhi⟩ := binaryExponent_spec q hq
  unfold toDoublePos
  dsimp only
  rw [pow2_eq]
  have hu : 0 < (2 : ℚ) ^ (binaryExponent q - 52) := pow2_pos _
  generalize binaryExponent q = e at hlo hhi hu ⊢
  have two_ne : (2 : ℚ) ≠ 0 := by norm_num
  have hN2 : (N : ℚ) ≤ 2 ^ 53 := by exact_mod_cast hN
  have h53 : (2 : ℚ) ^ (53 : Int) = 2 ^ 53 := by norm_num
  rcases le_or_lt e 52 with he | he
  · obtain ⟨k, hk⟩ : ∃ k : Nat, e - 52 = -(k : Int) := ⟨(52 - e).toNat, by omega⟩
    have hu2 : (2 : ℚ) ^ (e - 52) * 2 ^ k = 1 := by
      rw [hk, zpow_neg, zpow_natCast]
      exact inv_mul_cancel₀ (by positivity)
    generalize (2 : ℚ) ^ (e - 52) = u at hu hu2 ⊢
    have hz : q / u ≤ (((N * 2 ^ k : Nat) : Int) : ℚ) := by
      rw [div_le_iff₀ hu]
      push_cast
      calc q ≤ N := h
        _ = N * (u * 2 ^ k) := by rw [hu2, mul_one]
        _ = (N : ℚ) * 2 ^ k * u := by ring
    have hr := roundHalfEven_le _ _ hz
    have hr2 : (roundHalfEven (q / u) : ℚ) ≤ (((N * 2 ^ k : Nat) : Int) : ℚ) := by
      exact_mod_cast hr
    calc (roundHalfEven (q / u) : ℚ) * u ≤ (((N * 2 ^ k : Nat) : Int) : ℚ) * u :=
          mul_le_mul_of_nonneg_right hr2 hu.le
      _ = N * (u * 2 ^ k) := by push_cast; ring
      _ = N := by rw [hu2, mul_one]
  · have he53 : e = 53 := by
      by_contra hne
      have hbig : (2 : ℚ) ^ (54 : Int) ≤ (2 : ℚ) ^ e :=
        zpow_le_zpow_right₀ (by norm_num) (by omega)
      have h54 : (2 : ℚ) ^ (54 : Int) = 2 ^ 54 := by norm_num
      rw [h54] at hbig
      have : (2 : ℚ) ^ 54 ≤ 2 ^ 53 := hbig.trans (hlo.trans (h.trans hN2))
      norm_num at this
    subst he53
    have hu3 : (2 : ℚ) ^ ((53 : Int) - 52) = 2 := by norm_num
    rw [hu3]
    rw [h53] at hlo
    have hz : q / 2 ≤ (((2 ^ 52 : Nat) : Int) : ℚ) := by
      push_cast
      have := h.trans hN2
      linarith
    have hr := roundHalfEven_le _ _ hz
    have hr2 : (roundHalfEven (q / 2) : ℚ) ≤ (((2 ^ 52 : Nat) : Int) : ℚ) := by
      exact_mod_cast hr
    push_cast at hr2
    have := hlo.trans h
    linarith

/-- On a rational between two natural numbers, the lower at least 1 and the upper at most
`2 ^ 53`, the rounding to a double stays between them and moves the rational by at most the
upper bound over `2 ^ 53`. -/
theorem toDouble_bounds (lo hi : Nat) (hlo : 1 ≤ lo) (hhi : hi ≤ 2 ^ 53) (q : ℚ)
    (h1 : (lo : ℚ) ≤ q) (h2 : q ≤ (hi : ℚ)) :
    (lo : ℚ) ≤ toDouble q ∧ toDouble q ≤ (hi : ℚ) ∧ |toDouble q - q| ≤ (hi : ℚ) / 2 ^ 53 := by
  have hlo1 : (1 : ℚ) ≤ (lo : ℚ) := by exact_mod_cast hlo
  have hq : 0 < q := by linarith
  have hlohi : lo ≤ hi := by exact_mod_cast h1.trans h2
  rw [toDouble_of_pos q hq]
  refine ⟨natCast_le_toDoublePos lo (hlohi.trans hhi) q hq h1,
    toDoublePos_le_natCast hi hhi q hq h2, ?_⟩
  exact (toDoublePos_error q hq).trans (div_le_div_of_nonneg_right h2 (by positivity))

/-- A natural number up to `2 ^ 53` is a double. -/
theorem toDouble_natCast (n : Nat) (hn : n ≤ 2 ^ 53) : toDouble (n : ℚ) = (n : ℚ) := by
  rcases Nat.eq_zero_or_pos n with h0 | hpos
  · subst h0; simp [toDouble]
  · obtain ⟨h1, h2, -⟩ := toDouble_bounds n n hpos hn (n : ℚ) le_rfl le_rfl
    exact le_antisymm h2 h1

/-- The running total of the ratings, summed in doubles: started from a total of `j` ratings
in `[1, 5]`, it stays between the number of ratings and five times that number, and its
distance from the exact sum is at most `10 n ^ 2 / 2 ^ 53` after `n` ratings. -/
theorem totalRating_bounds (reviews : List Review)
    (h : ∀ review ∈ reviews, 1 ≤ review.rating ∧ review.rating ≤ 5)
    (j : Nat) (init exact : ℚ) (hj : 5 * (j + reviews.length) ≤ 2 ^ 53)
    (hlo : (j : ℚ) ≤ init) (hhi : init ≤ 5 * (j : ℚ))
    (herr : |init - exact| ≤ 10 * (j : ℚ) ^ 2 / 2 ^ 53) (total : ℚ)
    (htotal : total
      = reviews.foldl (fun sum review => toDouble (sum + toDouble review.rating)) init) :
    ((j + reviews.length : Nat) : ℚ) ≤ total
      ∧ total ≤ 5 * ((j + reviews.length : Nat) : ℚ)
      ∧ |total - (exact + (reviews.map (fun review => review.rating)).sum)|
          ≤ 10 * ((j + reviews.length : Nat) : ℚ) ^ 2 / 2 ^ 53 := by
  induction reviews generalizing j init exact with
  | nil =>
    simp only [List.foldl, List.length_nil, Nat.add_zero, List.map_nil, List.sum_nil,
      add_zero] at htotal ⊢
    rw [htotal]
    exact ⟨hlo, hhi, herr⟩
  | cons a l ih =>
    have ha := h a (List.mem_cons_self _ _)
    have hl : ∀ review ∈ l, 1 ≤ review.rating ∧ review.rating ≤ 5 :=
      fun review hr => h review (List.mem_cons_of_mem _ hr)
    simp only [List.length_cons] at hj
    obtain ⟨hd1, hd5, hderr⟩ := toDouble_bounds 1 5 le_rfl (by norm_num) a.rating
      (by simpa using ha.1) (by simpa using ha.2)
    simp only [Nat.cast_one, Nat.cast_ofNat] at hd1 hd5 hderr
    obtain ⟨hs1, hs5, hserr⟩ := toDouble_bounds (j + 1) (5 * (j + 1)) (by omega) (by omega)
      (init + toDouble a.rating) (by push_cast; linarith) (by push_cast; linarith)
    have hjnn : (0 : ℚ) ≤ (j : ℚ) := Nat.cast_nonneg j
    have hstep : |toDouble (init + toDouble a.rating) - (exact + a.rating)|
        ≤ 10 * ((j + 1 : Nat) : ℚ) ^ 2 / 2 ^ 53 := by
      have hpoly : (5 * ((j : ℚ) + 1) + 10 * (j : ℚ) ^ 2 + 5) / 2 ^ 53
          ≤ 10 * ((j : ℚ) + 1) ^ 2 / 2 ^ 53 := by
        apply div_le_div_of_nonneg_right _ (by positivity)
        nlinarith
      push_cast at hserr ⊢
      rw [abs_le] at hderr hserr herr ⊢
      constructor <;> linarith [hderr.1, hderr.2, hserr.1, hserr.2, herr.1, herr.2]
    have hs5' : toDouble (init + toDouble a.rating) ≤ 5 * ((j + 1 : Nat) : ℚ) := by
      push_cast at hs5 ⊢; exact hs5
    have := ih hl (j + 1) (toDouble (init + toDouble a.rating)) (exact + a.rating)
      (by omega) hs1 hs5' hstep (by rw [htotal]; rfl)
    have e1 : j + (l.length + 1) = j + 1 + l.length := by omega
    simp only [List.length_cons, List.map_cons, List.sum_cons, e1]
    rw [← add_assoc]
    exact this

/-- Rounding halves up gives the same integer for two numbers closer to each other than
the first is to the nearest number with fractional part one half. -/
theorem floor_half_stable (x y δ : ℚ) (hxy : |y - x| ≤ δ) (hδ : δ < |x - ⌊x⌋ - 1 / 2|) :
    ⌊y + 1 / 2⌋ = ⌊x + 1 / 2⌋ := by
  have hfl : (⌊x⌋ : ℚ) ≤ x := Int.floor_le x
  have hlt : x < (⌊x⌋ : ℚ) + 1 := Int.lt_floor_add_one x
  have hδ0 : 0 ≤ δ := (abs_nonneg _).trans hxy
  rw [abs_le] at hxy
  rcases le_or_lt 0 (x - ⌊x⌋ - 1 / 2) with hge | hneg
  · rw [abs_of_nonneg hge] at hδ
    have e1 : ⌊x + 1 / 2⌋ = ⌊x⌋ + 1 := by
      rw [Int.floor_eq_iff]; push_cast; constructor <;> linarith
    have e2 : ⌊y + 1 / 2⌋ = ⌊x⌋ + 1 := by
      rw [Int.floor_eq_iff]; push_cast; constructor <;> linarith [hxy.1, hxy.2]
    rw [e1, e2]
  · rw [abs_of_neg hneg] at hδ
    have e1 : ⌊x + 1 / 2⌋ = ⌊x⌋ := by
      rw [Int.floor_eq_iff]; constructor <;> linarith
    have e2 : ⌊y + 1 / 2⌋ = ⌊x⌋ := by
      rw [Int.floor_eq_iff]; constructor <;> linarith [hxy.1, hxy.2]
    rw [e1, e2]

/-- The tenfold mean of at least one and at most `maxBsonObjectSize` ratings in `[1, 5]`,
computed in doubles, lies in `[10, 50]` and within `10 ^ -6` of the exact tenfold mean. -/
theorem tenfoldMean_bounds (reviews : List Review) (hne : reviews ≠ [])
    (hlen : reviews.length ≤ maxBsonObjectSize)
    (h : ∀ review ∈ reviews, 1 ≤ review.rating ∧ review.rating ≤ 5) (y : ℚ)
    (hy : y = toDouble (toDouble
      (reviews.foldl (fun sum review => toDouble (sum + toDouble review.rating)) 0
        / toDouble (reviews.length : ℚ)) * 10)) :
    10 ≤ y ∧ y ≤ 50
      ∧ |y - specMean (reviews.map (fun review => review.rating)) * 10| ≤ 1 / 10 ^ 6 := by
  have hn1 : 1 ≤ reviews.length := List.length_pos.2 hne
  have hmax : maxBsonObjectSize = 16777216 := by decide
  rw [hmax] at hlen
  obtain ⟨hs1, hs5, hserr⟩ := totalRating_bounds reviews h 0 0 0 (by omega) (by simp) (by simp)
    (by simp) _ rfl
  simp only [Nat.zero_add, zero_add] at hs1 hs5 hserr
  rw [toDouble_natCast reviews.length (by omega)] at hy
  unfold specMean
  simp only [List.length_map]
  generalize reviews.foldl (fun sum review => toDouble (sum + toDouble review.rating)) 0
    = total at hy hs1 hs5 hserr
  generalize (reviews.map (fun review => review.rating)).sum = exact at hserr ⊢
  have hnpos : (0 : ℚ) < (reviews.length : ℚ) := by exact_mod_cast hn1
  have hnle : (reviews.length : ℚ) ≤ 16777216 := by exact_mod_cast hlen
  generalize (reviews.length : ℚ) = n at hy hs1 hs5 hserr hnpos hnle ⊢
  have hq1 : (1 : ℚ) ≤ total / n := by rw [le_div_iff₀ hnpos]; linarith
  have hq5 : total / n ≤ 5 := by rw [div_le_iff₀ hnpos]; linarith
  obtain ⟨hm1, hm5, hmerr⟩ := toDouble_bounds 1 5 le_rfl (by norm_num) (total / n)
    (by simpa using hq1) (by simpa using hq5)
  simp only [Nat.cast_one, Nat.cast_ofNat] at hm1 hm5 hmerr
  obtain ⟨hy10, hy50, hyerr⟩ := toDouble_bounds 10 50 (by norm_num) (by norm_num)
    (toDouble (total / n) * 10) (by push_cast; linarith) (by push_cast; linarith)
  simp only [Nat.cast_ofNat] at hy10 hy50 hyerr
  rw [← hy] at hy10 hy50 hyerr
  refine ⟨hy10, hy50, ?_⟩
  have hquot : |total / n - exact / n| ≤ 10 * n / 2 ^ 53 := by
    rw [← sub_div, abs_div, abs_of_pos hnpos, div_le_iff₀ hnpos]
    calc |total - exact| ≤ 10 * n ^ 2 / 2 ^ 53 := hserr
      _ = 10 * n / 2 ^ 53 * n := by ring
  rw [abs_le] at hmerr hyerr hquot ⊢
  constructor <;> linarith [hmerr.1, hmerr.2, hyerr.1, hyerr.2, hquot.1, hquot.2]

/-- The recomputed rating of at least one and at most `maxBsonObjectSize` reviews with ratings
in `[1, 5]` lies in `[1, 5]` and is a whole number of tenths. -/
theorem averageRating_range (reviews : List Review) (hne : reviews ≠ [])
    (hlen : reviews.length ≤ maxBsonObjectSize)
    (h : ∀ review ∈ reviews, 1 ≤ review.rating ∧ review.rating ≤ 5) :
    1 ≤ averageRating reviews ∧ averageRating reviews ≤ 5
      ∧ ∃ k : Int, averageRating reviews = (k : ℚ) / 10 := by
  obtain ⟨hy10, hy50, -⟩ := tenfoldMean_bounds reviews hne hlen h _ rfl
  unfold averageRating
  dsimp only
  generalize toDouble (toDouble
      (reviews.foldl (fun sum review => toDouble (sum + toDouble review.rating)) 0
        / toDouble (reviews.length : ℚ)) * 10) = y at hy10 hy50
  have hk_lo : (10 : Int) ≤ mathRound y := by
    unfold mathRound
    apply Int.le_floor.2
    push_cast
    linarith
  have hk_hi : mathRound y ≤ 50 := by
    unfold mathRound
    have : ⌊y + 1 / 2⌋ < 51 := by
      apply Int.floor_lt.2
      push_cast
      linarith
    omega
  refine ⟨?_, ?_, _, rfl⟩
  · rw [le_div_iff₀ (by norm_num : (0 : ℚ) < 10)]
    have : ((10 : Int) : ℚ) ≤ _ := Int.cast_le.2 hk_lo
    push_cast at this
    linarith
  · rw [div_le_iff₀ (by norm_num : (0 : ℚ) < 10)]
    have : _ ≤ ((50 : Int) : ℚ) := Int.cast_le.2 hk_hi
    push_cast at this
    linarith

/-- The recomputed rating of at least one and at most `maxBsonObjectSize` reviews with ratings
in `[1, 5]` is the exact mean rounded to one decimal with halves up, when the tenfold mean is
further than `10 ^ -6` from the numbers with fractional part one half. -/
theorem averageRating_exact (reviews : List Review) (hne : reviews ≠ [])
    (hlen : reviews.length ≤ maxBsonObjectSize)
    (h : ∀ review ∈ reviews, 1 ≤ review.rating ∧ review.rating ≤ 5)
    (haway : 1 / 10 ^ 6 < |specMean (reviews.map (fun review => review.rating)) * 10
      - ⌊specMean (reviews.map (fun review => review.rating)) * 10⌋ - 1 / 2|) :
    averageRating reviews
      = specRoundOneDecimal (specMean (reviews.map (fun review => review.rating))) := by
  obtain ⟨-, -, hyerr⟩ := tenfoldMean_bounds reviews hne hlen h _ rfl
  unfold averageRating specRoundOneDecimal mathRound
  dsimp only
  rw [floor_half_stable _ _ _ hyerr haway]

/-- The recomputed rating is the tenfold mean of the ratings in doubles, rounded with halves up
and divided by ten. -/
theorem averageRating_eq_double (reviews : List Review) :
    averageRating reviews
      = (⌊specDoubleTenfoldMean (reviews.map (fun review => review.rating)) + 1 / 2⌋ : ℚ) / 10 := by
  unfold averageRating specDoubleTenfoldMean mathRound
  simp only [List.foldl_map, List.length_map]

/-- The tenfold mean of at least one and at most `maxBsonObjectSize` ratings in `[1, 5]`,
computed in doubles, is within `10 ^ -6` of the exact tenfold mean. -/
theorem specDoubleTenfoldMean_near (reviews : List Review) (hne : reviews ≠ [])
    (hlen : reviews.length ≤ maxBsonObjectSize)
    (h : ∀ review ∈ reviews, 1 ≤ review.rating ∧ review.rating ≤ 5) :
    |specDoubleTenfoldMean (reviews.map (fun review => review.rating))
        - specMean (reviews.map (fun review => review.rating)) * 10| ≤ 1 / 10 ^ 6 := by
  have := (tenfoldMean_bounds reviews hne hlen h _ rfl).2.2
  unfold specDoubleTenfoldMean
  simp only [List.foldl_map, List.length_map]
  exact this

/-- The rating check rejects exactly the absent ratings, zero, and those outside `[1, 5]`. -/
theorem ratingRejected_iff (rating : JsNum) :
    ratingRejected rating = false ↔ ∃ v, rating = some v ∧ 1 ≤ v ∧ v ≤ 5 := by
  cases rating with
  | none => simp [ratingRejected, truthyNum]
  | some v =>
    simp only [ratingRejected, truthyNum, numLt, Bool.or_eq_false_iff, Bool.not_eq_false',
      decide_eq_true_eq, decide_eq_false_iff_not, not_lt, Option.some.injEq, exists_eq_left']
    constructor
    · rintro ⟨⟨-, h1⟩, h5⟩; exact ⟨h1, h5⟩
    · rintro ⟨h1, h5⟩
      refine ⟨⟨?_, h1⟩, h5⟩
      intro h0; rw [h0] at h1; norm_num at h1

/-! ## Properties of reviews -/

/-- Logging changes neither the hotels nor the experiences. -/
theorem createLog_hotels (rt : Runtime) (db : Db) (level message : String)
    (userId : Option ObjectId) (action : Option String) :
    (createLog rt db level message userId action).hotels = db.hotels
      ∧ (createLog rt db level message userId action).experiences = db.experiences := by
  unfold createLog; split <;> exact ⟨rfl, rfl⟩

/-- The outcomes of the hotel review handler: an error that leaves the hotels as they were, or
a success that stores the hotel with the new review appended and the rating recomputed, the
reviews being no more than a document can hold. -/
theorem postHotelReview_cases (rt : Runtime) (db : Db) (user : AuthUser) (id : ObjectId)
    (rating : JsNum) (comment : Option String) :
    ((postHotelReview rt db user id rating comment).2.hotels = db.hotels
      ∧ ∃ status message, (postHotelReview rt db user id rating comment).1
          = Response.error status message)
    ∨ ∃ value hotel author,
        rating = some value ∧ ratingRejected rating = false
        ∧ db.hotels.find? (fun h => decide (h.id = id)) = some hotel
        ∧ hotel.reviews.find? (fun review => decide (review.userId = user.userId)) = none
        ∧ db.users.find? (fun u => decide (u.id = user.userId)) = some author
        ∧ (postHotelReview rt db user id rating comment).1
            = Response.ok 200
                { hotel with
                  reviews := hotel.reviews ++ [Review.mk user.userId author.name value comment rt.now],
                  rating := averageRating
                    (hotel.reviews ++ [Review.mk user.userId author.name value comment rt.now]) }
        ∧ (postHotelReview rt db user id rating comment).2.hotels
            = replaceFirst (fun h => decide (h.id = hotel.id))
                { hotel with
                  reviews := hotel.reviews ++ [Review.mk user.userId author.name value comment rt.now],
                  rating := averageRating
                    (hotel.reviews ++ [Review.mk user.userId author.name value comment rt.now]) }
                db.hotels
        ∧ (hotel.reviews ++ [Review.mk user.userId author.name value comment rt.now]).length
            ≤ maxBsonObjectSize := by
  unfold postHotelReview
  split
  · exact Or.inl ⟨rfl, _, _, rfl⟩
  · next value =>
    split
    · exact Or.inl ⟨rfl, _, _, rfl⟩
    · next hrating =>
      split
      · exact Or.inl ⟨rfl, _, _, rfl⟩
      · next hotel hhotel =>
        split
        · exact Or.inl ⟨rfl, _, _, rfl⟩
        · next hnone =>
          split
          · exact Or.inl ⟨(createLog_hotels _ _ _ _ _ _).1, _, _, rfl⟩
          · next author hauthor =>
            dsimp only
            split
            · exact Or.inl ⟨(createLog_hotels _ _ _ _ _ _).1, _, _, rfl⟩
            · next hsize =>
              refine Or.inr ⟨value, hotel, author, rfl, by simpa using hrating, hhotel, hnone,
                hauthor, rfl, ?_, not_lt.1 hsize⟩
              rw [(createLog_hotels _ _ _ _ _ _).1]

/-- The outcomes of the experience review handler: an error that leaves the experiences as they
were, or a success that stores the experience with the new review appended and the rating
recomputed, the reviews being no more than a document can hold. -/
theorem postExperienceReview_cases (rt : Runtime) (db : Db) (user : AuthUser) (id : ObjectId)
    (rating : JsNum) (comment : Option String) :
    ((postExperienceReview rt db user id rating comment).2.experiences = db.experiences
      ∧ ∃ status message, (postExperienceReview rt db user id rating comment).1
          = Response.error status message)
    ∨ ∃ value experience author,
        rating = some value ∧ ratingRejected rating = false
        ∧ db.experiences.find? (fun e => decide (e.id = id)) = some experience
        ∧ experience.reviews.find? (fun review => decide (review.userId = user.userId)) = none
        ∧ db.users.find? (fun u => decide (u.id = user.userId)) = some author
        ∧ (postExperienceReview rt db user id rating comment).1
            = Response.ok 200
                { experience with
                  reviews := experience.reviews
                    ++ [Review.mk user.userId author.name value comment rt.now],
                  rating := averageRating
                    (experience.reviews ++ [Review.mk user.userId author.name value comment rt.now]) }
        ∧ (postExperienceReview rt db user id rating comment).2.experiences
            = replaceFirst (fun e => decide (e.id = experience.id))
                { experience with
                  reviews := experience.reviews
                    ++ [Review.mk user.userId author.name value comment rt.now],
                  rating := averageRating
                    (experience.reviews ++ [Review.mk user.userId author.name value comment rt.now]) }
                db.experiences
        ∧ (experience.reviews ++ [Review.mk user.userId author.name value comment rt.now]).length
            ≤ maxBsonObjectSize := by
  unfold postExperienceReview
  split
  · exact Or.inl ⟨rfl, _, _, rfl⟩
  · next value =>
    split
    · exact Or.inl ⟨rfl, _, _, rfl⟩
    · next hrating =>
      split
      · exact Or.inl ⟨rfl, _, _, rfl⟩
      · next experience hexperience =>
        split
        · exact Or.inl ⟨rfl, _, _, rfl⟩
        · next hnone =>
          split
          · exact Or.inl ⟨(createLog_hotels _ _ _ _ _ _).2, _, _, rfl⟩
          · next author hauthor =>
            dsimp only
            split
            · exact Or.inl ⟨(createLog_hotels _ _ _ _ _ _).2, _, _, rfl⟩
            · next hsize =>
              refine Or.inr ⟨value, experience, author, rfl, by simpa using hrating, hexperience,
                hnone, hauthor, rfl, ?_, not_lt.1 hsize⟩
              rw [(createLog_hotels _ _ _ _ _ _).2]

/-- C5, counterexample: hotel 10 has one review, of 1.2; after the review of 1.9 by user 2 the
mean of the ratings times ten is 15.5, which rounded with halves up and divided by ten is 1.6.
In doubles the sum is 3.0999999999999996 and the mean times ten 15.499999999999998, which
`Math.round` takes to 15: the rating stored by the handler is 1.5. -/
theorem review_rating_not_exact :
    (postHotelReview sampleRuntime lowRatedDb luis 10 (some (19 / 10)) none).1
        = Response.ok 200 lowRatedHotel
      ∧ (postHotelReview sampleRuntime lowRatedDb luis 10 (some (19 / 10)) none).2.hotels
        = [lowRatedHotel]
      ∧ lowRatedHotel.reviews.map (fun review => review.rating) = [6 / 5, 19 / 10]
      ∧ specMean (lowRatedHotel.reviews.map (fun review => review.rating)) * 10 = 31 / 2
      ∧ specDoubleTenfoldMean (lowRatedHotel.reviews.map (fun review => review.rating))
        = 8725724278030335 / 562949953421312
      ∧ ⌊(8725724278030335 / 562949953421312 : ℚ) + 1 / 2⌋ = 15
      ∧ specRoundOneDecimal (specMean (lowRatedHotel.reviews.map (fun review => review.rating)))
        = 8 / 5
      ∧ lowRatedHotel.rating = 3 / 2
      ∧ lowRatedHotel.rating
        ≠ specRoundOneDecimal
            (specMean (lowRatedHotel.reviews.map (fun review => review.rating))) := by
  decide!

/-- C5, amended: after every successful review of a hotel, and likewise of an experience, the
reviews of the target are its former reviews followed by the new one, the target is stored so,
and its rating is the mean of all these ratings times ten as computed in doubles, rounded with
halves up and divided by ten.  When the former ratings lie in `[1, 5]`, the tenfold mean in
doubles is within `10 ^ -6` of the exact one, and the rating is the exact mean times ten,
rounded with halves up and divided by ten, whenever the exact mean times ten is further than
`10 ^ -6` from every number with fractional part one half. -/
theorem review_rating (rt : Runtime) (db : Db) (user : AuthUser) (id : ObjectId)
    (rating : JsNum) (comment : Option String) :
    (∀ (status : Nat) (hotel' : Hotel) (db' : Db),
        postHotelReview rt db user id rating comment = (Response.ok status hotel', db') →
        ∃ value old, rating = some value
          ∧ db.hotels.find? (fun h => decide (h.id = id)) = some old
          ∧ hotel'.reviews.map (fun review => review.rating)
              = old.reviews.map (fun review => review.rating) ++ [value]
          ∧ db'.hotels.find? (fun h => decide (h.id = id)) = some hotel'
          ∧ hotel'.rating
              = (⌊specDoubleTenfoldMean (hotel'.reviews.map (fun review => review.rating))
                    + 1 / 2⌋ : ℚ) / 10
          ∧ ((∀ review ∈ old.reviews, 1 ≤ review.rating ∧ review.rating ≤ 5) →
              |specDoubleTenfoldMean (hotel'.reviews.map (fun review => review.rating))
                  - specMean (hotel'.reviews.map (fun review => review.rating)) * 10|
                ≤ 1 / 10 ^ 6
              ∧ (1 / 10 ^ 6
                    < |specMean (hotel'.reviews.map (fun review => review.rating)) * 10
                        - ⌊specMean (hotel'.reviews.map (fun review => review.rating)) * 10⌋
                        - 1 / 2| →
                  hotel'.rating = specRoundOneDecimal
                    (specMean (hotel'.reviews.map (fun review => review.rating))))))
    ∧ (∀ (status : Nat) (experience' : Experience) (db' : Db),
        postExperienceReview rt db user id rating comment = (Response.ok status experience', db') →
        ∃ value old, rating = some value
          ∧ db.experiences.find? (fun e => decide (e.id = id)) = some old
          ∧ experience'.reviews.map (fun review => review.rating)
              = old.reviews.map (fun review => review.rating) ++ [value]
          ∧ db'.experiences.find? (fun e => decide (e.id = id)) = some experience'
          ∧ experience'.rating
              = (⌊specDoubleTenfoldMean (experience'.reviews.map (fun review => review.rating))
                    + 1 / 2⌋ : ℚ) / 10
          ∧ ((∀ review ∈ old.reviews, 1 ≤ review.rating ∧ review.rating ≤ 5) →
              |specDoubleTenfoldMean (experience'.reviews.map (fun review => review.rating))
                  - specMean (experience'.reviews.map (fun review => review.rating)) * 10|
                ≤ 1 / 10 ^ 6
              ∧ (1 / 10 ^ 6
                    < |specMean (experience'.reviews.map (fun review => review.rating)) * 10
                        - ⌊specMean (experience'.reviews.map (fun review => review.rating)) * 10⌋
                        - 1 / 2| →
                  experience'.rating = specRoundOneDecimal
                    (specMean (experience'.reviews.map (fun review => review.rating)))))) := by
  constructor
  · intro status hotel' db' hok
    rcases postHotelReview_cases rt db user id rating comment with
      ⟨-, s, m, herr⟩ | ⟨value, hotel, author, hr, hpass, hfind, -, -, hresp, hstored, hsize⟩
    · rw [hok] at herr; simp at herr
    · rw [hok] at hresp hstored
      simp only [Response.ok.injEq] at hresp
      have hid : hotel.id = id := by
        have := List.find?_some hfind
        simpa using this
      obtain ⟨w, hw, h1, h5⟩ := (ratingRejected_iff rating).1 hpass
      rw [hr] at hw
      have e : value = w := Option.some.inj hw
      subst e
      refine ⟨value, hotel, hr, hfind, ?_, ?_, ?_, ?_⟩
      · rw [hresp.2]; simp
      · simp only at hstored
        rw [hstored, hresp.2, hid]
        exact find?_replaceFirst _ _ _ hotel _ hfind (fun _ h => h) (by simp)
      · rw [hresp.2]; exact averageRating_eq_double _
      · intro hold
        have hall : ∀ review ∈ hotel.reviews
            ++ [Review.mk user.userId author.name value comment rt.now],
            1 ≤ review.rating ∧ review.rating ≤ 5 := by
          intro review hmem
          rcases List.mem_append.1 hmem with hmem | hmem
          · exact hold review hmem
          · rw [List.mem_singleton.1 hmem]; exact ⟨h1, h5⟩
        rw [hresp.2]
        exact ⟨specDoubleTenfoldMean_near _ (by simp) hsize hall,
          fun haway => averageRating_exact _ (by simp) hsize hall haway⟩
  · intro status experience' db' hok
    rcases postExperienceReview_cases rt db user id rating comment with
      ⟨-, s, m, herr⟩ | ⟨value, experience, author, hr, hpass, hfind, -, -, hresp, hstored, hsize⟩
    · rw [hok] at herr; simp at herr
    · rw [hok] at hresp hstored
      simp only [Response.ok.injEq] at hresp
      have hid : experience.id = id := by
        have := List.find?_some hfind
        simpa using this
      obtain ⟨w, hw, h1, h5⟩ := (ratingRejected_iff rating).1 hpass
      rw [hr] at hw
      have e : value = w := Option.some.inj hw
      subst e
      refine ⟨value, experience, hr, hfind, ?_, ?_, ?_, ?_⟩
      · rw [hresp.2]; simp
      · simp only at hstored
        rw [hstored, hresp.2, hid]
        exact find?_replaceFirst _ _ _ experience _ hfind (fun _ h => h) (by simp)
      · rw [hresp.2]; exact averageRating_eq_double _
      · intro hold
        have hall : ∀ review ∈ experience.reviews
            ++ [Review.mk user.userId author.name value comment rt.now],
            1 ≤ review.rating ∧ review.rating ≤ 5 := by
          intro review hmem
          rcases List.mem_append.1 hmem with hmem | hmem
          · exact hold review hmem
          · rw [List.mem_singleton.1 hmem]; exact ⟨h1, h5⟩
        rw [hresp.2]
        exact ⟨specDoubleTenfoldMean_near _ (by simp) hsize hall,
          fun haway => averageRating_exact _ (by simp) hsize hall haway⟩

/-- Witness of C5: hotel 10 has one review, of 4; after the review of 5 by user 2 the mean
times ten is 45, in doubles as in exact arithmetic, and the rating of the hotel is 4.5; an
experience with one review of 4 has rating 4. -/
theorem review_rating_witness :
    ((∀ review ∈ onceReviewedHotel.reviews, 1 ≤ review.rating ∧ review.rating ≤ 5)
      ∧ 1 / 10 ^ 6
          < |specMean (twiceReviewedHotel.reviews.map (fun review => review.rating)) * 10
              - ⌊specMean (twiceReviewedHotel.reviews.map (fun review => review.rating)) * 10⌋
              - 1 / 2|
      ∧ twiceReviewedHotel.reviews.map (fun review => review.rating) = [4, 5]
      ∧ specDoubleTenfoldMean (twiceReviewedHotel.reviews.map (fun review => review.rating)) = 45
      ∧ twiceReviewedHotel.rating
          = specRoundOneDecimal
              (specMean (twiceReviewedHotel.reviews.map (fun review => review.rating)))
      ∧ twiceReviewedHotel.rating = 45 / 10)
    ∧ (reviewedExperience.reviews.map (fun review => review.rating) = [4]
      ∧ reviewedExperience.rating
          = specRoundOneDecimal
              (specMean (reviewedExperience.reviews.map (fun review => review.rating)))
      ∧ reviewedExperience.rating = 4) := by
  constructor
  · obtain ⟨value, old, -, hfind, -, -, -, himp⟩ :=
      (review_rating sampleRuntime reviewedDb luis 10 (some 5) none).1 200 twiceReviewedHotel
        (postHotelReview sampleRuntime reviewedDb luis 10 (some 5) none).2 (by decide!)
    have hold : reviewedDb.hotels.find? (fun h => decide (h.id = 10)) = some onceReviewedHotel := by
      decide!
    rw [hold] at hfind
    have e : onceReviewedHotel = old := Option.some.inj hfind
    subst e
    have hrange : ∀ review ∈ onceReviewedHotel.reviews, 1 ≤ review.rating ∧ review.rating ≤ 5 := by
      decide!
    have haway : 1 / 10 ^ 6
        < |specMean (twiceReviewedHotel.reviews.map (fun review => review.rating)) * 10
            - ⌊specMean (twiceReviewedHotel.reviews.map (fun review => review.rating)) * 10⌋
            - 1 / 2| := by
      decide!
    exact ⟨hrange, haway, by decide!, by decide!, (himp hrange).2 haway, by decide!⟩
  · obtain ⟨value, old, -, hfind, -, -, -, himp⟩ :=
      (review_rating sampleRuntime sampleDb ana 30 (some 4) (some "bien")).2 200 reviewedExperience
        (postExperienceReview sampleRuntime sampleDb ana 30 (some 4) (some "bien")).2 (by decide!)
    have hold : sampleDb.experiences.find? (fun e => decide (e.id = 30))
        = some { id := 30, title := "Recorrido" } := by
      decide!
    rw [hold] at hfind
    have e := Option.some.inj hfind
    subst e
    have haway : 1 / 10 ^ 6
        < |specMean (reviewedExperience.reviews.map (fun review => review.rating)) * 10
            - ⌊specMean (reviewedExperience.reviews.map (fun review => review.rating)) * 10⌋
            - 1 / 2| := by
      decide!
    exact ⟨by decide!, (himp (by decide!)).2 haway, by decide!⟩

/-- One request to the hotel review handler keeps the reviewers of every hotel distinct. -/
theorem postHotelReview_nodup (rt : Runtime) (db : Db) (user : AuthUser) (id : ObjectId)
    (rating : JsNum) (comment : Option String)
    (hinv : ∀ h ∈ db.hotels, (h.reviews.map (fun review => review.userId)).Nodup) :
    ∀ h ∈ (postHotelReview rt db user id rating comment).2.hotels,
      (h.reviews.map (fun review => review.userId)).Nodup := by
  intro h hh
  rcases postHotelReview_cases rt db user id rating comment with
    ⟨hsame, -⟩ | ⟨value, hotel, author, -, -, hfind, hnone, -, -, hstored, -⟩
  · rw [hsame] at hh; exact hinv h hh
  · rw [hstored] at hh
    rcases mem_replaceFirst _ _ _ _ hh with hh | hh
    · rw [hh]
      simp only [List.map_append, List.map_cons, List.map_nil]
      rw [List.nodup_append]
      refine ⟨hinv hotel (List.mem_of_find?_eq_some hfind), by simp, ?_⟩
      intro x hmem hx
      rw [List.mem_singleton.1 hx] at hmem
      obtain ⟨review, hreview, hid⟩ := List.mem_map.1 hmem
      have := List.find?_eq_none.1 hnone review hreview
      simp at this
      exact this hid
    · exact hinv h hh

/-- C6: when the caller already has a review embedded in the hotel, a further review by that
caller is answered with 400 (with the conflict error once the rating passes its check) and the
store is left as it was; and from a store in which no hotel has a review, no sequence of review
requests yields a hotel with two reviews of the same `userId`. -/
theorem review_once (rt : Runtime) (db : Db) (user : AuthUser) (id : ObjectId)
    (rating : JsNum) (comment : Option String) :
    (∀ hotel, db.hotels.find? (fun h => decide (h.id = id)) = some hotel →
        (∃ review ∈ hotel.reviews, review.userId = user.userId) →
        (postHotelReview rt db user id rating comment).1.status = 400
          ∧ (ratingRejected rating = false →
              (postHotelReview rt db user id rating comment).1
                = Response.error 400 "Ya has hecho una reseña para este hotel")
          ∧ (postHotelReview rt db user id rating comment).2 = db)
    ∧ ((∀ h ∈ db.hotels, h.reviews = []) →
        ∀ calls : List ReviewCall, ∀ h ∈ (afterHotelReviews db calls).hotels,
          (h.reviews.map (fun review => review.userId)).Nodup) := by
  constructor
  · intro hotel hfind ⟨review, hreview, hid⟩
    have hsome : ∃ found, hotel.reviews.find? (fun review => decide (review.userId = user.userId))
        = some found := by
      cases hf : hotel.reviews.find? (fun review => decide (review.userId = user.userId)) with
      | some found => exact ⟨found, rfl⟩
      | none =>
        have := List.find?_eq_none.1 hf review hreview
        simp at this
        exact absurd hid this
    obtain ⟨found, hfound⟩ := hsome
    unfold postHotelReview
    cases rating with
    | none => simp [Response.status, ratingRejected, truthyNum]
    | some value =>
      by_cases hrej : ratingRejected (some value) = true
      · simp [hrej, Response.status]
      · simp [hrej, hfind, hfound, Response.status]
  · intro hempty calls
    have hinv : ∀ h ∈ db.hotels, (h.reviews.map (fun review => review.userId)).Nodup := by
      intro h hh; rw [hempty h hh]; simp
    clear hempty
    induction calls generalizing db with
    | nil => exact hinv
    | cons c calls ih =>
      simp only [afterHotelReviews, List.foldl]
      exact ih _ (postHotelReview_nodup c.rt db c.user c.id c.rating c.comment hinv)

/-- Witness of C6: user 1, who reviewed hotel 10, is refused a second review; and the three
sample requests leave hotel 10 with one review per user. -/
theorem review_once_witness :
    ((postHotelReview sampleRuntime reviewedDb ana 10 (some 3) none).1.status = 400
      ∧ (ratingRejected (some 3) = false →
          (postHotelReview sampleRuntime reviewedDb ana 10 (some 3) none).1
            = Response.error 400 "Ya has hecho una reseña para este hotel")
      ∧ (postHotelReview sampleRuntime reviewedDb ana 10 (some 3) none).2 = reviewedDb)
    ∧ (∀ h ∈ (afterHotelReviews sampleDb sampleReviewCalls).hotels,
        (h.reviews.map (fun review => review.userId)).Nodup)
    ∧ (afterHotelReviews sampleDb sampleReviewCalls).hotels.map
        (fun h => h.reviews.map (fun review => review.userId)) = [[1, 2]] :=
  ⟨(review_once sampleRuntime reviewedDb ana 10 (some 3) none).1 onceReviewedHotel (by decide!)
      ⟨Review.mk 1 "Ana" 4 none 1896134400000, by decide!, rfl⟩,
   (review_once sampleRuntime sampleDb ana 10 none none).2 (by decide) sampleReviewCalls,
   by decide!⟩

/-! ## Frame and lifecycle of reservations -/

/-- On a list with distinct ids, replacing the first document with the id of `target` by
`g target` is updating, in place, every document with that id by `g`. -/
theorem replaceFirst_eq_map (l : List Reservation) (target : Reservation)
    (g : Reservation → Reservation) (hmem : target ∈ l)
    (hnodup : (l.map (fun r => r.id)).Nodup) :
    replaceFirst (fun r => decide (r.id = target.id)) (g target) l
      = l.map (fun r => if r.id = target.id then g r else r) := by
  induction l with
  | nil => simp at hmem
  | cons a l ih =>
    simp only [List.map_cons, List.nodup_cons, List.mem_map, not_exists, not_and] at hnodup
    simp only [replaceFirst, List.map_cons]
    by_cases ha : a.id = target.id
    · have hat : target = a := by
        rcases List.mem_cons.1 hmem with h | h
        · exact h
        · exact absurd ha.symm (hnodup.1 target h)
      subst hat
      simp only [decide_True, ↓reduceIte, List.cons.injEq, true_and]
      symm
      calc List.map (fun r => if r.id = target.id then g r else r) l
          = List.map (fun r => r) l := by
            apply List.map_congr_left
            intro r hr
            have : r.id ≠ target.id := hnodup.1 r hr
            simp [this]
        _ = l := List.map_id' l
    · have hmem' : target ∈ l := by
        rcases List.mem_cons.1 hmem with h | h
        · exact absurd (h ▸ rfl) ha
        · exact h
      simp only [ha, decide_False, Bool.false_eq_true, ↓reduceIte, List.cons.injEq, true_and]
      exact ih hmem' hnodup.2

/-- Logging changes only the log collection. -/
theorem createLog_only_logs (rt : Runtime) (db : Db) (level message : String)
    (userId : Option ObjectId) (action : Option String) :
    ∃ logs, createLog rt db level message userId action = { db with logs := logs } := by
  unfold createLog
  split
  · exact ⟨db.logs, rfl⟩
  · exact ⟨_, rfl⟩

/-- The cancellation email changes only the log collection. -/
theorem cancellationEmail_only_logs (rt : Runtime) (db : Db) (user : AuthUser) (r : Reservation) :
    ∃ logs, cancellationEmail rt db user r = { db with logs := logs } := by
  unfold cancellationEmail
  split
  · split
    · split <;> exact createLog_only_logs _ _ _ _ _ _
    · exact ⟨db.logs, rfl⟩
  · exact ⟨db.logs, rfl⟩

/-- A success response of the cancel handler: the caller's reservation was found, the response
carries it with status `cancelada`, and the store differs in that document and in its logs. -/
theorem putCancelReservation_ok (rt : Runtime) (db db' : Db) (user : AuthUser) (id : ObjectId)
    (status : Nat) (body : Reservation)
    (hok : putCancelReservation rt db user id = (Response.ok status body, db')) :
    ∃ target, db.reservations.find? (fun r => decide (r.id = id ∧ r.userId = user.userId))
        = some target
      ∧ status = 200 ∧ body = { target with status := Status.cancelada }
      ∧ db'.reservations = replaceFirst (fun r => decide (r.id = target.id))
          { target with status := Status.cancelada } db.reservations
      ∧ db'.users = db.users ∧ db'.hotels = db.hotels ∧ db'.experiences = db.experiences
      ∧ db'.configs = db.configs := by
  unfold putCancelReservation at hok
  split at hok
  · simp at hok
  · next target hfind =>
    split at hok
    · simp at hok
    · split at hok
      · simp at hok
      · dsimp only at hok
        split at hok
        · simp at hok
        · simp only [Prod.mk.injEq, Response.ok.injEq] at hok
          obtain ⟨⟨hs, hb⟩, hdb⟩ := hok
          refine ⟨target, hfind, hs.symm, hb.symm, ?_⟩
          obtain ⟨logs1, h1⟩ := cancellationEmail_only_logs rt
            { db with reservations := replaceFirst (fun r => decide (r.id = target.id))
                                        { target with status := Status.cancelada } db.reservations }
            user { target with status := Status.cancelada }
          rw [h1] at hdb
          obtain ⟨logs2, h2⟩ := createLog_only_logs rt _ "info" "Reservación cancelada"
            (some user.userId) (some "cancel_reservation")
          rw [h2] at hdb
          subst hdb
          exact ⟨rfl, rfl, rfl, rfl, rfl⟩

/-- C11: after a successful cancel on a store with distinct reservation ids, the response
carries the caller's reservation with that id, with status `cancelada` and every other field
as stored; the stored reservations are the former ones, in order, with only the status of the
one with that id changed; and users, hotels, experiences and configuration are as they were. -/
theorem cancel_frame (rt : Runtime) (db db' : Db) (user : AuthUser) (id : ObjectId)
    (status : Nat) (body : Reservation)
    (hok : putCancelReservation rt db user id = (Response.ok status body, db'))
    (hids : (db.reservations.map (fun r => r.id)).Nodup) :
    ∃ target ∈ db.reservations, target.id = id ∧ target.userId = user.userId
      ∧ body.status = Status.cancelada
      ∧ body.id = target.id ∧ body.userId = target.userId ∧ body.hotelId = target.hotelId
      ∧ body.checkin = target.checkin ∧ body.checkout = target.checkout
      ∧ body.adults = target.adults ∧ body.children = target.children
      ∧ body.roomType = target.roomType ∧ body.total = target.total
      ∧ body.reservationNumber = target.reservationNumber ∧ body.pdfUrl = target.pdfUrl
      ∧ body.createdAt = target.createdAt
      ∧ db'.reservations
          = db.reservations.map (fun r => if r.id = id then { r with status := Status.cancelada } else r)
      ∧ body ∈ db'.reservations
      ∧ (∀ r ∈ db.reservations, r.id ≠ id → r ∈ db'.reservations)
      ∧ db'.users = db.users ∧ db'.hotels = db.hotels ∧ db'.experiences = db.experiences
      ∧ db'.configs = db.configs := by
  obtain ⟨target, hfind, -, hbody, hdb, hframe⟩ :=
    putCancelReservation_ok rt db db' user id status body hok
  have hmem := List.mem_of_find?_eq_some hfind
  have hq := List.find?_some hfind
  simp only [decide_eq_true_eq] at hq
  have hres : db'.reservations
      = db.reservations.map (fun r => if r.id = id then { r with status := Status.cancelada } else r) := by
    rw [hdb]
    rw [replaceFirst_eq_map db.reservations target (fun r => { r with status := Status.cancelada })
      hmem hids, hq.1]
  refine ⟨target, hmem, hq.1, hq.2, ?_⟩
  subst hbody
  refine ⟨rfl, rfl, rfl, rfl, rfl, rfl, rfl, rfl, rfl, rfl, rfl, rfl, rfl, hres, ?_, ?_, ?_⟩
  · rw [hres]
    exact List.mem_map.2 ⟨target, hmem, by simp [hq.1]⟩
  · intro r hr hne
    rw [hres]
    exact List.mem_map.2 ⟨r, hr, by simp [hne]⟩
  · exact hframe

/-- Witness of C11: cancelling the sample reservation changes its status and nothing else. -/
theorem cancel_frame_witness :
    ∃ target ∈ sampleDb.reservations, target.id = 5 ∧ target.userId = ana.userId
      ∧ ({ sampleReservation with status := Status.cancelada } : Reservation).status
          = Status.cancelada
      ∧ ({ sampleReservation with status := Status.cancelada } : Reservation).id = target.id
      ∧ ({ sampleReservation with status := Status.cancelada } : Reservation).userId = target.userId
      ∧ ({ sampleReservation with status := Status.cancelada } : Reservation).hotelId = target.hotelId
      ∧ ({ sampleReservation with status := Status.cancelada } : Reservation).checkin = target.checkin
      ∧ ({ sampleReservation with status := Status.cancelada } : Reservation).checkout = target.checkout
      ∧ ({ sampleReservation with status := Status.cancelada } : Reservation).adults = target.adults
      ∧ ({ sampleReservation with status := Status.cancelada } : Reservation).children = target.children
      ∧ ({ sampleReservation with status := Status.cancelada } : Reservation).roomType = target.roomType
      ∧ ({ sampleReservation with status := Status.cancelada } : Reservation).total = target.total
      ∧ ({ sampleReservation with status := Status.cancelada } : Reservation).reservationNumber
          = target.reservationNumber
      ∧ ({ sampleReservation with status := Status.cancelada } : Reservation).pdfUrl = target.pdfUrl
      ∧ ({ sampleReservation with status := Status.cancelada } : Reservation).createdAt
          = target.createdAt
      ∧ (putCancelReservation (februaryRuntime 0) sampleDb ana 5).2.reservations
          = sampleDb.reservations.map
              (fun r => if r.id = 5 then { r with status := Status.cancelada } else r)
      ∧ { sampleReservation with status := Status.cancelada }
          ∈ (putCancelReservation (februaryRuntime 0) sampleDb ana 5).2.reservations
      ∧ (∀ r ∈ sampleDb.reservations, r.id ≠ 5 →
          r ∈ (putCancelReservation (februaryRuntime 0) sampleDb ana 5).2.reservations)
      ∧ (putCancelReservation (februaryRuntime 0) sampleDb ana 5).2.users = sampleDb.users
      ∧ (putCancelReservation (februaryRuntime 0) sampleDb ana 5).2.hotels = sampleDb.hotels
      ∧ (putCancelReservation (februaryRuntime 0) sampleDb ana 5).2.experiences
          = sampleDb.experiences
      ∧ (putCancelReservation (februaryRuntime 0) sampleDb ana 5).2.configs = sampleDb.configs :=
  cancel_frame (februaryRuntime 0) sampleDb (putCancelReservation (februaryRuntime 0) sampleDb ana 5).2
    ana 5 200 { sampleReservation with status := Status.cancelada } (by decide!) (by decide)

/-- The hotel review handler leaves the reservations as they were. -/
theorem postHotelReview_reservations (rt : Runtime) (db : Db) (user : AuthUser) (id : ObjectId)
    (rating : JsNum) (comment : Option String) :
    (postHotelReview rt db user id rating comment).2.reservations = db.reservations := by
  unfold postHotelReview
  split
  · rfl
  · split
    · rfl
    · split
      · rfl
      · split
        · rfl
        · split
          · exact createLog_reservations _ _ _ _ _ _
          · dsimp only
            split
            · exact createLog_reservations _ _ _ _ _ _
            · rw [createLog_reservations]

/-- The experience review handler leaves the reservations as they were. -/
theorem postExperienceReview_reservations (rt : Runtime) (db : Db) (user : AuthUser)
    (id : ObjectId) (rating : JsNum) (comment : Option String) :
    (postExperienceReview rt db user id rating comment).2.reservations = db.reservations := by
  unfold postExperienceReview
  split
  · rfl
  · split
    · rfl
    · split
      · rfl
      · split
        · rfl
        · split
          · exact createLog_reservations _ _ _ _ _ _
          · dsimp only
            split
            · exact createLog_reservations _ _ _ _ _ _
            · rw [createLog_reservations]

/-- The registration handler leaves the reservations as they were. -/
theorem postRegister_reservations (rt : Runtime) (crypto : Crypto) (db : Db)
    (body : RegisterRequest) :
    (postRegister rt crypto db body).2.reservations = db.reservations := by
  unfold postRegister
  split
  · rfl
  · dsimp only
    split
    · exact createLog_reservations _ _ _ _ _ _
    · rw [createLog_reservations]

/-- Every reservation in the store after `POST /api/reservations` was there before or has
status `confirmada`. -/
theorem postReservation_status (rt : Runtime) (db : Db) (user : AuthUser)
    (body : ReservationRequest) (r : Reservation)
    (hr : r ∈ (postReservation rt db user body).2.reservations) :
    r ∈ db.reservations ∨ r.status = Status.confirmada := by
  rcases postReservation_cases rt db user body with ⟨hdb, -⟩ | ⟨hotelId, adults, roomType, hotel,
    -, -, -, -, -, -, -, -, -, -, heq⟩
  · rw [hdb] at hr; exact Or.inl hr
  · rw [heq] at hr
    rcases createReservation_added _ _ _ _ _ _ _ _ _ _ _ hr with hr | ⟨r0, hnew, hr⟩
    · exact Or.inl hr
    · have hf := newReservation_fields _ _ _ _ _ _ _ _ _ _ _ _ hnew
      have hs : r0.status = Status.confirmada := hf.2.2.2.2.2.2.2.2.2.2.1
      rcases hr with hr | hr
      · rw [hr]; exact Or.inr hs
      · rw [hr]; exact Or.inr hs

/-- Every reservation in the store after the cancel handler was there before or is a stored
reservation, neither `cancelada` nor `completada` before, with its status set to `cancelada`. -/
theorem putCancelReservation_status (rt : Runtime) (db : Db) (user : AuthUser) (id : ObjectId)
    (r : Reservation) (hr : r ∈ (putCancelReservation rt db user id).2.reservations) :
    r ∈ db.reservations
      ∨ ∃ r0 ∈ db.reservations, r0.status ≠ Status.cancelada ∧ r0.status ≠ Status.completada
          ∧ r = { r0 with status := Status.cancelada } := by
  rcases putCancelReservation_cases rt db user id with ⟨-, h404⟩ | ⟨r0, hsome, hcase⟩
  · rw [h404] at hr; exact Or.inl hr
  · rcases hcase with ⟨-, -, hdb⟩ | ⟨h1, h2, -, -, hstored⟩
    · rw [hdb] at hr; exact Or.inl hr
    · rw [hstored] at hr
      rcases mem_replaceFirst _ _ _ _ hr with hr | hr
      · exact Or.inr ⟨r0, List.mem_of_find?_eq_some hsome, h1, h2, hr⟩
      · exact Or.inl hr

/-- One request keeps every stored reservation `confirmada` or `cancelada`. -/
theorem Operation.run_status (db : Db) (op : Operation)
    (hinv : ∀ r ∈ db.reservations, r.status = Status.confirmada ∨ r.status = Status.cancelada) :
    ∀ r ∈ (op.run db).reservations, r.status = Status.confirmada ∨ r.status = Status.cancelada := by
  intro r hr
  cases op with
  | create rt user body =>
    rcases postReservation_status rt db user body r hr with h | h
    · exact hinv r h
    · exact Or.inl h
  | cancel rt user id =>
    rcases putCancelReservation_status rt db user id r hr with h | ⟨r0, -, -, -, h⟩
    · exact hinv r h
    · rw [h]; exact Or.inr rfl
  | reviewHotel rt user id rating comment =>
    simp only [Operation.run, postHotelReview_reservations] at hr
    exact hinv r hr
  | reviewExperience rt user id rating comment =>
    simp only [Operation.run, postExperienceReview_reservations] at hr
    exact hinv r hr
  | register rt crypto body =>
    simp only [Operation.run, postRegister_reservations] at hr
    exact hinv r hr

/-- C12: every reservation that `POST /api/reservations` adds has status `confirmada`; the
cancel handler changes a stored reservation only by setting its status to `cancelada`; the
review and registration handlers leave the reservations as they were; and from a store without
reservations every sequence of requests leads to a store whose reservations are all
`confirmada` or `cancelada`, so none is `completada` or `pendiente`. -/
theorem reservation_lifecycle :
    (∀ (rt : Runtime) (db : Db) (user : AuthUser) (body : ReservationRequest),
      ∀ r ∈ (postReservation rt db user body).2.reservations,
        r ∈ db.reservations ∨ r.status = Status.confirmada)
    ∧ (∀ (rt : Runtime) (db : Db) (user : AuthUser) (id : ObjectId),
      ∀ r ∈ (putCancelReservation rt db user id).2.reservations,
        r ∈ db.reservations
          ∨ ∃ r0 ∈ db.reservations, r0.status ≠ Status.cancelada ∧ r0.status ≠ Status.completada
              ∧ r = { r0 with status := Status.cancelada })
    ∧ (∀ (rt : Runtime) (db : Db) (user : AuthUser) (id : ObjectId) (rating : JsNum)
        (comment : Option String),
      (postHotelReview rt db user id rating comment).2.reservations = db.reservations
        ∧ (postExperienceReview rt db user id rating comment).2.reservations = db.reservations)
    ∧ (∀ (rt : Runtime) (crypto : Crypto) (db : Db) (body : RegisterRequest),
      (postRegister rt crypto db body).2.reservations = db.reservations)
    ∧ (∀ (db : Db) (ops : List Operation), db.reservations = [] →
      ∀ r ∈ (afterOperations db ops).reservations,
        (r.status = Status.confirmada ∨ r.status = Status.cancelada)
          ∧ r.status ≠ Status.completada ∧ r.status ≠ Status.pendiente) := by
  refine ⟨postReservation_status, putCancelReservation_status,
    fun rt db user id rating comment => ⟨postHotelReview_reservations rt db user id rating comment,
      postExperienceReview_reservations rt db user id rating comment⟩,
    postRegister_reservations, ?_⟩
  intro db ops hempty
  have hinv : ∀ r ∈ db.reservations, r.status = Status.confirmada ∨ r.status = Status.cancelada := by
    intro r hr; rw [hempty] at hr; simp at hr
  clear hempty
  have key : ∀ r ∈ (afterOperations db ops).reservations,
      r.status = Status.confirmada ∨ r.status = Status.cancelada := by
    induction ops generalizing db with
    | nil => exact hinv
    | cons op ops ih =>
      simp only [afterOperations, List.foldl]
      exact ih _ (Operation.run_status db op hinv)
  intro r hr
  have h := key r hr
  refine ⟨h, ?_, ?_⟩
  · rcases h with h | h <;> rw [h] <;> decide
  · rcases h with h | h <;> rw [h] <;> decide

/-- Witness of C12: two bookings and one cancellation from a store without reservations leave
one reservation `cancelada` and one `confirmada`. -/
theorem reservation_lifecycle_witness :
    (∀ r ∈ (afterOperations emptyReservationsDb sampleOperations).reservations,
        (r.status = Status.confirmada ∨ r.status = Status.cancelada)
          ∧ r.status ≠ Status.completada ∧ r.status ≠ Status.pendiente)
    ∧ (afterOperations emptyReservationsDb sampleOperations).reservations.map
        (fun r => (r.id, r.status)) = [(7, Status.cancelada), (8, Status.confirmada)] :=
  ⟨reservation_lifecycle.2.2.2.2 emptyReservationsDb sampleOperations rfl, by decide!⟩

/-! ## Reservation numbers -/

/-- C13 (defect): when `Math.random()` returns `0.5` the random part of the reservation number
is the single character `I`, so the number does not have the form
`VBD-<6 digits>-<6 characters>`; an ordinary draw gives that form. -/
theorem generateReservationNumber_short :
    generateReservationNumber 1896134400123 "0.i" = "VBD-400123-I"
    ∧ specReservationNumberForm (generateReservationNumber 1896134400123 "0.i") = false
    ∧ generateReservationNumber 1896134400123 "0" = "VBD-400123-"
    ∧ specReservationNumberForm (generateReservationNumber 1896134400123 "0.4fzyo82mvyr") = true
    ∧ ((postReservation halfRuntime emptyReservationsDb ana sampleBooking).2.reservations.map
        (fun r => r.reservationNumber)) = ["VBD-400000-I"] := by
  decide!

/-- C14 (defect): two bookings served in the same millisecond with the same random draw are
stored as two reservations, with ids 7 and 8, that carry the same reservation number. -/
theorem reservationNumber_collision :
    (afterOperations emptyReservationsDb simultaneousBookings).reservations.map
        (fun r => (r.id, r.userId, r.reservationNumber))
      = [(7, 1, "VBD-400000-4FZYO8"), (8, 2, "VBD-400000-4FZYO8")] := by
  decide!

/-- C20 (defect): when writing the PDF throws, `POST /api/reservations` answers 500, the
reservation stays in the store without a `pdfUrl`, and the failure is logged by the `catch`
block of the handler as a failed creation; the same happens when the caller has no user
document, whose `name` the PDF text reads. -/
theorem postReservation_pdf_failure :
    (postReservation pdfFailureRuntime emptyReservationsDb ana sampleBooking).1
        = Response.error 500 "PDF error"
    ∧ (postReservation pdfFailureRuntime emptyReservationsDb ana sampleBooking).2.reservations.map
        (fun r => (r.id, r.status, r.pdfUrl)) = [(7, Status.confirmada, none)]
    ∧ (postReservation pdfFailureRuntime emptyReservationsDb ana sampleBooking).2.logs.map
        (fun l => (l.level, l.message)) = [("error", "Error creando reservación")]
    ∧ (postReservation sampleRuntime emptyReservationsDb ⟨99, "gone@example.com"⟩
        sampleBooking).1.status = 500
    ∧ (postReservation sampleRuntime emptyReservationsDb ⟨99, "gone@example.com"⟩
        sampleBooking).2.reservations.map
        (fun r => (r.id, r.userId, r.pdfUrl)) = [(7, 99, none)]
    ∧ (postReservation sampleRuntime emptyReservationsDb ana sampleBooking).1.status = 201 := by
  decide!

/-! ## The rating check -/

/-- C15: both review handlers answer 400 with the rating error and leave the store as it was
when the rating is absent, less than 1 or greater than 5, whether or not the target exists;
and a rating in `[1, 5]` passes the check: the handler goes on to look up the target and
answers 404 when there is none. -/
theorem review_rating_check (rt : Runtime) (db : Db) (user : AuthUser) (id : ObjectId)
    (rating : JsNum) (comment : Option String) :
    ((rating = none ∨ ∃ v, rating = some v ∧ (v < 1 ∨ 5 < v)) →
      postHotelReview rt db user id rating comment
          = (Response.error 400 "El rating debe estar entre 1 y 5", db)
        ∧ postExperienceReview rt db user id rating comment
          = (Response.error 400 "El rating debe estar entre 1 y 5", db))
    ∧ ((∃ v, rating = some v ∧ 1 ≤ v ∧ v ≤ 5) →
      ratingRejected rating = false
        ∧ (postHotelReview rt db user id rating comment).1
            ≠ Response.error 400 "El rating debe estar entre 1 y 5"
        ∧ (postExperienceReview rt db user id rating comment).1
            ≠ Response.error 400 "El rating debe estar entre 1 y 5"
        ∧ (db.hotels.find? (fun h => decide (h.id = id)) = none →
            postHotelReview rt db user id rating comment
              = (Response.error 404 "Hotel no encontrado", db))
        ∧ (db.experiences.find? (fun e => decide (e.id = id)) = none →
            postExperienceReview rt db user id rating comment
              = (Response.error 404 "Experiencia no encontrada", db))) := by
  constructor
  · intro hbad
    have hrej : rating = none ∨ ∃ v, rating = some v ∧ ratingRejected rating = true := by
      rcases hbad with h | ⟨v, hv, hout⟩
      · exact Or.inl h
      · refine Or.inr ⟨v, hv, ?_⟩
        have hne : ¬ (ratingRejected rating = false) := by
          rw [ratingRejected_iff]
          rintro ⟨w, hw, h1, h5⟩
          rw [hv] at hw
          have e : v = w := Option.some.inj hw
          subst e
          rcases hout with h | h
          · exact absurd h1 (not_le.2 h)
          · exact absurd h5 (not_le.2 h)
        simpa using hne
    rcases hrej with h | ⟨v, hv, hr⟩
    · subst h
      exact ⟨by simp [postHotelReview], by simp [postExperienceReview]⟩
    · subst hv
      exact ⟨by simp [postHotelReview, hr], by simp [postExperienceReview, hr]⟩
  · rintro ⟨v, hv, h1, h5⟩
    have hok : ratingRejected rating = false := (ratingRejected_iff rating).2 ⟨v, hv, h1, h5⟩
    subst hv
    refine ⟨hok, ?_, ?_, ?_, ?_⟩
    · unfold postHotelReview
      simp only [hok, Bool.false_eq_true, ↓reduceIte]
      split
      · simp
      · split
        · simp
        · split
          · simp
          · dsimp only
            split <;> simp
    · unfold postExperienceReview
      simp only [hok, Bool.false_eq_true, ↓reduceIte]
      split
      · simp
      · split
        · simp
        · split
          · simp
          · dsimp only
            split <;> simp
    · intro hnone
      simp [postHotelReview, hok, hnone]
    · intro hnone
      simp [postExperienceReview, hok, hnone]

/-- Witness of C15: a rating of 6, and an absent rating, for a target that does not exist are
answered with the rating error; a rating of 5 for the same target is answered with 404. -/
theorem review_rating_check_witness :
    (postHotelReview sampleRuntime sampleDb ana 99 (some 6) none
        = (Response.error 400 "El rating debe estar entre 1 y 5", sampleDb)
      ∧ postExperienceReview sampleRuntime sampleDb ana 99 (some 6) none
        = (Response.error 400 "El rating debe estar entre 1 y 5", sampleDb))
    ∧ (postHotelReview sampleRuntime sampleDb ana 99 none none
        = (Response.error 400 "El rating debe estar entre 1 y 5", sampleDb)
      ∧ postExperienceReview sampleRuntime sampleDb ana 99 none none
        = (Response.error 400 "El rating debe estar entre 1 y 5", sampleDb))
    ∧ postHotelReview sampleRuntime sampleDb ana 99 (some 5) none
        = (Response.error 404 "Hotel no encontrado", sampleDb) :=
  ⟨(review_rating_check sampleRuntime sampleDb ana 99 (some 6) none).1
      (Or.inr ⟨6, rfl, Or.inr (by norm_num)⟩),
   (review_rating_check sampleRuntime sampleDb ana 99 none none).1 (Or.inl rfl),
   ((review_rating_check sampleRuntime sampleDb ana 99 (some 5) none).2
      ⟨5, rfl, by norm_num, by norm_num⟩).2.2.2.1 (by decide)⟩

/-! ## Registration -/

/-- C16: a registration whose email is the email of a stored user is answered with 400 (with
`El usuario ya existe` once name, email and password are present) and the user collection is
left as it was. -/
theorem register_existing_email (rt : Runtime) (crypto : Crypto) (db : Db)
    (body : RegisterRequest) (email : String) (existing : User)
    (hemail : body.email = some email) (hmem : existing ∈ db.users)
    (heq : existing.email = email) :
    (postRegister rt crypto db body).1.status = 400
      ∧ (postRegister rt crypto db body).2.users = db.users
      ∧ (truthyStr body.name = true → truthyStr body.email = true →
          truthyStr body.password = true →
          (postRegister rt crypto db body).1 = Response.error 400 "El usuario ya existe") := by
  have hfound : ∃ found, db.users.find? (fun u => decide (u.email = email)) = some found := by
    cases hf : db.users.find? (fun u => decide (u.email = email)) with
    | some found => exact ⟨found, rfl⟩
    | none =>
      have := List.find?_eq_none.1 hf existing hmem
      simp at this
      exact absurd heq this
  obtain ⟨found, hfound⟩ := hfound
  unfold postRegister
  split
  · next hmissing =>
    refine ⟨rfl, rfl, ?_⟩
    intro h1 h2 h3
    rcases hmissing with h | h | h
    · exact absurd h1 h
    · exact absurd h2 h
    · exact absurd h3 h
  · simp only [hemail, Option.getD_some, hfound]
    refine ⟨rfl, ?_, ?_⟩
    · obtain ⟨logs, hlogs⟩ := createLog_only_logs rt db "warning"
        "Intento de registro con email existente" none (some "register_attempt")
      rw [hlogs]
    · intros; trivial

/-- Witness of C16: a second registration with the email of user 1. -/
theorem register_existing_email_witness :
    (postRegister sampleRuntime ⟨fun p => p, fun _ => "token", fun _ => none⟩ sampleDb
        ⟨some "Otra Ana", some "ana@example.com", some "secreto", none, none⟩).1.status = 400
      ∧ (postRegister sampleRuntime ⟨fun p => p, fun _ => "token", fun _ => none⟩ sampleDb
        ⟨some "Otra Ana", some "ana@example.com", some "secreto", none, none⟩).2.users
          = sampleDb.users
      ∧ (truthyStr (some "Otra Ana") = true → truthyStr (some "ana@example.com") = true →
          truthyStr (some "secreto") = true →
          (postRegister sampleRuntime ⟨fun p => p, fun _ => "token", fun _ => none⟩ sampleDb
            ⟨some "Otra Ana", some "ana@example.com", some "secreto", none, none⟩).1
              = Response.error 400 "El usuario ya existe") :=
  register_existing_email sampleRuntime ⟨fun p => p, fun _ => "token", fun _ => none⟩ sampleDb
    ⟨some "Otra Ana", some "ana@example.com", some "secreto", none, none⟩ "ana@example.com"
    anaUser rfl (by decide) rfl

/-! ## Pagination -/

/-- The hotels in a success response of the nearby handler lie in the box around the point. -/
theorem getNearbyHotels_within (rt : Runtime) (parseFloat : String → JsNum) (db db' : Db)
    (lat lng radius : Option String) (status : Nat) (hotels : List Hotel)
    (hok : getNearbyHotels rt parseFloat db lat lng radius = (Response.ok status hotels, db')) :
    ∃ la ln r, parseFloat (lat.getD "") = some la ∧ parseFloat (lng.getD "") = some ln
      ∧ hotels.length ≤ 50
      ∧ ∀ h ∈ hotels, h ∈ db.hotels ∧ nearbyQuery la ln r h = true := by
  unfold getNearbyHotels at hok
  split at hok
  · simp at hok
  · dsimp only at hok
    split at hok
    · next la ln r hla hln _ =>
      simp only [Prod.mk.injEq, Response.ok.injEq] at hok
      obtain ⟨⟨-, hh⟩, -⟩ := hok
      subst hh
      refine ⟨la, ln, r, hla, hln, ?_, ?_⟩
      · simp only [List.length_take]; omega
      · intro h hmem
        have := List.mem_of_mem_take hmem
        exact List.mem_filter.1 this
    · simp at hok

/-- C17, counterexample: user 1 has fifteen favorites.  A `GET` of `/api/favorites` with
`page = 2` and `limit = 10` is answered with the bare list of all fifteen hotels, where the
claim has the five records at positions 10 to 14. -/
theorem favorites_not_paginated :
    (getFavorites sampleRuntime manyFavoritesDb ana (some 2) (some 10)).1
        = Response.ok 200 manyFavoritesDb.hotels
      ∧ manyFavoritesDb.hotels.length = 15
      ∧ manyFavoritesDb.hotels.map (fun h => h.id) = (List.range 15).map (fun i => 100 + i)
      ∧ (manyFavoritesDb.hotels.length : Int)
          ≠ min (10 : Int) (max 0 ((15 : Int) - ((2 : Int) - 1) * (10 : Int))) := by
  decide!

/-- C17, amended: for `page = p ≥ 1` and `limit = L ≥ 1` over a sorted result of `N` records,
the pagination of the handlers of `GET /api/hotels`, `/api/reservations`, `/api/logs`,
`/api/destinations` and `/api/experiences` answers with the records at positions `(p − 1)·L`
to `(p − 1)·L + L − 1` of the sorted result, which are `min(L, max(0, N − (p − 1)·L))` items,
with `totalPages = ceil(N / L)`, `currentPage = p` and `total = N`.  The handler of
`GET /api/favorites` answers the same with and without `page` and `limit`, with the hotels of
all favorites of the caller, and a success of `GET /api/hotels/nearby` holds at most 50
hotels. -/
theorem list_pagination {α : Type} (sorted : List α) (p L defaultLimit : Nat)
    (hp : 1 ≤ p) (hL : 1 ≤ L) (rt : Runtime) (db : Db) (user : AuthUser)
    (parseFloat : String → JsNum) (lat lng radius : Option String) :
    (∃ body, listResponse sorted (some p) (some L) defaultLimit = some body
      ∧ (∀ i, i < L → body.items[i]? = sorted[(p - 1) * L + i]?)
      ∧ body.items.length ≤ L
      ∧ (body.items.length : Int)
          = min (L : Int) (max 0 ((sorted.length : Int) - ((p : Int) - 1) * (L : Int)))
      ∧ body.totalPages = some ⌈(sorted.length : ℚ) / (L : ℚ)⌉
      ∧ body.currentPage = p ∧ body.total = sorted.length)
    ∧ getFavorites rt db user (some p) (some L) = getFavorites rt db user none none
    ∧ (∀ stored, db.users.find? (fun u => decide (u.id = user.userId)) = some stored →
        getFavorites rt db user (some p) (some L)
          = (Response.ok 200 (stored.favorites.filterMap
              (fun fav => db.hotels.find? (fun h => decide (h.id = fav)))), db))
    ∧ (∀ (status : Nat) (hotels : List Hotel) (db' : Db),
        getNearbyHotels rt parseFloat db lat lng radius = (Response.ok status hotels, db') →
        hotels.length ≤ 50) := by
  have hL0 : L ≠ 0 := by omega
  have hp0 : p ≠ 0 := by omega
  refine ⟨⟨ListBody.mk ((sorted.drop ((p - 1) * L)).take (L * 1))
      (some (mathCeil ((sorted.length : ℚ) / (L : ℚ)))) p sorted.length,
    by simp [listResponse, hL0, hp0], ?_, ?_, ?_, rfl, rfl, rfl⟩, rfl, ?_, ?_⟩
  · intro i hi
    simp only [Nat.mul_one]
    rw [List.getElem?_take, if_pos hi, List.getElem?_drop]
  · simp only [Nat.mul_one, List.length_take, List.length_drop]
    omega
  · simp only [Nat.mul_one, List.length_take, List.length_drop]
    have hk : ((p : Int) - 1) * (L : Int) = (((p - 1) * L : Nat) : Int) := by
      push_cast [Nat.cast_sub hp]
      ring
    rw [hk]
    omega
  · intro stored hstored
    simp [getFavorites, hstored]
  · intro status hotels db' hok
    obtain ⟨_, _, _, -, -, hlen, -⟩ :=
      getNearbyHotels_within rt parseFloat db db' lat lng radius status hotels hok
    exact hlen

/-- Witness of C17: page 2 with limit 10 over 15 records holds the last 5 records and
`totalPages` is 2; the favorites of user 1 in the sample store are answered in full. -/
theorem list_pagination_witness :
    ((∃ body, listResponse (List.range 15) (some 2) (some 10) 10 = some body
      ∧ (∀ i, i < 10 → body.items[i]? = (List.range 15)[(2 - 1) * 10 + i]?)
      ∧ body.items.length ≤ 10
      ∧ (body.items.length : Int)
          = min (10 : Int) (max 0 (((List.range 15).length : Int) - ((2 : Int) - 1) * (10 : Int)))
      ∧ body.totalPages = some ⌈((List.range 15).length : ℚ) / (10 : ℚ)⌉
      ∧ body.currentPage = 2 ∧ body.total = (List.range 15).length)
      ∧ getFavorites sampleRuntime favoriteDb ana (some 2) (some 10)
          = getFavorites sampleRuntime favoriteDb ana none none
      ∧ (∀ stored, favoriteDb.users.find? (fun u => decide (u.id = ana.userId)) = some stored →
          getFavorites sampleRuntime favoriteDb ana (some 2) (some 10)
            = (Response.ok 200 (stored.favorites.filterMap
                (fun fav => favoriteDb.hotels.find? (fun h => decide (h.id = fav)))), favoriteDb))
      ∧ (∀ (status : Nat) (hotels : List Hotel) (db' : Db),
          getNearbyHotels sampleRuntime (fun _ => some 0) favoriteDb (some "26.05")
              (some "-98.29") none = (Response.ok status hotels, db') →
          hotels.length ≤ 50))
    ∧ listResponse (List.range 15) (some 2) (some 10) 10
        = some { items := [10, 11, 12, 13, 14], totalPages := some 2, currentPage := 2,
                 total := 15 }
    ∧ (getFavorites sampleRuntime favoriteDb ana (some 2) (some 10)).1
        = Response.ok 200 sampleDb.hotels :=
  ⟨list_pagination (List.range 15) 2 10 10 (by decide) (by decide) sampleRuntime favoriteDb ana
      (fun _ => some 0) (some "26.05") (some "-98.29") none,
   by decide!, by decide!⟩

/-! ## Authentication and logging -/

/-- C18: `authenticateToken` answers 401 without calling the handler when the Authorization
header is missing or has no second space-separated field; it answers 403 without calling the
handler when the header has a token, a non-empty second field, that fails verification; and
when the token verifies it calls the handler once with `req.user` set to the payload.  An
empty second field counts as no token: the answer is 401. -/
theorem authenticateToken_outcomes (verify : String → Option AuthUser)
    (authHeader : Option String) :
    ((authHeader = none ∨ ∃ header, authHeader = some header ∧ (header.splitOn " ")[1]? = none) →
      authenticateToken verify authHeader = AuthOutcome.respond 401 "Token de acceso requerido"
        ∧ (authenticateToken verify authHeader).nextCalls = 0)
    ∧ (∀ header token, authHeader = some header → (header.splitOn " ")[1]? = some token →
        token ≠ "" → verify token = none →
        authenticateToken verify authHeader = AuthOutcome.respond 403 "Token inválido"
          ∧ (authenticateToken verify authHeader).nextCalls = 0)
    ∧ (∀ header token user, authHeader = some header → (header.splitOn " ")[1]? = some token →
        token ≠ "" → verify token = some user →
        authenticateToken verify authHeader = AuthOutcome.next user
          ∧ (authenticateToken verify authHeader).nextCalls = 1)
    ∧ (∀ header, authHeader = some header → (header.splitOn " ")[1]? = some "" →
        authenticateToken verify authHeader = AuthOutcome.respond 401 "Token de acceso requerido"
          ∧ (authenticateToken verify authHeader).nextCalls = 0) := by
  have hempty : ("".splitOn " ")[1]? = none := by decide!
  have htoken : ∀ header token, authHeader = some header →
      (header.splitOn " ")[1]? = some token → bearerToken authHeader = some token := by
    intro header token hh ht
    subst hh
    by_cases he : header = ""
    · subst he; rw [hempty] at ht; simp at ht
    · simp [bearerToken, he, ht]
  refine ⟨?_, ?_, ?_, ?_⟩
  · intro h
    have hfalsy : truthyStr (bearerToken authHeader) = false := by
      rcases h with h | ⟨header, hh, hnone⟩
      · subst h; rfl
      · subst hh
        by_cases he : header = ""
        · subst he; simp [bearerToken, truthyStr]
        · simp [bearerToken, he, hnone, truthyStr]
    have : authenticateToken verify authHeader
        = AuthOutcome.respond 401 "Token de acceso requerido" := by
      simp [authenticateToken, hfalsy]
    rw [this]; exact ⟨rfl, rfl⟩
  · intro header token hh ht hne hv
    have : authenticateToken verify authHeader = AuthOutcome.respond 403 "Token inválido" := by
      simp [authenticateToken, htoken header token hh ht, truthyStr, hne, hv]
    rw [this]; exact ⟨rfl, rfl⟩
  · intro header token user hh ht hne hv
    have : authenticateToken verify authHeader = AuthOutcome.next user := by
      simp [authenticateToken, htoken header token hh ht, truthyStr, hne, hv]
    rw [this]; exact ⟨rfl, rfl⟩
  · intro header hh ht
    have : authenticateToken verify authHeader
        = AuthOutcome.respond 401 "Token de acceso requerido" := by
      simp [authenticateToken, htoken header "" hh ht, truthyStr]
    rw [this]; exact ⟨rfl, rfl⟩

/-- Witness of C18: no header, a header without a second field, a token that fails
verification, a token that verifies as user 1, and a header with an empty second field. -/
theorem authenticateToken_outcomes_witness :
    (authenticateToken (fun t => if t = "good" then some ana else none) none
        = AuthOutcome.respond 401 "Token de acceso requerido"
      ∧ (authenticateToken (fun t => if t = "good" then some ana else none) none).nextCalls = 0)
    ∧ (authenticateToken (fun t => if t = "good" then some ana else none) (some "Bearer")
        = AuthOutcome.respond 401 "Token de acceso requerido"
      ∧ (authenticateToken (fun t => if t = "good" then some ana else none)
          (some "Bearer")).nextCalls = 0)
    ∧ (authenticateToken (fun t => if t = "good" then some ana else none) (some "Bearer bad")
        = AuthOutcome.respond 403 "Token inválido"
      ∧ (authenticateToken (fun t => if t = "good" then some ana else none)
          (some "Bearer bad")).nextCalls = 0)
    ∧ (authenticateToken (fun t => if t = "good" then some ana else none) (some "Bearer good")
        = AuthOutcome.next ana
      ∧ (authenticateToken (fun t => if t = "good" then some ana else none)
          (some "Bearer good")).nextCalls = 1)
    ∧ (authenticateToken (fun t => if t = "good" then some ana else none) (some "Bearer ")
        = AuthOutcome.respond 401 "Token de acceso requerido"
      ∧ (authenticateToken (fun t => if t = "good" then some ana else none)
          (some "Bearer ")).nextCalls = 0) :=
  ⟨(authenticateToken_outcomes (fun t => if t = "good" then some ana else none) none).1
      (Or.inl rfl),
   (authenticateToken_outcomes (fun t => if t = "good" then some ana else none)
      (some "Bearer")).1 (Or.inr ⟨"Bearer", rfl, by decide!⟩),
   (authenticateToken_outcomes (fun t => if t = "good" then some ana else none)
      (some "Bearer bad")).2.1 "Bearer bad" "bad" rfl (by decide!) (by decide) (by decide),
   (authenticateToken_outcomes (fun t => if t = "good" then some ana else none)
      (some "Bearer good")).2.2.1 "Bearer good" "good" ana rfl (by decide!) (by decide)
      (by decide),
   (authenticateToken_outcomes (fun t => if t = "good" then some ana else none)
      (some "Bearer ")).2.2.2 "Bearer " rfl (by decide!)⟩

/-- C19: a call of `createLog` always returns to its caller: whatever the level, message, user
and action, and whether or not saving the record throws, the outcome is a normal return with
the store that `createLog` yields, which is the store as it was when saving threw. -/
theorem createLog_never_throws (rt : Runtime) (db : Db) (level message : String)
    (userId : Option ObjectId) (action : Option String) :
    createLogOutcome rt db level message userId action
        = Except.ok (createLog rt db level message userId action)
    ∧ (∀ e, saveLog rt db level message userId action = Except.error e →
        createLogOutcome rt db level message userId action = Except.ok db)
    ∧ ((level ∉ logLevels ∨ rt.logSaveThrows = true) →
        ∃ e, saveLog rt db level message userId action = Except.error e) := by
  refine ⟨?_, ?_, ?_⟩
  · unfold createLogOutcome saveLog createLog
    by_cases hl : level ∈ logLevels
    · by_cases ht : rt.logSaveThrows = true
      · simp [hl, ht]
      · simp [hl, ht]
    · simp [hl]
  · intro e he
    simp [createLogOutcome, he]
  · intro h
    unfold saveLog
    by_cases hl : level ∈ logLevels
    · rcases h with h | h
      · exact absurd hl h
      · exact ⟨"save failed", by simp [hl, h]⟩
    · exact ⟨"Log validation failed: level", by simp [hl]⟩

/-- Witness of C19: a record with the level `debug`, which the schema rejects, and a record
the store fails to save. -/
theorem createLog_never_throws_witness :
    createLogOutcome sampleRuntime sampleDb "debug" "mensaje" none none = Except.ok sampleDb
    ∧ createLogOutcome { sampleRuntime with logSaveThrows := true } sampleDb "info" "mensaje"
        (some 1) (some "accion") = Except.ok sampleDb :=
  ⟨(createLog_never_throws sampleRuntime sampleDb "debug" "mensaje" none none).2.1
      "Log validation failed: level" (by simp [saveLog, logLevels]),
   (createLog_never_throws { sampleRuntime with logSaveThrows := true } sampleDb "info" "mensaje"
      (some 1) (some "accion")).2.1 "save failed" (by simp [saveLog, logLevels])⟩

/-! ## Email dispatch -/

/-- The response of `createReservation`, and the reservations it leaves, depend neither on
the outcome of the mail dispatch nor on the stored configuration. -/
theorem createReservation_email_independent (rt : Runtime) (db : Db) (user : AuthUser)
    (hotelId : ObjectId) (checkinDate checkoutDate : JsDate) (adults : ℚ) (children : JsNum)
    (roomType : String) (hotel : Hotel) (throws : Bool) (configs : List Config) :
    (createReservation { rt with sendMailThrows := throws } { db with configs := configs } user
        hotelId checkinDate checkoutDate adults children roomType hotel).1
      = (createReservation rt db user hotelId checkinDate checkoutDate adults children roomType
          hotel).1
    ∧ (createReservation { rt with sendMailThrows := throws } { db with configs := configs } user
        hotelId checkinDate checkoutDate adults children roomType hotel).2.reservations
      = (createReservation rt db user hotelId checkinDate checkoutDate adults children roomType
          hotel).2.reservations := by
  unfold createReservation
  dsimp only
  generalize newReservation rt.newId user.userId hotelId checkinDate checkoutDate adults
    (if truthyNum children = true then children.getD 0 else 0) roomType
    (reservationTotal hotel.price (nightsBetween checkinDate checkoutDate))
    (generateReservationNumber rt.now rt.random) rt.now = res
  cases res with
  | none => exact ⟨rfl, by simp only [reservationFailed, createLog_reservations]⟩
  | some r =>
    dsimp only
    cases db.users.find? (fun u => decide (u.id = user.userId)) with
    | none => exact ⟨rfl, by simp only [reservationFailed, createLog_reservations]⟩
    | some u =>
      dsimp only
      cases rt.pdfThrows with
      | true => exact ⟨rfl, by simp only [reservationFailed, createLog_reservations, if_true]⟩
      | false =>
        refine ⟨rfl, ?_⟩
        simp only [Bool.false_eq_true, if_false, createLog_reservations,
          confirmationEmail_reservations]

/-- The response of `POST /api/reservations`, and the reservations it leaves, do not depend on
the outcome of the mail dispatch. -/
theorem postReservation_email_independent (rt : Runtime) (db : Db) (user : AuthUser)
    (body : ReservationRequest) (throws : Bool) :
    (postReservation { rt with sendMailThrows := throws } db user body).1
      = (postReservation rt db user body).1
    ∧ (postReservation { rt with sendMailThrows := throws } db user body).2.reservations
      = (postReservation rt db user body).2.reservations := by
  unfold postReservation
  cases body.hotelId <;> cases body.adults <;> cases body.roomType <;> dsimp only <;>
    first
    | exact ⟨rfl, rfl⟩
    | (split
       · exact ⟨rfl, rfl⟩
       · split
         · exact ⟨rfl, rfl⟩
         · split
           · exact ⟨rfl, rfl⟩
           · split
             · exact ⟨rfl, rfl⟩
             · exact createReservation_email_independent rt db user _ _ _ _ _ _ _ throws
                 db.configs)

/-- When the schema accepts the document, the caller has a user document and the PDF is
written, `createReservation` answers 201 with the stored reservation. -/
theorem createReservation_success (rt : Runtime) (db : Db) (user : AuthUser) (hotelId : ObjectId)
    (checkinDate checkoutDate : JsDate) (adults : ℚ) (children : JsNum) (roomType : String)
    (hotel : Hotel) (r : Reservation) (u : User)
    (hnew : newReservation rt.newId user.userId hotelId checkinDate checkoutDate adults
        (if truthyNum children then children.getD 0 else 0) roomType
        (reservationTotal hotel.price (nightsBetween checkinDate checkoutDate))
        (generateReservationNumber rt.now rt.random) rt.now = some r)
    (huser : db.users.find? (fun u => decide (u.id = user.userId)) = some u)
    (hpdf : rt.pdfThrows = false) :
    ∃ created, (createReservation rt db user hotelId checkinDate checkoutDate adults children
        roomType hotel).1 = Response.ok 201 created
      ∧ created.reservation.id = r.id ∧ created.reservation.total = r.total
      ∧ created.reservation.status = r.status
      ∧ created.reservation.pdfUrl = some created.pdfUrl
      ∧ created.reservation ∈ (createReservation rt db user hotelId checkinDate checkoutDate
          adults children roomType hotel).2.reservations := by
  unfold createReservation
  simp only [hnew, huser, hpdf, Bool.false_eq_true, if_false]
  refine ⟨_, rfl, rfl, rfl, rfl, rfl, ?_⟩
  rw [createLog_reservations, confirmationEmail_reservations]
  apply new_mem_replaceFirst
  exact ⟨r, by simp, by simp⟩

/-- C21: in `POST /api/reservations` the mail dispatch is not attempted (the email block
leaves the store as it was) unless the config record `email_notifications` exists with a truthy
value, in which case its outcome is only logged; whether the dispatch throws changes neither
the response nor the stored reservations; and a valid request of a stored user whose PDF is
written is answered with 201 and the persisted reservation. -/
theorem email_dispatch (rt : Runtime) (db : Db) (user : AuthUser) (body : ReservationRequest) :
    ((db.configs.find? (fun c => decide (c.key = "email_notifications")) = none
        ∨ ∃ c, db.configs.find? (fun c => decide (c.key = "email_notifications")) = some c
            ∧ c.value.truthy = false) →
      confirmationEmail rt db user = db)
    ∧ (∀ c, db.configs.find? (fun c => decide (c.key = "email_notifications")) = some c →
        c.value.truthy = true →
        confirmationEmail rt db user
          = if rt.sendMailThrows then
              createLog rt db "error" "Error enviando email de confirmación" (some user.userId)
                (some "email_error")
            else
              createLog rt db "info" "Email de confirmación enviado" (some user.userId)
                (some "email_sent"))
    ∧ (∀ throws : Bool,
        (postReservation { rt with sendMailThrows := throws } db user body).1
          = (postReservation rt db user body).1
        ∧ (postReservation { rt with sendMailThrows := throws } db user body).2.reservations
          = (postReservation rt db user body).2.reservations)
    ∧ (∀ (hotelId : ObjectId) (adults : ℚ) (roomType : String) (ci co : Int) (hotel : Hotel)
        (stored : User),
        body.hotelId = some hotelId → body.adults = some adults → 1 ≤ adults →
        body.roomType = some roomType → roomType ≠ "" →
        truthyStr body.checkin = true → truthyStr body.checkout = true →
        newDate rt.dateParse body.checkin = some ci →
        newDate rt.dateParse body.checkout = some co →
        rt.today ≤ ci → ci < co →
        db.hotels.find? (fun h => decide (h.id = hotelId)) = some hotel →
        db.users.find? (fun u => decide (u.id = user.userId)) = some stored →
        rt.pdfThrows = false →
        ∃ created, (postReservation rt db user body).1 = Response.ok 201 created
          ∧ created.reservation.id = rt.newId
          ∧ created.reservation ∈ (postReservation rt db user body).2.reservations) := by
  refine ⟨?_, ?_, postReservation_email_independent rt db user body, ?_⟩
  · intro h
    rcases h with h | ⟨c, hc, hfalsy⟩
    · simp [confirmationEmail, h]
    · simp [confirmationEmail, hc, hfalsy]
  · intro c hc htruthy
    simp only [confirmationEmail, hc, htruthy, if_true]
  · intro hotelId adults roomType ci co hotel stored hh ha hadults hr hr0 h1 h2 hci hco htoday hlt
      hhotel huser hpdf
    have ha0 : adults ≠ 0 := by
      intro h0; rw [h0] at hadults; norm_num at hadults
    rw [postReservation_valid rt db user body hotelId adults roomType ci co hotel hh ha ha0 hr hr0
      h1 h2 hci hco htoday hlt hhotel]
    obtain ⟨r0, hnew⟩ := newReservation_isSome rt.newId user.userId hotelId ci co adults
      (if truthyNum body.children then body.children.getD 0 else 0) roomType
      (hotel.price * ((⌈((co - ci : Int) : ℚ) / 86400000⌉ : Int) : ℚ))
      (generateReservationNumber rt.now rt.random) rt.now hadults
    rw [← reservationTotal_valid] at hnew
    have hf := newReservation_fields _ _ _ _ _ _ _ _ _ _ _ _ hnew
    obtain ⟨created, hresp, hid, -, -, -, hmem⟩ :=
      createReservation_success rt db user hotelId (some ci) (some co) adults body.children
        roomType hotel r0 stored hnew huser hpdf
    exact ⟨created, hresp, hid.trans hf.1, hmem⟩

/-- Witness of C21: without the config record the email block does nothing; with email
notifications on and a dispatch that throws, the sample booking is answered 201 as when the
dispatch works, and the failure is logged. -/
theorem email_dispatch_witness :
    confirmationEmail sampleRuntime sampleDb ana = sampleDb
    ∧ ((postReservation { sampleRuntime with sendMailThrows := false } configuredDb ana
          sampleBooking).1
        = (postReservation sampleRuntime configuredDb ana sampleBooking).1
      ∧ (postReservation { sampleRuntime with sendMailThrows := false } configuredDb ana
          sampleBooking).2.reservations
        = (postReservation sampleRuntime configuredDb ana sampleBooking).2.reservations)
    ∧ (∃ created, (postReservation sampleRuntime configuredDb ana sampleBooking).1
          = Response.ok 201 created
        ∧ created.reservation.id = sampleRuntime.newId
        ∧ created.reservation ∈ (postReservation sampleRuntime configuredDb ana
            sampleBooking).2.reservations)
    ∧ (postReservation sampleRuntime configuredDb ana sampleBooking).2.logs.map
        (fun l => (l.level, l.action))
      = [("error", some "email_error"), ("info", some "create_reservation")] :=
  ⟨(email_dispatch sampleRuntime sampleDb ana sampleBooking).1 (Or.inl (by decide)),
   (email_dispatch sampleRuntime configuredDb ana sampleBooking).2.2.1 false,
   (email_dispatch sampleRuntime configuredDb ana sampleBooking).2.2.2 10 2 "doble"
      1898812800000 1898985600000
      { id := 10, name := "Hotel Plaza", location := "Reynosa", price := 850 }
      anaUser
      rfl rfl (by norm_num) rfl (by decide) (by decide) (by decide) (by decide) (by decide)
      (by decide) (by decide) (by decide!) (by decide!) rfl,
   by decide!⟩

/-! ## Log retention -/

/-- C22: a run of `cleanOldLogs` at time `t` keeps a log record exactly when its `createdAt`
is not earlier than `t` minus 30 days or its level is `error`, so it deletes a record exactly
when the record is older than that and not of level `error`; the records kept stay in order and
nothing else in the store changes. -/
theorem cleanOldLogs_deletes (rt : Runtime) (db : Db) :
    (∀ log ∈ db.logs,
        (log ∉ (cleanOldLogs rt db).logs
          ↔ (log.createdAt < rt.now - 30 * 86400000 ∧ log.level ≠ "error")))
    ∧ (∀ log ∈ db.logs, log.level = "error" → log ∈ (cleanOldLogs rt db).logs)
    ∧ (∀ log ∈ db.logs, rt.now - 30 * 86400000 ≤ log.createdAt →
        log ∈ (cleanOldLogs rt db).logs)
    ∧ (cleanOldLogs rt db).logs.Sublist db.logs
    ∧ (cleanOldLogs rt db).users = db.users ∧ (cleanOldLogs rt db).hotels = db.hotels
    ∧ (cleanOldLogs rt db).reservations = db.reservations
    ∧ (cleanOldLogs rt db).configs = db.configs
    ∧ (cleanOldLogs rt db).experiences = db.experiences := by
  have hcut : thirtyDaysAgo rt.now = rt.now - 30 * 86400000 := by
    unfold thirtyDaysAgo; norm_num
  have hmem : ∀ log ∈ db.logs, (log ∈ (cleanOldLogs rt db).logs
      ↔ ¬ (log.createdAt < rt.now - 30 * 86400000 ∧ log.level ≠ "error")) := by
    intro log hlog
    simp only [cleanOldLogs, List.mem_filter, hlog, true_and, hcut, Bool.not_eq_true',
      Bool.and_eq_false_iff, decide_eq_false_iff_not, not_and_or, ne_eq, not_not,
      Bool.not_eq_eq_eq_not, Bool.not_true, decide_eq_true_eq]
  refine ⟨?_, ?_, ?_, List.filter_sublist _, rfl, rfl, rfl, rfl, rfl⟩
  · intro log hlog
    rw [hmem log hlog, not_not]
  · intro log hlog hlevel
    rw [hmem log hlog]
    intro h; exact h.2 hlevel
  · intro log hlog hrecent
    rw [hmem log hlog]
    intro h; omega

/-- Witness of C22: on 1 February 2030 the sweep deletes the old `info` record and keeps the
old `error` record and the recent record. -/
theorem cleanOldLogs_deletes_witness :
    oldInfoLog ∉ (cleanOldLogs sampleRuntime loggedDb).logs
    ∧ oldErrorLog ∈ (cleanOldLogs sampleRuntime loggedDb).logs
    ∧ recentInfoLog ∈ (cleanOldLogs sampleRuntime loggedDb).logs
    ∧ (cleanOldLogs sampleRuntime loggedDb).logs = [oldErrorLog, recentInfoLog] :=
  ⟨((cleanOldLogs_deletes sampleRuntime loggedDb).1 oldInfoLog (by decide)).2
      ⟨by decide, by decide⟩,
   (cleanOldLogs_deletes sampleRuntime loggedDb).2.1 oldErrorLog (by decide) rfl,
   (cleanOldLogs_deletes sampleRuntime loggedDb).2.2.1 recentInfoLog (by decide) (by decide),
   by decide⟩

/-! ## Further properties of check-availability -/

/-- C23: check-availability answers 400, with an error body and so without availability
figures, and leaves the store as it was when `checkin` or `checkout` is absent or the checkout
date is earlier than or equal to the checkin date. -/
theorem checkAvailability_rejects (rt : Runtime) (db : Db) (id : ObjectId)
    (checkin checkout : Option String) :
    ((checkin = none ∨ checkout = none) →
      postCheckAvailability rt db id checkin checkout
        = (Response.error 400 "Fechas de check-in y check-out son requeridas", db))
    ∧ (∀ ci co, newDate rt.dateParse checkin = some ci → newDate rt.dateParse checkout = some co →
        co ≤ ci →
        ∃ message, postCheckAvailability rt db id checkin checkout
          = (Response.error 400 message, db)) := by
  constructor
  · intro h
    rcases h with h | h <;> subst h <;> simp [postCheckAvailability, truthyStr]
  · intro ci co hci hco hle
    unfold postCheckAvailability
    split
    · exact ⟨_, rfl⟩
    · have : dateLe (some co) (some ci) = true := by simpa [dateLe] using hle
      simp only [hci, hco, this, if_true]
      exact ⟨_, rfl⟩

/-- Witness of C23: a query without `checkout`, and a query for [5 March, 4 March). -/
theorem checkAvailability_rejects_witness :
    postCheckAvailability sampleRuntime sampleDb 10 (some "2030-03-04") none
        = (Response.error 400 "Fechas de check-in y check-out son requeridas", sampleDb)
    ∧ ∃ message, postCheckAvailability sampleRuntime sampleDb 10 (some "2030-03-05")
          (some "2030-03-04") = (Response.error 400 message, sampleDb) :=
  ⟨(checkAvailability_rejects sampleRuntime sampleDb 10 (some "2030-03-04") none).1
      (Or.inr rfl),
   (checkAvailability_rejects sampleRuntime sampleDb 10 (some "2030-03-05")
      (some "2030-03-04")).2 1898899200000 1898812800000 (by decide) (by decide) (by decide)⟩

/-! ## Routing of the nearby search and configuration updates -/

/-- C24 (defect): a `GET` of `/api/hotels/nearby` is dispatched to the route
`/api/hotels/:id`, which is registered before `/api/hotels/nearby`, with `id = "nearby"`; that
handler cannot read `nearby` as an id and answers 500, and the nearby handler never runs. -/
theorem nearby_route_shadowed :
    dispatch "GET" "/api/hotels/nearby"
        = some (⟨"GET", "/api/hotels/:id"⟩, [("id", "nearby")])
    ∧ routes.indexOf ⟨"GET", "/api/hotels/:id"⟩ = 6
    ∧ routes.indexOf ⟨"GET", "/api/hotels/nearby"⟩ = 20
    ∧ hexObjectId "nearby" = none
    ∧ (getHotelById sampleRuntime hexObjectId sampleDb "nearby").1
        = Response.error 500 "Cast to ObjectId failed"
    ∧ (getHotelById sampleRuntime hexObjectId sampleDb "00000000000000000000000a").1.status
        = 200 := by
  decide!

/-- The stored configuration after `PUT /api/config/:key` holds the new value under the key. -/
theorem putConfig_stored (rt : Runtime) (db : Db) (user : AuthUser) (key : String)
    (value : JsValue) :
    (putConfig rt db user key value).1 = Response.ok 200 { key := key, value := value }
    ∧ (putConfig rt db user key value).2.configs.find? (fun c => decide (c.key = key))
        = some { key := key, value := value } := by
  refine ⟨rfl, ?_⟩
  unfold putConfig
  dsimp only
  obtain ⟨logs, hlogs⟩ := createLog_only_logs rt
    { db with configs :=
        match db.configs.find? (fun c => decide (c.key = key)) with
        | some _ => replaceFirst (fun c => decide (c.key = key)) (Config.mk key value) db.configs
        | none => db.configs ++ [Config.mk key value] }
    "info" "Configuración actualizada" (some user.userId) (some "update_config")
  rw [hlogs]
  dsimp only
  cases hfind : db.configs.find? (fun c => decide (c.key = key)) with
  | some found =>
    dsimp only
    exact find?_replaceFirst _ _ _ found _ hfind (fun _ h => h) (by simp)
  | none =>
    dsimp only
    rw [List.find?_append, hfind]
    simp

/-- C25 (defect): `PUT /api/config/:key` has no check of the caller beyond the token: for
every authenticated user it answers 200 and stores the value; in the sample store user 2 sets
the cancellation window to 0 hours. -/
theorem putConfig_any_user :
    (∀ (rt : Runtime) (db : Db) (user : AuthUser) (key : String) (value : JsValue),
      (putConfig rt db user key value).1 = Response.ok 200 { key := key, value := value }
      ∧ (putConfig rt db user key value).2.configs.find? (fun c => decide (c.key = key))
          = some { key := key, value := value })
    ∧ (putConfig sampleRuntime configuredDb luis "cancellation_hours" (JsValue.num 0)).1.status
        = 200
    ∧ (putConfig sampleRuntime configuredDb luis "cancellation_hours" (JsValue.num 0)).2.configs
        = [{ key := "cancellation_hours", value := JsValue.num 0 },
           { key := "email_notifications", value := JsValue.bool true }]
    ∧ (putConfig sampleRuntime configuredDb luis "cancellation_hours" (JsValue.num 0)).2.configs
        ≠ configuredDb.configs :=
  ⟨putConfig_stored, by decide!, by decide!, by decide!⟩

/-! ## Favorites -/

/-- Logging leaves the users as they were. -/
theorem createLog_users (rt : Runtime) (db : Db) (level message : String)
    (userId : Option ObjectId) (action : Option String) :
    (createLog rt db level message userId action).users = db.users := by
  unfold createLog; split <;> rfl

/-- A path parameter that the store casts to a favorite of the caller, but that is not the
text of any favorite, is not found by `includes`: the hotel is appended once more and the
request answered with 200; and the removal under the same spelling is answered with 400. -/
theorem postFavorite_other_spelling (rt : Runtime) (castObjectId : String → Option ObjectId)
    (idText : ObjectId → String) (db : Db) (user : AuthUser) (hotelId : String)
    (objectId : ObjectId) (hotel : Hotel) (stored : User)
    (hcast : castObjectId hotelId = some objectId)
    (hhotel : db.hotels.find? (fun h => decide (h.id = objectId)) = some hotel)
    (huser : db.users.find? (fun u => decide (u.id = user.userId)) = some stored)
    (hvalid : userSchemaValid stored = true)
    (hmem : objectId ∈ stored.favorites)
    (hspelling : ∀ fav ∈ stored.favorites, idText fav ≠ hotelId) :
    (postFavorite rt castObjectId idText db user hotelId).1
        = Response.ok 200 (stored.favorites ++ [objectId])
      ∧ ¬ (stored.favorites ++ [objectId]).Nodup
      ∧ (postFavorite rt castObjectId idText db user hotelId).2.users
          = replaceFirst (fun u => decide (u.id = stored.id))
              { stored with favorites := stored.favorites ++ [objectId] } db.users
      ∧ deleteFavorite rt idText db user hotelId
          = (Response.error 400 "El hotel no está en favoritos", db) := by
  have hany : stored.favorites.any (fun fav => decide (idText fav = hotelId)) = false := by
    rw [List.any_eq_false]
    intro fav hfav
    simpa using hspelling fav hfav
  have hvalid2 : userSchemaValid { stored with favorites := stored.favorites ++ [objectId] }
      = true := hvalid
  have hfilter : stored.favorites.filter (fun fav => decide (idText fav ≠ hotelId))
      = stored.favorites := by
    rw [List.filter_eq_self]
    intro fav hfav
    simpa using hspelling fav hfav
  refine ⟨?_, ?_, ?_, ?_⟩
  · simp [postFavorite, hcast, hhotel, huser, hany, hvalid2]
  · rw [List.nodup_append]
    rintro ⟨-, -, hdisj⟩
    exact hdisj hmem (List.mem_singleton_self _)
  · simp [postFavorite, hcast, hhotel, huser, hany, hvalid2, createLog_users]
  · unfold deleteFavorite
    rw [huser]
    dsimp only
    rw [hfilter, if_pos rfl]

/-- C26, the failing input: user 1 starts with no favorites and hotel 10 has the id
`00000000000000000000000a`.  The first `POST` under this id is answered with 200 and the
second with 400, the favorites staying `[10]`.  A third `POST` spells the id in upper case:
the store casts it to hotel 10, `includes` compares the spelling with the lower-case text of
the stored id and finds nothing, and the request is answered with 200 and the favorites
`[10, 10]`.  A `DELETE` under the upper-case spelling is then answered with 400 and leaves
both copies; a `DELETE` under the lower-case id removes both. -/
theorem favorites_duplicate :
    hexObjectId "00000000000000000000000a" = some 10
      ∧ hexObjectId "00000000000000000000000A" = some 10
      ∧ hexText 10 = "00000000000000000000000a"
      ∧ (sampleDb.users.map (fun u => u.favorites) = [[], []])
      ∧ (postFavorite sampleRuntime hexObjectId hexText sampleDb ana
          "00000000000000000000000a").1 = Response.ok 200 [10]
      ∧ (postFavorite sampleRuntime hexObjectId hexText
          (afterFavoriteOperations hexObjectId hexText sampleDb (sampleFavoriteOperations.take 1))
          ana "00000000000000000000000a")
        = (Response.error 400 "El hotel ya está en favoritos",
           afterFavoriteOperations hexObjectId hexText sampleDb (sampleFavoriteOperations.take 1))
      ∧ (postFavorite sampleRuntime hexObjectId hexText
          (afterFavoriteOperations hexObjectId hexText sampleDb (sampleFavoriteOperations.take 2))
          ana "00000000000000000000000A").1 = Response.ok 200 [10, 10]
      ∧ (afterFavoriteOperations hexObjectId hexText sampleDb sampleFavoriteOperations).users.map
          (fun u => u.favorites) = [[10, 10], []]
      ∧ deleteFavorite sampleRuntime hexText
          (afterFavoriteOperations hexObjectId hexText sampleDb sampleFavoriteOperations) ana
          "00000000000000000000000A"
        = (Response.error 400 "El hotel no está en favoritos",
           afterFavoriteOperations hexObjectId hexText sampleDb sampleFavoriteOperations)
      ∧ (deleteFavorite sampleRuntime hexText
          (afterFavoriteOperations hexObjectId hexText sampleDb sampleFavoriteOperations) ana
          "00000000000000000000000a").1 = Response.ok 200 [] := by
  decide!

/-! ## Reservations and availability -/

/-- The response of `createReservation` does not depend on the stored reservations. -/
theorem createReservation_ignores_reservations (rt : Runtime) (db : Db) (user : AuthUser)
    (hotelId : ObjectId) (checkinDate checkoutDate : JsDate) (adults : ℚ) (children : JsNum)
    (roomType : String) (hotel : Hotel) (existing : List Reservation) :
    (createReservation rt { db with reservations := existing } user hotelId checkinDate
        checkoutDate adults children roomType hotel).1
      = (createReservation rt db user hotelId checkinDate checkoutDate adults children roomType
          hotel).1 := by
  unfold createReservation
  dsimp only
  generalize newReservation rt.newId user.userId hotelId checkinDate checkoutDate adults
    (if truthyNum children = true then children.getD 0 else 0) roomType
    (reservationTotal hotel.price (nightsBetween checkinDate checkoutDate))
    (generateReservationNumber rt.now rt.random) rt.now = res
  cases res with
  | none => rfl
  | some r =>
    dsimp only
    cases db.users.find? (fun u => decide (u.id = user.userId)) with
    | none => rfl
    | some u =>
      dsimp only
      cases rt.pdfThrows with
      | true => rfl
      | false => rfl

/-- The response of `POST /api/reservations` does not depend on the stored reservations. -/
theorem postReservation_ignores_reservations (rt : Runtime) (db : Db) (user : AuthUser)
    (body : ReservationRequest) (existing : List Reservation) :
    (postReservation rt { db with reservations := existing } user body).1
      = (postReservation rt db user body).1 := by
  unfold postReservation
  cases body.hotelId <;> cases body.adults <;> cases body.roomType <;>
    first
    | rfl
    | (dsimp only
       split
       · rfl
       · split
         · rfl
         · split
           · rfl
           · split
             · rfl
             · exact createReservation_ignores_reservations rt db user _ _ _ _ _ _ _ existing)

/-- C27: the response of `POST /api/reservations` is the same whatever reservations are
stored, and a valid request (with `adults ≥ 1`) stores its reservation, with status
`confirmada`, whatever reservations are stored, so also when check-availability for the same
hotel and dates reports no room. -/
theorem reservation_ignores_availability (rt : Runtime) (db : Db) (user : AuthUser)
    (body : ReservationRequest) (existing : List Reservation) :
    (postReservation rt { db with reservations := existing } user body).1
        = (postReservation rt db user body).1
    ∧ (∀ (hotelId : ObjectId) (adults : ℚ) (roomType : String) (ci co : Int) (hotel : Hotel),
        body.hotelId = some hotelId → body.adults = some adults → 1 ≤ adults →
        body.roomType = some roomType → roomType ≠ "" →
        truthyStr body.checkin = true → truthyStr body.checkout = true →
        newDate rt.dateParse body.checkin = some ci →
        newDate rt.dateParse body.checkout = some co →
        rt.today ≤ ci → ci < co →
        db.hotels.find? (fun h => decide (h.id = hotelId)) = some hotel →
        ∃ r ∈ (postReservation rt { db with reservations := existing } user body).2.reservations,
          r.id = rt.newId ∧ r.userId = user.userId ∧ r.hotelId = hotelId
            ∧ r.checkin = ci ∧ r.checkout = co ∧ r.status = Status.confirmada) := by
  refine ⟨postReservation_ignores_reservations rt db user body existing, ?_⟩
  intro hotelId adults roomType ci co hotel hh ha hadults hr hr0 h1 h2 hci hco htoday hlt hhotel
  have ha0 : adults ≠ 0 := by
    intro h0; rw [h0] at hadults; norm_num at hadults
  rw [postReservation_valid rt { db with reservations := existing } user body hotelId adults
    roomType ci co hotel hh ha ha0 hr hr0 h1 h2 hci hco htoday hlt hhotel]
  obtain ⟨r0, hnew⟩ := newReservation_isSome rt.newId user.userId hotelId ci co adults
    (if truthyNum body.children then body.children.getD 0 else 0) roomType
    (hotel.price * ((⌈((co - ci : Int) : ℚ) / 86400000⌉ : Int) : ℚ))
    (generateReservationNumber rt.now rt.random) rt.now hadults
  rw [← reservationTotal_valid] at hnew
  have hf := newReservation_fields _ _ _ _ _ _ _ _ _ _ _ _ hnew
  have hci' : r0.checkin = ci := (Option.some.inj hf.2.2.2.1).symm
  have hco' : r0.checkout = co := (Option.some.inj hf.2.2.2.2.1).symm
  have hst : r0.status = Status.confirmada := hf.2.2.2.2.2.2.2.2.2.2.1
  obtain ⟨r, hr, hrr⟩ := createReservation_stores rt { db with reservations := existing } user
    hotelId (some ci) (some co) adults body.children roomType hotel r0 hnew
  refine ⟨r, hr, ?_⟩
  rcases hrr with hrr | hrr
  · rw [hrr]; exact ⟨hf.1, hf.2.1, hf.2.2.1, hci', hco', hst⟩
  · rw [hrr]; exact ⟨hf.1, hf.2.1, hf.2.2.1, hci', hco', hst⟩

/-- Witness of C27: with 20 confirmed reservations of hotel 10 for the same nights
check-availability reports no room, and the sample booking is answered 201 and stored. -/
theorem reservation_ignores_availability_witness :
    (postReservation sampleRuntime { sampleDb with reservations := (bookedDb 20).reservations }
        ana sampleBooking).1
      = (postReservation sampleRuntime sampleDb ana sampleBooking).1
    ∧ (∃ r ∈ (postReservation sampleRuntime
          { sampleDb with reservations := (bookedDb 20).reservations } ana
          sampleBooking).2.reservations,
        r.id = sampleRuntime.newId ∧ r.userId = ana.userId ∧ r.hotelId = 10
          ∧ r.checkin = 1898812800000 ∧ r.checkout = 1898985600000
          ∧ r.status = Status.confirmada)
    ∧ (postCheckAvailability sampleRuntime (bookedDb 20) 10 (some "2030-03-04")
        (some "2030-03-06")).1 = Response.ok 200 ⟨false, 0, 20, 20⟩
    ∧ (postReservation sampleRuntime (bookedDb 20) ana sampleBooking).1.status = 201
    ∧ (postReservation sampleRuntime (bookedDb 20) ana sampleBooking).2.reservations.length
        = 21 :=
  ⟨(reservation_ignores_availability sampleRuntime sampleDb ana sampleBooking
      (bookedDb 20).reservations).1,
   (reservation_ignores_availability sampleRuntime sampleDb ana sampleBooking
      (bookedDb 20).reservations).2 10 2 "doble" 1898812800000 1898985600000
      { id := 10, name := "Hotel Plaza", location := "Reynosa", price := 850 }
      rfl rfl (by norm_num) rfl (by decide) (by decide) (by decide) (by decide) (by decide)
      (by decide) (by decide) (by decide!),
   by decide!, by decide!, by decide!⟩

/-- C28: for a fixed hotel and store, when the query interval `[a, b)` is contained in
`[a', b')`, check-availability reports for `[a', b')` at least as many booked rooms and at most
as many available rooms as for `[a, b)`; `availableRooms` is `20 − bookedRooms` without a
clamp, negative when more than 20 reservations overlap. -/
theorem availability_monotone (rt : Runtime) (db : Db) (id : ObjectId)
    (checkin checkout checkin' checkout' : Option String) (a b a' b' : Int)
    (h1 : truthyStr checkin = true) (h2 : truthyStr checkout = true)
    (h1' : truthyStr checkin' = true) (h2' : truthyStr checkout' = true)
    (ha : newDate rt.dateParse checkin = some a) (hb : newDate rt.dateParse checkout = some b)
    (ha' : newDate rt.dateParse checkin' = some a')
    (hb' : newDate rt.dateParse checkout' = some b')
    (haa : a' ≤ a) (hab : a < b) (hbb : b ≤ b') :
    ∃ inner outer,
      postCheckAvailability rt db id checkin checkout = (Response.ok 200 inner, db)
      ∧ postCheckAvailability rt db id checkin' checkout' = (Response.ok 200 outer, db)
      ∧ inner.bookedRooms ≤ outer.bookedRooms
      ∧ outer.availableRooms ≤ inner.availableRooms
      ∧ outer.availableRooms = 20 - (outer.bookedRooms : Int)
      ∧ (20 < outer.bookedRooms → outer.availableRooms < 0) := by
  have hmono : (db.reservations.filter (overlapQuery id a b)).length
      ≤ (db.reservations.filter (overlapQuery id a' b')).length := by
    rw [← List.countP_eq_length_filter, ← List.countP_eq_length_filter]
    apply List.countP_mono_left
    intro r _ hr
    simp only [overlapQuery, Bool.and_eq_true, decide_eq_true_eq] at hr ⊢
    exact ⟨hr.1, by omega, by omega⟩
  refine ⟨_, _, postCheckAvailability_valid rt db id checkin checkout a b h1 h2 ha hb hab,
    postCheckAvailability_valid rt db id checkin' checkout' a' b' h1' h2' ha' hb' (by omega),
    hmono, ?_, rfl, ?_⟩
  · simp only [maxRooms]; omega
  · simp only [maxRooms]; omega

/-- Witness of C28: with 21 reservations from 4 March to 6 March the query [1 March, 6 March)
contains the query [5 March, 6 March) and both report `availableRooms = −1`. -/
theorem availability_monotone_witness :
    (∃ inner outer,
      postCheckAvailability sampleRuntime (bookedDb 21) 10 (some "2030-03-05") (some "2030-03-06")
        = (Response.ok 200 inner, bookedDb 21)
      ∧ postCheckAvailability sampleRuntime (bookedDb 21) 10 (some "2030-03-01")
          (some "2030-03-06") = (Response.ok 200 outer, bookedDb 21)
      ∧ inner.bookedRooms ≤ outer.bookedRooms
      ∧ outer.availableRooms ≤ inner.availableRooms
      ∧ outer.availableRooms = 20 - (outer.bookedRooms : Int)
      ∧ (20 < outer.bookedRooms → outer.availableRooms < 0))
    ∧ (postCheckAvailability sampleRuntime (bookedDb 21) 10 (some "2030-03-01")
        (some "2030-03-06")).1 = Response.ok 200 ⟨false, -1, 20, 21⟩
    ∧ (postCheckAvailability sampleRuntime sampleDb 10 (some "2030-03-05")
        (some "2030-03-06")).1 = Response.ok 200 ⟨true, 20, 20, 0⟩
    ∧ (postCheckAvailability sampleRuntime sampleDb 10 (some "2030-03-01")
        (some "2030-03-06")).1 = Response.ok 200 ⟨true, 19, 20, 1⟩ :=
  ⟨availability_monotone sampleRuntime (bookedDb 21) 10 (some "2030-03-05") (some "2030-03-06")
      (some "2030-03-01") (some "2030-03-06") 1898899200000 1898985600000 1898553600000
      1898985600000 (by decide) (by decide) (by decide) (by decide) (by decide) (by decide)
      (by decide) (by decide) (by decide) (by decide) (by decide),
   by decide!, by decide!, by decide!⟩

/-! ## Range of the rating -/

/-- C29: when the ratings of the reviews of the stored hotel all lie in `[1, 5]`, the rating
of the hotel after a successful review lies in `[1, 5]` and is a multiple of one tenth. -/
theorem rating_range (rt : Runtime) (db db' : Db) (user : AuthUser) (id : ObjectId)
    (rating : JsNum) (comment : Option String) (status : Nat) (hotel' : Hotel)
    (hok : postHotelReview rt db user id rating comment = (Response.ok status hotel', db'))
    (hexisting : ∀ old, db.hotels.find? (fun h => decide (h.id = id)) = some old →
      ∀ review ∈ old.reviews, 1 ≤ review.rating ∧ review.rating ≤ 5) :
    1 ≤ hotel'.rating ∧ hotel'.rating ≤ 5 ∧ ∃ k : Int, hotel'.rating = (k : ℚ) / 10 := by
  rcases postHotelReview_cases rt db user id rating comment with
    ⟨-, s, m, herr⟩ | ⟨value, hotel, author, hr, hpass, hfind, -, -, hresp, -, hsize⟩
  · rw [hok] at herr; simp at herr
  · rw [hok] at hresp
    simp only [Response.ok.injEq] at hresp
    obtain ⟨w, hw, h1, h5⟩ := (ratingRejected_iff rating).1 hpass
    rw [hr] at hw
    have e : value = w := Option.some.inj hw
    subst e
    rw [hresp.2]
    apply averageRating_range
    · simp
    · exact hsize
    · intro review hmem
      rcases List.mem_append.1 hmem with hmem | hmem
      · exact hexisting hotel hfind review hmem
      · rw [List.mem_singleton.1 hmem]; exact ⟨h1, h5⟩

/-- Witness of C29: the review of 5 after the review of 4 leaves the rating 4.5. -/
theorem rating_range_witness :
    1 ≤ twiceReviewedHotel.rating ∧ twiceReviewedHotel.rating ≤ 5
      ∧ ∃ k : Int, twiceReviewedHotel.rating = (k : ℚ) / 10 :=
  rating_range sampleRuntime reviewedDb
    (postHotelReview sampleRuntime reviewedDb luis 10 (some 5) none).2 luis 10 (some 5) none 200
    twiceReviewedHotel (by decide!) (by decide!)

/-! ## Dates that do not parse -/

/-- A request with all required fields whose check-in is a valid date before today's midnight
is answered with the 400 check-in error, whether or not its check-out parses. -/
theorem past_checkin_rejected (rt : Runtime) (db : Db) (user : AuthUser)
    (body : ReservationRequest) (hotelId : ObjectId) (adults : ℚ) (roomType : String)
    (hh : body.hotelId = some hotelId) (ha : body.adults = some adults) (ha0 : adults ≠ 0)
    (hr : body.roomType = some roomType) (hr0 : roomType ≠ "")
    (h1 : truthyStr body.checkin = true) (h2 : truthyStr body.checkout = true)
    (ci : Int) (hci : newDate rt.dateParse body.checkin = some ci) (hpast : ci < rt.today) :
    postReservation rt db user body
      = (Response.error 400 "La fecha de check-in no puede ser anterior a hoy", db) := by
  simp [postReservation, hh, ha, hr, h1, h2, ha0, hr0, hci, dateLt, hpast]

/-- C30 (counterexample): a request whose check-out does not parse, with a valid check-in on
1 March 2030 handled on 5 March 2030, does not pass the check of the check-in against today:
it is answered with the 400 check-in error. -/
theorem invalid_checkout_rejected :
    newDate marchRuntime.dateParse badCheckoutBooking.checkout = none
    ∧ newDate marchRuntime.dateParse badCheckoutBooking.checkin = some 1898553600000
    ∧ dateLt (newDate marchRuntime.dateParse badCheckoutBooking.checkin)
        (some marchRuntime.today) = true
    ∧ postReservation marchRuntime sampleDb ana badCheckoutBooking
        = (Response.error 400 "La fecha de check-in no puede ser anterior a hoy", sampleDb) := by
  decide!

/-- C30 (amended): a request with all required fields whose check-in does not parse, or whose
check-out does not parse while its check-in is a valid date not before today's midnight,
passes both date checks and is not answered with a 400 date-validation error: it is answered
404 when the hotel is missing and 500 otherwise, and no reservation is stored. -/
theorem invalid_dates_pass_checks (rt : Runtime) (db : Db) (user : AuthUser)
    (body : ReservationRequest) (hotelId : ObjectId) (adults : ℚ) (roomType : String)
    (hh : body.hotelId = some hotelId) (ha : body.adults = some adults) (ha0 : adults ≠ 0)
    (hr : body.roomType = some roomType) (hr0 : roomType ≠ "")
    (h1 : truthyStr body.checkin = true) (h2 : truthyStr body.checkout = true)
    (hinvalid : newDate rt.dateParse body.checkin = none
      ∨ (newDate rt.dateParse body.checkout = none
          ∧ ∃ ci, newDate rt.dateParse body.checkin = some ci ∧ rt.today ≤ ci)) :
    dateLt (newDate rt.dateParse body.checkin) (some rt.today) = false
    ∧ dateLe (newDate rt.dateParse body.checkout) (newDate rt.dateParse body.checkin) = false
    ∧ (postReservation rt db user body).1
        ≠ Response.error 400 "La fecha de check-in no puede ser anterior a hoy"
    ∧ (postReservation rt db user body).1
        ≠ Response.error 400 "La fecha de check-out debe ser posterior al check-in"
    ∧ (db.hotels.find? (fun h => decide (h.id = hotelId)) = none →
        postReservation rt db user body = (Response.error 404 "Hotel no encontrado", db))
    ∧ (∀ hotel, db.hotels.find? (fun h => decide (h.id = hotelId)) = some hotel →
        (postReservation rt db user body).1
          = Response.error 500 "Reservation validation failed")
    ∧ (postReservation rt db user body).2.reservations = db.reservations := by
  have hlt : dateLt (newDate rt.dateParse body.checkin) (some rt.today) = false := by
    rcases hinvalid with h | ⟨-, ci, hci, htoday⟩
    · rw [h]; rfl
    · rw [hci]; simp [dateLt]; exact htoday
  have hle : dateLe (newDate rt.dateParse body.checkout) (newDate rt.dateParse body.checkin)
      = false := by
    rcases hinvalid with h | ⟨h, -⟩
    · rw [h]; cases newDate rt.dateParse body.checkout <;> rfl
    · rw [h]; rfl
  have hnew : ∀ (hotel : Hotel), newReservation rt.newId user.userId hotelId
      (newDate rt.dateParse body.checkin) (newDate rt.dateParse body.checkout) adults
      (if truthyNum body.children then body.children.getD 0 else 0) roomType
      (reservationTotal hotel.price
        (nightsBetween (newDate rt.dateParse body.checkin) (newDate rt.dateParse body.checkout)))
      (generateReservationNumber rt.now rt.random) rt.now = none := by
    intro hotel
    rcases hinvalid with h | ⟨h, -⟩
    · rw [h]; rfl
    · rw [h]; cases newDate rt.dateParse body.checkin <;> rfl
  have hpost : postReservation rt db user body
      = match db.hotels.find? (fun h => decide (h.id = hotelId)) with
        | none => (Response.error 404 "Hotel no encontrado", db)
        | some _ => reservationFailed rt db user "Reservation validation failed" := by
    simp only [postReservation, hh, ha, hr, h1, h2, hlt, hle, ha0, hr0, not_true_eq_false,
      or_self, if_false, Bool.false_eq_true]
    cases hfind : db.hotels.find? (fun h => decide (h.id = hotelId)) with
    | none => rfl
    | some hotel =>
      simp only [createReservation, hnew hotel]
  refine ⟨hlt, hle, ?_, ?_, ?_, ?_, ?_⟩
  · rw [hpost]; split <;> simp [reservationFailed]
  · rw [hpost]; split <;> simp [reservationFailed]
  · intro hnone; rw [hpost, hnone]
  · intro hotel hsome; rw [hpost, hsome]; rfl
  · rw [hpost]; split
    · rfl
    · exact createLog_reservations _ _ _ _ _ _

/-- Witness of C30: a booking whose check-in is no date, and one whose check-out is no date
while its check-in is after today, are answered 500 and nothing is stored. -/
theorem invalid_dates_pass_checks_witness :
    (postReservation sampleRuntime sampleDb ana badCheckinBooking).1
        = Response.error 500 "Reservation validation failed"
    ∧ (postReservation sampleRuntime sampleDb ana badCheckinBooking).2.reservations
        = sampleDb.reservations
    ∧ (postReservation sampleRuntime sampleDb ana badCheckoutBooking).1
        = Response.error 500 "Reservation validation failed"
    ∧ (postReservation sampleRuntime sampleDb ana badCheckoutBooking).1
        ≠ Response.error 400 "La fecha de check-in no puede ser anterior a hoy" :=
  ⟨(invalid_dates_pass_checks sampleRuntime sampleDb ana badCheckinBooking 10 2 "doble"
      rfl rfl (by norm_num) rfl (by decide) (by decide) (by decide)
      (Or.inl (by decide))).2.2.2.2.2.1
      { id := 10, name := "Hotel Plaza", location := "Reynosa", price := 850 } (by decide!),
   (invalid_dates_pass_checks sampleRuntime sampleDb ana badCheckinBooking 10 2 "doble"
      rfl rfl (by norm_num) rfl (by decide) (by decide) (by decide)
      (Or.inl (by decide))).2.2.2.2.2.2,
   (invalid_dates_pass_checks sampleRuntime sampleDb ana badCheckoutBooking 10 2 "doble"
      rfl rfl (by norm_num) rfl (by decide) (by decide) (by decide)
      (Or.inr ⟨by decide, 1898553600000, by decide, by decide⟩)).2.2.2.2.2.1
      { id := 10, name := "Hotel Plaza", location := "Reynosa", price := 850 } (by decide!),
   (invalid_dates_pass_checks sampleRuntime sampleDb ana badCheckoutBooking 10 2 "doble"
      rfl rfl (by norm_num) rfl (by decide) (by decide) (by decide)
      (Or.inr ⟨by decide, 1898553600000, by decide, by decide⟩)).2.2.1⟩

end VBDHotel
